import Mathlib

/-!
# libusbserial: a shallow embedding and its checked properties

The C sources (core.c, common.c, driver_ftdi.c, driver_silabs.c, driver_cdc.c)
are rendered as Lean functions.  Machine integers are natural numbers or
integers with explicit reduction modulo a power of two where the C arithmetic
can wrap.  External libusb, libc and pthread calls are answered by an explicit
environment record and logged in an explicit world state.  A C execution
that leaves the language-defined behaviour (reading past an array, dividing
by zero, using the value of a function that ended without a return
statement) is reported as a value of type stuck.
-/

namespace Usbserial

/-! ## Outcomes that are not a returned value -/

/-- Reasons why a C execution yields no defined value. -/
inductive stuck where
  /-- An array element beyond the declared length was read. -/
  | out_of_bounds
  /-- Integer division or remainder by zero. -/
  | div_by_zero
  /-- Control reached the closing brace of a non-void function and the caller uses the value. -/
  | no_return_value
  /-- An assert failed. -/
  | assertion_failed
  /-- The driver_specific_data pointer of a port was read as the data of another driver. -/
  | invalid_pointer_cast
  /-- A NULL function pointer was called. -/
  | null_function_call
  /-- An object was used after it had been freed. -/
  | use_after_free
  /-- The recursion budget of the model ran out; the C code would still be running. -/
  | out_of_fuel
  deriving DecidableEq, Repr

/-! ## Error codes (libusbserial.h) and the libusb codes used by the sources -/

/-- The macro DEFINE_USBSERIAL_ERROR of libusbserial.h. -/
def DEFINE_USBSERIAL_ERROR (num : Int) : Int := -1000000 - num

def USBSERIAL_ERROR_UNSUPPORTED_OPERATION : Int := DEFINE_USBSERIAL_ERROR 0
def USBSERIAL_ERROR_ILLEGAL_STATE : Int := DEFINE_USBSERIAL_ERROR 1
def USBSERIAL_ERROR_INVALID_PARAMETER : Int := DEFINE_USBSERIAL_ERROR 2
def USBSERIAL_ERROR_RESOURCE_ALLOC_FAILED : Int := DEFINE_USBSERIAL_ERROR 3
def USBSERIAL_ERROR_NO_SUCH_DEVICE : Int := DEFINE_USBSERIAL_ERROR 4
def USBSERIAL_ERROR_UNSUPPORTED_DEVICE : Int := DEFINE_USBSERIAL_ERROR 5
def USBSERIAL_ERROR_UNSUPPORTED_BAUD_RATE : Int := DEFINE_USBSERIAL_ERROR 6
def USBSERIAL_ERROR_INVALID_PORT_IDX : Int := DEFINE_USBSERIAL_ERROR 7
def USBSERIAL_ERROR_CTRL_CMD_FAILED : Int := DEFINE_USBSERIAL_ERROR 8

/-- The libusb.h value of LIBUSB_ERROR_NOT_FOUND. -/
def LIBUSB_ERROR_NOT_FOUND : Int := -5
/-- The libusb.h value of LIBUSB_ERROR_TIMEOUT. -/
def LIBUSB_ERROR_TIMEOUT : Int := -7
/-- The libusb.h value of LIBUSB_REQUEST_TYPE_VENDOR, which is 0x02 shifted left by 5. -/
def LIBUSB_REQUEST_TYPE_VENDOR : Nat := 0x40
/-- The libusb.h value of LIBUSB_RECIPIENT_DEVICE. -/
def LIBUSB_RECIPIENT_DEVICE : Nat := 0x00
/-- The libusb.h value of LIBUSB_RECIPIENT_INTERFACE. -/
def LIBUSB_RECIPIENT_INTERFACE : Nat := 0x01
/-- The libusb.h value of LIBUSB_ENDPOINT_IN. -/
def LIBUSB_ENDPOINT_IN : Nat := 0x80
/-- The libusb.h value of LIBUSB_TRANSFER_TYPE_BULK. -/
def LIBUSB_TRANSFER_TYPE_BULK : Nat := 2

/-- config.h -/
def READ_BUFFER_SIZE : Nat := 256

/-! ## Device matching predicates of the three drivers -/

def FTDI_VENDOR_ID : Nat := 0x0403
def FTDI_PRODUCT_ID_FT232R : Nat := 0x6001
def FTDI_PRODUCT_ID_FT2232 : Nat := 0x6010
def FTDI_PRODUCT_ID_FT4232H : Nat := 0x6011
def FTDI_PRODUCT_ID_FT231X : Nat := 0x6015

def SILABS_VENDOR_ID : Nat := 0x10c4
def SILABS_PRODUCT_ID_CP2102 : Nat := 0xea60
def SILABS_PRODUCT_ID_CP2105 : Nat := 0xea70
def SILABS_PRODUCT_ID_CP2108 : Nat := 0xea71
def SILABS_PRODUCT_ID_CP2110 : Nat := 0xea80

def ARDUINO_VENDOR_ID : Nat := 0x2341
def PROLIFIC_VENDOR_ID : Nat := 0x067b
def PROLIFIC_PRODUCT_ID_PL2303 : Nat := 0x2303
def CDC_DEVICE_CLASS : Nat := 0x02
def CDC_ACM_DEVICE_SUBCLASS : Nat := 0x02

/-- driver_ftdi.c, ftdi_check_supported_by_vid_pid. -/
def ftdi_check_supported_by_vid_pid (vendor_id product_id : Nat) : Int :=
  if FTDI_VENDOR_ID = vendor_id then
    if product_id = FTDI_PRODUCT_ID_FT232R ∨ product_id = FTDI_PRODUCT_ID_FT2232
        ∨ product_id = FTDI_PRODUCT_ID_FT4232H ∨ product_id = FTDI_PRODUCT_ID_FT231X then 1
    else 0
  else 0

/-- driver_silabs.c, silabs_check_supported_by_vid_pid. -/
def silabs_check_supported_by_vid_pid (vendor_id product_id : Nat) : Int :=
  if SILABS_VENDOR_ID = vendor_id then
    if product_id = SILABS_PRODUCT_ID_CP2102 ∨ product_id = SILABS_PRODUCT_ID_CP2105
        ∨ product_id = SILABS_PRODUCT_ID_CP2108 ∨ product_id = SILABS_PRODUCT_ID_CP2110 then 1
    else 0
  else 0

/-- driver_cdc.c, cdc_check_supported_by_vid_pid. -/
def cdc_check_supported_by_vid_pid (vendor_id product_id : Nat) : Int :=
  if PROLIFIC_VENDOR_ID = vendor_id ∧ PROLIFIC_PRODUCT_ID_PL2303 = product_id then 1 else 0

/-- driver_cdc.c, cdc_check_supported_by_class. -/
def cdc_check_supported_by_class (device_class device_subclass : Nat) : Int :=
  if CDC_DEVICE_CLASS = device_class
      ∧ (CDC_ACM_DEVICE_SUBCLASS = device_subclass ∨ 0 = device_subclass) then 1 else 0

/-- driver_ftdi.c, ftdi_get_device_short_name (the leading assert included). -/
def ftdi_get_device_short_name (vendor_id product_id _device_class _device_subclass : Nat) :
    Except stuck String :=
  if FTDI_VENDOR_ID ≠ vendor_id then .error .assertion_failed
  else if product_id = FTDI_PRODUCT_ID_FT232R then .ok "FT232R"
  else if product_id = FTDI_PRODUCT_ID_FT2232 then .ok "FT2232"
  else if product_id = FTDI_PRODUCT_ID_FT4232H then .ok "FT4232H"
  else if product_id = FTDI_PRODUCT_ID_FT231X then .ok "FT231X"
  else .ok "FTDI"

/-- driver_ftdi.c, ftdi_get_ports_count (the leading assert included). -/
def ftdi_get_ports_count (vendor_id product_id : Nat) : Except stuck Nat :=
  if FTDI_VENDOR_ID ≠ vendor_id then .error .assertion_failed
  else if product_id = FTDI_PRODUCT_ID_FT232R ∨ product_id = FTDI_PRODUCT_ID_FT231X then .ok 1
  else if product_id = FTDI_PRODUCT_ID_FT2232 then .ok 2
  else if product_id = FTDI_PRODUCT_ID_FT4232H then .ok 4
  else .ok 0

/-- driver_silabs.c, silabs_get_device_short_name (the leading assert included). -/
def silabs_get_device_short_name (vendor_id product_id _device_class _device_subclass : Nat) :
    Except stuck String :=
  if SILABS_VENDOR_ID ≠ vendor_id then .error .assertion_failed
  else if product_id = SILABS_PRODUCT_ID_CP2102 then .ok "CP2102"
  else if product_id = SILABS_PRODUCT_ID_CP2105 then .ok "CP2105"
  else if product_id = SILABS_PRODUCT_ID_CP2108 then .ok "CP2108"
  else if product_id = SILABS_PRODUCT_ID_CP2110 then .ok "CP2110"
  else .ok "CP21XX"

/-- driver_silabs.c, silabs_get_ports_count (the leading assert included). -/
def silabs_get_ports_count (vendor_id product_id : Nat) : Except stuck Nat :=
  if SILABS_VENDOR_ID ≠ vendor_id then .error .assertion_failed
  else if product_id = SILABS_PRODUCT_ID_CP2102 ∨ product_id = SILABS_PRODUCT_ID_CP2110 then .ok 1
  else if product_id = SILABS_PRODUCT_ID_CP2105 then .ok 2
  else if product_id = SILABS_PRODUCT_ID_CP2108 then .ok 4
  else .ok 0

/-- driver_cdc.c, cdc_get_device_short_name. -/
def cdc_get_device_short_name (vendor_id product_id _device_class _device_subclass : Nat) :
    Except stuck String :=
  if PROLIFIC_VENDOR_ID = vendor_id ∧ PROLIFIC_PRODUCT_ID_PL2303 = product_id then .ok "PL2303"
  else if vendor_id = ARDUINO_VENDOR_ID then .ok "Arduino"
  else .ok "CDC"

/-- driver_cdc.c, cdc_get_ports_count. -/
def cdc_get_ports_count (_vendor_id _product_id : Nat) : Except stuck Nat := .ok 1

/-! ## The driver registry and the two-pass lookup (core.c) -/

/-- Which of the three implementations a registry slot was filled by; it stands for the
port-operation function pointers of struct usbserial_driver, which are dispatched on below. -/
inductive driver_kind where
  | ftdi
  | silabs
  | cdc
  deriving DecidableEq, Repr

/-- The query part of struct usbserial_driver (driver.h).  A NULL function pointer is none. -/
structure usbserial_driver where
  check_supported_by_vid_pid : Option (Nat → Nat → Int)
  check_supported_by_class : Option (Nat → Nat → Int)
  get_device_short_name : Nat → Nat → Nat → Nat → Except stuck String
  get_ports_count : Nat → Nat → Except stuck Nat
  kind : driver_kind

/-- driver_ftdi.c, ftdi_driver_init. -/
def ftdi_driver_init : usbserial_driver :=
  { check_supported_by_vid_pid := some ftdi_check_supported_by_vid_pid
    check_supported_by_class := none
    get_device_short_name := ftdi_get_device_short_name
    get_ports_count := ftdi_get_ports_count
    kind := .ftdi }

/-- driver_silabs.c, silabs_driver_init. -/
def silabs_driver_init : usbserial_driver :=
  { check_supported_by_vid_pid := some silabs_check_supported_by_vid_pid
    check_supported_by_class := none
    get_device_short_name := silabs_get_device_short_name
    get_ports_count := silabs_get_ports_count
    kind := .silabs }

/-- driver_cdc.c, cdc_driver_init. -/
def cdc_driver_init : usbserial_driver :=
  { check_supported_by_vid_pid := some cdc_check_supported_by_vid_pid
    check_supported_by_class := some cdc_check_supported_by_class
    get_device_short_name := cdc_get_device_short_name
    get_ports_count := cdc_get_ports_count
    kind := .cdc }

/-- The global array drivers[3] of core.c as usbserial_init leaves it. -/
def drivers : List usbserial_driver := [ftdi_driver_init, silabs_driver_init, cdc_driver_init]

/-- The value of sizeof(drivers), the bound both loops of find_driver_for_usb_device use:
three elements of twelve function pointers each, with 8-byte pointers. -/
def sizeof_drivers : Nat := 3 * (12 * 8)

/-- One loop of find_driver_for_usb_device: slots i, i+1, ... are inspected while fewer than
the given number of iterations remain to be done; the first slot whose predicate is present
and answers non-zero is returned by index.  Reading a slot the array does not have is stuck. -/
def find_driver_scan (registry : List usbserial_driver)
    (check : usbserial_driver → Option Int) : Nat → Nat → Except stuck (Option Nat)
  | 0, _ => .ok none
  | remaining + 1, i =>
    match registry.get? i with
    | none => .error .out_of_bounds
    | some d =>
      match check d with
      | some r => if r ≠ 0 then .ok (some i) else find_driver_scan registry check remaining (i + 1)
      | none => find_driver_scan registry check remaining (i + 1)

/-- core.c, find_driver_for_usb_device.  The result is the index of the driver in the
registry (the C code returns the address of that element), or none for NULL. -/
def find_driver_for_usb_device (vendor_id product_id device_class device_subclass : Nat) :
    Except stuck (Option Nat) :=
  match find_driver_scan drivers
      (fun d => d.check_supported_by_vid_pid.map (fun f => f vendor_id product_id))
      sizeof_drivers 0 with
  | .error e => .error e
  | .ok (some i) => .ok (some i)
  | .ok none =>
    find_driver_scan drivers
      (fun d => d.check_supported_by_class.map (fun f => f device_class device_subclass))
      sizeof_drivers 0

/-- core.c, usbserial_is_device_supported. -/
def usbserial_is_device_supported (vendor_id product_id device_class device_subclass : Nat) :
    Except stuck Int :=
  match find_driver_for_usb_device vendor_id product_id device_class device_subclass with
  | .error e => .error e
  | .ok (some _) => .ok 1
  | .ok none => .ok 0

/-- core.c, usbserial_get_device_short_name; none is the NULL string. -/
def usbserial_get_device_short_name (vendor_id product_id device_class device_subclass : Nat) :
    Except stuck (Option String) :=
  match find_driver_for_usb_device vendor_id product_id device_class device_subclass with
  | .error e => .error e
  | .ok none => .ok none
  | .ok (some i) =>
    match drivers.get? i with
    | none => .error .out_of_bounds
    | some d =>
      match d.get_device_short_name vendor_id product_id device_class device_subclass with
      | .error e => .error e
      | .ok s => .ok (some s)

/-- core.c, usbserial_get_ports_count. -/
def usbserial_get_ports_count (vendor_id product_id device_class device_subclass : Nat) :
    Except stuck Nat :=
  match find_driver_for_usb_device vendor_id product_id device_class device_subclass with
  | .error e => .error e
  | .ok none => .ok 0
  | .ok (some i) =>
    match drivers.get? i with
    | none => .error .out_of_bounds
    | some d => d.get_ports_count vendor_id product_id

/-- Some registered driver has a vendor/product predicate that answers non-zero. -/
def vid_pid_matches (d : usbserial_driver) (vendor_id product_id : Nat) : Prop :=
  ∃ f, d.check_supported_by_vid_pid = some f ∧ f vendor_id product_id ≠ 0

/-- Slot i is the first one, in registration order, whose vendor/product predicate matches. -/
def first_vid_pid_match (vendor_id product_id i : Nat) : Prop :=
  (∃ d, drivers.get? i = some d ∧ vid_pid_matches d vendor_id product_id)
    ∧ ∀ j, j < i → ∀ d, drivers.get? j = some d → ¬ vid_pid_matches d vendor_id product_id

/-! ## FTDI baud-rate divisor search (driver_ftdi.c, convert_baudrate) -/

/-- Conversion of an unsigned 32-bit value to a C int (two's complement). -/
def to_int32 (n : Nat) : Int :=
  if n % 2 ^ 32 < 2 ^ 31 then ((n % 2 ^ 32 : Nat) : Int) else ((n % 2 ^ 32 : Nat) : Int) - 2 ^ 32

/-- driver_ftdi.c, enum ftdi_device_type. -/
inductive ftdi_device_type where
  | FTDI_DEVICE_TYPE_4232H
  | FTDI_DEVICE_TYPE_2232
  | FTDI_DEVICE_TYPE_OTHER
  deriving DecidableEq, Repr

/-- driver_ftdi.c, struct ftdi_baud_data. -/
structure ftdi_baud_data where
  best_baud : Nat
  index : Nat
  value : Nat
  deriving DecidableEq, Repr

/-- The local array frac_code of convert_baudrate. -/
def frac_code : List Nat := [0, 3, 2, 4, 1, 5, 6, 7]

/-- The three locals best_divisor, best_baudrate, best_baud_diff of convert_baudrate. -/
structure ftdi_search_state where
  best_divisor : Nat
  best_baudrate : Nat
  best_baud_diff : Int
  deriving DecidableEq, Repr

/-- The clamping of try_divisor in the loop body of convert_baudrate; the third test reads
divisor, not try_divisor, as the source does. -/
def ftdi_clamp_divisor (divisor try_divisor : Nat) : Nat :=
  if try_divisor ≤ 8 then 8
  else if try_divisor < 12 then 12
  else if divisor < 16 then 16
  else if try_divisor > 0x1FFFF then 0x1FFFF
  else try_divisor

/-- The estimate (24000000 + (try_divisor / 2)) / try_divisor of convert_baudrate. -/
def ftdi_baud_estimate (try_divisor : Nat) : Nat := (24000000 + try_divisor / 2) / try_divisor

/-- The absolute difference computed in convert_baudrate: the subtraction is done in
unsigned 32-bit arithmetic and stored in an int. -/
def ftdi_baud_diff (baud baud_estimate : Nat) : Int :=
  if baud_estimate < baud then to_int32 (baud - baud_estimate)
  else to_int32 (baud_estimate - baud)

/-- One iteration of the for loop of convert_baudrate; the Boolean tells whether the
iteration ended in break. -/
def ftdi_search_body (baud divisor i : Nat) (st : ftdi_search_state) : ftdi_search_state × Bool :=
  let try_divisor := ftdi_clamp_divisor divisor (divisor + i)
  let baud_estimate := ftdi_baud_estimate try_divisor
  let baud_diff := ftdi_baud_diff baud baud_estimate
  if i = 0 ∨ baud_diff < st.best_baud_diff then
    ({ best_divisor := try_divisor, best_baudrate := baud_estimate, best_baud_diff := baud_diff },
      decide (baud_diff = 0))
  else (st, false)

/-- The for loop of convert_baudrate (i = 0, then i = 1 unless the first iteration broke
out), from the initial values of the three locals. -/
def ftdi_search_loop (baud divisor : Nat) : ftdi_search_state :=
  let r0 := ftdi_search_body baud divisor 0
    { best_divisor := 0, best_baudrate := 0, best_baud_diff := 0 }
  if r0.2 then r0.1 else (ftdi_search_body baud divisor 1 r0.1).1

/-- The encoding of the best divisor with its two special cases. -/
def ftdi_encode_divisor (best_divisor : Nat) : Nat :=
  let encoded_divisor := (best_divisor >>> 3) ||| (frac_code.getD (best_divisor &&& 7) 0 <<< 14)
  if encoded_divisor = 1 then 0
  else if encoded_divisor = 0x4001 then 1
  else encoded_divisor

/-- The split of the encoded divisor into value and index; both are stored in uint16_t. -/
def ftdi_split_divisor (encoded_divisor : Nat) (device_type : ftdi_device_type)
    (control_idx : Nat) : Nat × Nat :=
  let value := encoded_divisor &&& 0xFFFF
  let index :=
    if device_type = .FTDI_DEVICE_TYPE_2232 ∨ device_type = .FTDI_DEVICE_TYPE_4232H then
      ((((encoded_divisor >>> 8) &&& 0xffff) &&& 0xFF00) ||| control_idx)
    else (encoded_divisor >>> 16) &&& 0xffff
  (index % 2 ^ 16, value % 2 ^ 16)

/-- driver_ftdi.c, convert_baudrate.  The first statement divides by baud. -/
def convert_baudrate (baud : Nat) (device_type : ftdi_device_type) (control_idx : Nat) :
    Except stuck ftdi_baud_data :=
  if baud = 0 then .error .div_by_zero
  else
    let divisor := 24000000 / baud
    let st := ftdi_search_loop baud divisor
    let encoded_divisor := ftdi_encode_divisor st.best_divisor
    let iv := ftdi_split_divisor encoded_divisor device_type control_idx
    .ok { best_baud := st.best_baudrate, index := iv.1, value := iv.2 }

/-! ## The USB transport, the heap and the thread primitives as an explicit world -/

/-- The arguments of one libusb_control_transfer call (the device handle and the timeout
left out); data is the payload buffer, empty for a NULL buffer. -/
structure control_setup where
  bmRequestType : Nat
  bRequest : Nat
  wValue : Nat
  wIndex : Nat
  data : List Nat
  wLength : Nat
  deriving DecidableEq, Repr

/-- The externally visible actions of the library, in the order they are performed. -/
inductive usb_event where
  | malloc_port (ok : Bool)
  | free_port
  | malloc_port_data (ok : Bool)
  | mutex_init (ret : Int)
  | mutex_lock (ret : Int)
  | mutex_unlock (ret : Int)
  | mutex_destroy
  | cond_init (ret : Int)
  | cond_destroy
  | get_active_config_descriptor (ret : Int)
  | claim_interface (interface_number : Int) (ret : Int)
  | release_interface (interface_number : Int) (ret : Int)
  | control_transfer (setup : control_setup) (ret : Int)
  deriving DecidableEq, Repr

/-- The state the library acts on: the interfaces of the device handle that are claimed, and
the log of actions so far. -/
structure usb_world where
  claimed : List Int
  trace : List usb_event
  deriving DecidableEq, Repr

/-- The device descriptor fields the library reads (libusb.h). -/
structure libusb_device_descriptor where
  idVendor : Nat
  idProduct : Nat
  bDeviceClass : Nat
  bDeviceSubClass : Nat
  bMaxPacketSize0 : Nat
  deriving DecidableEq, Repr

/-- The endpoint descriptor field the library reads (libusb.h). -/
structure libusb_endpoint_descriptor where
  bEndpointAddress : Nat
  deriving DecidableEq, Repr

/-- The first alternate setting of an interface (libusb.h); bNumEndpoints is the length of
the endpoint list. -/
structure libusb_interface_descriptor where
  endpoint : List libusb_endpoint_descriptor
  deriving DecidableEq, Repr

/-- An interface of the active configuration (libusb.h); a NULL altsetting is none. -/
structure libusb_interface where
  altsetting : Option libusb_interface_descriptor
  deriving DecidableEq, Repr

/-- The active configuration (libusb.h); bNumInterfaces is the length of the list. -/
structure libusb_config_descriptor where
  interface : List libusb_interface
  deriving DecidableEq, Repr

/-- The answers of the collaborators the library calls: libusb, malloc and pthread.  An
answer may depend on everything done so far, so that any failure can be injected at any
call. -/
structure usb_env where
  /-- Whether libusb_get_device returns a device. -/
  get_device : Bool
  /-- The return code of libusb_get_device_descriptor and the descriptor it fills in. -/
  get_device_descriptor : Int
  descriptor : libusb_device_descriptor
  /-- Whether a malloc call succeeds. -/
  malloc : List usb_event → Bool
  pthread_mutex_init : Int
  pthread_mutex_lock : Int
  pthread_cond_init : Int
  pthread_mutex_unlock : Int
  /-- The return code of libusb_get_active_config_descriptor and the configuration. -/
  get_active_config_descriptor : Int
  config : libusb_config_descriptor
  /-- The return code of libusb_claim_interface for an interface number. -/
  claim_interface : List usb_event → Int → Int
  /-- The return value of libusb_control_transfer: negative for an error, else the number
  of bytes transferred. -/
  control_transfer : List usb_event → control_setup → Int

/-- The libusb call libusb_control_transfer: answered by the environment and logged. -/
def libusb_control_transfer (env : usb_env) (w : usb_world) (setup : control_setup) :
    Int × usb_world :=
  let ret := env.control_transfer w.trace setup
  (ret, { w with trace := w.trace ++ [.control_transfer setup ret] })

/-- The libusb call libusb_claim_interface: on success the interface is claimed (claiming
an interface the handle already holds changes nothing). -/
def libusb_claim_interface (env : usb_env) (w : usb_world) (interface_number : Int) :
    Int × usb_world :=
  let ret := env.claim_interface w.trace interface_number
  (ret,
    { claimed :=
        if ret = 0 ∧ interface_number ∉ w.claimed then interface_number :: w.claimed
        else w.claimed
      trace := w.trace ++ [.claim_interface interface_number ret] })

/-- The libusb call libusb_release_interface: a claimed interface is released, an
unclaimed one gives LIBUSB_ERROR_NOT_FOUND. -/
def libusb_release_interface (w : usb_world) (interface_number : Int) : Int × usb_world :=
  let ret := if interface_number ∈ w.claimed then 0 else LIBUSB_ERROR_NOT_FOUND
  (ret,
    { claimed := w.claimed.erase interface_number
      trace := w.trace ++ [.release_interface interface_number ret] })

/-! ## Ports and line configuration -/

/-- driver_ftdi.c, struct ftdi_port_data; the transfer pointer is none when NULL. -/
structure ftdi_port_data where
  transfer : Option Nat
  device_type : ftdi_device_type
  control_idx : Nat
  deriving DecidableEq, Repr

/-- driver_silabs.c, struct silabs_port_data. -/
structure silabs_port_data where
  transfer : Option Nat
  deriving DecidableEq, Repr

/-- driver_cdc.c, struct cdc_port_data. -/
structure cdc_port_data where
  transfer : Option Nat
  read_ep : Nat
  write_ep : Nat
  read_ep_if : Int
  write_ep_if : Int
  deriving DecidableEq, Repr

/-- What the void pointer driver_specific_data of a port points to. -/
inductive driver_data where
  | ftdi (d : ftdi_port_data)
  | silabs (d : silabs_port_data)
  | cdc (d : cdc_port_data)
  deriving DecidableEq, Repr

/-- internal.h, struct usbserial_port.  The driver is the index of the registry slot; the
two callbacks are recorded by whether they are non-NULL; a NULL driver_specific_data is
none.  The handle, the user data pointer, the read buffer and the two thread primitives
live in the world. -/
structure usbserial_port where
  driver : Nat
  usb_device_descriptor : libusb_device_descriptor
  port_idx : Nat
  read_cb : Bool
  read_error_cb : Bool
  driver_specific_data : Option driver_data
  read_error_flag : Int
  deriving DecidableEq, Repr

/-- Modelled from the spec: the parity settings of a line configuration (none, odd, even,
mark, space); the enum USBSERIAL_PARITY_* is used by the drivers but declared in no file of
the sources.  A value outside the enum is invalid. -/
inductive usbserial_parity where
  | USBSERIAL_PARITY_NONE
  | USBSERIAL_PARITY_ODD
  | USBSERIAL_PARITY_EVEN
  | USBSERIAL_PARITY_MARK
  | USBSERIAL_PARITY_SPACE
  | invalid (raw : Nat)
  deriving DecidableEq, Repr

/-- Modelled from the spec: the stop-bits settings of a line configuration; the enum
USBSERIAL_STOPBITS_* is used by the drivers but declared in no file of the sources.  A
value outside the enum is invalid. -/
inductive usbserial_stop_bits where
  | USBSERIAL_STOPBITS_1
  | USBSERIAL_STOPBITS_1_5
  | USBSERIAL_STOPBITS_2
  | invalid (raw : Nat)
  deriving DecidableEq, Repr

/-- Modelled from the spec: the constant USBSERIAL_DATABITS_5, the data-bits count 5; it is
used by driver_silabs.c but declared in no file of the sources. -/
def USBSERIAL_DATABITS_5 : Nat := 5

/-- Modelled from the spec: struct usbserial_line_config with the four fields the drivers
read (baud, data_bits, parity, stop_bits); the struct is declared in no file of the
sources. -/
structure usbserial_line_config where
  baud : Nat
  data_bits : Nat
  parity : usbserial_parity
  stop_bits : usbserial_stop_bits
  deriving DecidableEq, Repr

/-! ## The FTDI driver (driver_ftdi.c) -/

def FTDI_SIO_REQUEST_RESET : Nat := 0
def FTDI_SIO_REQUEST_SET_BAUD_RATE : Nat := 3
def FTDI_SIO_REQUEST_SET_LINE_CONFIG : Nat := 4
def FTDI_SIO_RESET : Nat := 0
def FTDI_SIO_RESET_PURGE_RX : Nat := 1
def FTDI_SIO_RESET_PURGE_TX : Nat := 2
def FTDI_DEVICE_OUT_REQTYPE : Nat := LIBUSB_REQUEST_TYPE_VENDOR ||| LIBUSB_RECIPIENT_DEVICE
def FTDI_MODEM_STATUS_BYTES_COUNT : Nat := 2
def FTDI_PARITY_LINE_CONFIG_VALUE_SHIFT : Nat := 8
def FTDI_STOP_BITS_LINE_CONFIG_VALUE_SHIFT : Nat := 11
def FTDI_PARITY_NONE_LINE_CONFIG_VALUE : Nat := 0x00 <<< FTDI_PARITY_LINE_CONFIG_VALUE_SHIFT
def FTDI_STOP_BITS_1_LINE_CONFIG_VALUE : Nat := 0x00 <<< FTDI_STOP_BITS_LINE_CONFIG_VALUE_SHIFT
def FTDI_STOP_BITS_1_5_LINE_CONFIG_VALUE : Nat := 0x01 <<< FTDI_STOP_BITS_LINE_CONFIG_VALUE_SHIFT
def FTDI_STOP_BITS_2_LINE_CONFIG_VALUE : Nat := 0x02 <<< FTDI_STOP_BITS_LINE_CONFIG_VALUE_SHIFT

/-- driver_ftdi.c, ftdi_reset_ctrl. -/
def ftdi_reset_ctrl (env : usb_env) (w : usb_world) (sio control_idx : Nat) : Int × usb_world :=
  libusb_control_transfer env w
    { bmRequestType := FTDI_DEVICE_OUT_REQTYPE, bRequest := FTDI_SIO_REQUEST_RESET,
      wValue := sio, wIndex := control_idx, data := [], wLength := 0 }

/-- The switch at the head of ftdi_port_init: device type and control index (a uint16_t),
or none where the function returns USBSERIAL_ERROR_INVALID_PORT_IDX. -/
def ftdi_port_layout (idProduct port_idx : Nat) : Option (ftdi_device_type × Nat) :=
  if idProduct = FTDI_PRODUCT_ID_FT2232 then
    some (.FTDI_DEVICE_TYPE_2232, (port_idx + 1) % 2 ^ 16)
  else if idProduct = FTDI_PRODUCT_ID_FT4232H then
    some (.FTDI_DEVICE_TYPE_4232H, (port_idx + 1) % 2 ^ 16)
  else if 0 ≠ port_idx then none
  else some (.FTDI_DEVICE_TYPE_OTHER, 0)

/-- driver_ftdi.c, ftdi_port_init.  Returns the code, the port as the call leaves it, and
the world. -/
def ftdi_port_init (env : usb_env) (w : usb_world) (port : usbserial_port) :
    Int × usbserial_port × usb_world :=
  match ftdi_port_layout port.usb_device_descriptor.idProduct port.port_idx with
  | none => (USBSERIAL_ERROR_INVALID_PORT_IDX, port, w)
  | some (device_type, control_idx) =>
    let c := libusb_claim_interface env w (to_int32 port.port_idx)
    if c.1 ≠ 0 then (c.1, port, c.2)
    else
      let r := ftdi_reset_ctrl env c.2 FTDI_SIO_RESET control_idx
      if r.1 ≠ 0 then
        (r.1, port, (libusb_release_interface r.2 (to_int32 port.port_idx)).2)
      else
        let ok := env.malloc r.2.trace
        let w2 : usb_world := { r.2 with trace := r.2.trace ++ [.malloc_port_data ok] }
        if !ok then
          (USBSERIAL_ERROR_RESOURCE_ALLOC_FAILED, port,
            (libusb_release_interface w2 (to_int32 port.port_idx)).2)
        else
          let port_data : ftdi_port_data :=
            { transfer := none, device_type := device_type, control_idx := control_idx }
          (0, { port with driver_specific_data := some (.ftdi port_data) }, w2)

/-- The stop-bits switch of ftdi_port_set_line_config; none is the default branch. -/
def ftdi_stop_bits_value : usbserial_stop_bits → Option Nat
  | .USBSERIAL_STOPBITS_1 => some FTDI_STOP_BITS_1_LINE_CONFIG_VALUE
  | .USBSERIAL_STOPBITS_1_5 => some FTDI_STOP_BITS_1_5_LINE_CONFIG_VALUE
  | .USBSERIAL_STOPBITS_2 => some FTDI_STOP_BITS_2_LINE_CONFIG_VALUE
  | .invalid _ => none

/-- The parity switch of ftdi_port_set_line_config: every case of the source ors in
FTDI_PARITY_NONE_LINE_CONFIG_VALUE; none is the default branch. -/
def ftdi_parity_value : usbserial_parity → Option Nat
  | .USBSERIAL_PARITY_NONE => some FTDI_PARITY_NONE_LINE_CONFIG_VALUE
  | .USBSERIAL_PARITY_ODD => some FTDI_PARITY_NONE_LINE_CONFIG_VALUE
  | .USBSERIAL_PARITY_EVEN => some FTDI_PARITY_NONE_LINE_CONFIG_VALUE
  | .USBSERIAL_PARITY_MARK => some FTDI_PARITY_NONE_LINE_CONFIG_VALUE
  | .USBSERIAL_PARITY_SPACE => some FTDI_PARITY_NONE_LINE_CONFIG_VALUE
  | .invalid _ => none

/-- driver_ftdi.c, ftdi_port_set_line_config.  After the second control transfer has
succeeded the source reaches the closing brace without a return statement. -/
def ftdi_port_set_line_config (env : usb_env) (w : usb_world) (port : usbserial_port)
    (line_config : usbserial_line_config) : Except stuck Int × usb_world :=
  match port.driver_specific_data with
  | none => (.ok USBSERIAL_ERROR_ILLEGAL_STATE, w)
  | some (.silabs _) => (.error .invalid_pointer_cast, w)
  | some (.cdc _) => (.error .invalid_pointer_cast, w)
  | some (.ftdi port_data) =>
    match convert_baudrate line_config.baud port_data.device_type port_data.control_idx with
    | .error e => (.error e, w)
    | .ok converted_baudrate =>
      if line_config.baud ≠ converted_baudrate.best_baud then
        (.ok USBSERIAL_ERROR_UNSUPPORTED_BAUD_RATE, w)
      else
        match ftdi_stop_bits_value line_config.stop_bits with
        | none => (.ok USBSERIAL_ERROR_INVALID_PARAMETER, w)
        | some stop_value =>
          match ftdi_parity_value line_config.parity with
          | none => (.ok USBSERIAL_ERROR_INVALID_PARAMETER, w)
          | some parity_value =>
            let ftdi_line_config_value :=
              ((line_config.data_bits % 2 ^ 16) ||| stop_value) ||| parity_value
            let r1 := libusb_control_transfer env w
              { bmRequestType := FTDI_DEVICE_OUT_REQTYPE,
                bRequest := FTDI_SIO_REQUEST_SET_BAUD_RATE,
                wValue := converted_baudrate.value, wIndex := converted_baudrate.index,
                data := [], wLength := 0 }
            if r1.1 ≠ 0 then (.ok r1.1, r1.2)
            else
              let r2 := libusb_control_transfer env r1.2
                { bmRequestType := FTDI_DEVICE_OUT_REQTYPE,
                  bRequest := FTDI_SIO_REQUEST_SET_LINE_CONFIG,
                  wValue := ftdi_line_config_value, wIndex := port_data.control_idx,
                  data := [], wLength := 0 }
              if r2.1 ≠ 0 then (.ok r2.1, r2.2)
              else (.error .no_return_value, r2.2)

/-! ## The Silicon Labs driver (driver_silabs.c) -/

def SILABS_HOST_TO_DEVICE_REQTYPE : Nat := 0x41
def SILABS_IFC_REQUEST_CODE : Nat := 0x00
def SILABS_BAUDDIV_REQUEST_CODE : Nat := 0x01
def SILABS_BAUDRATE_REQUEST_CODE : Nat := 0x1e
def SILABS_FLUSH_REQUEST_CODE : Nat := 0x12
def SILABS_IFC_UART_ENABLE_VALUE : Nat := 0x0001
def SILABS_MHS_MCR_DTR_VALUE : Nat := 0x0001
def SILABS_MHS_MCR_RTS_VALUE : Nat := 0x0002
def SILABS_MHS_CTRL_DTR_VALUE : Nat := 0x0100
def SILABS_MHS_CTLR_RTS_VALUE : Nat := 0x0200
def SILABS_FLUSH_RX_VALUE : Nat := 0x0a
def SILABS_FLUSH_TX_VALUE : Nat := 0x05
def SILABS_BAUDDIV_GEN_FREQ_VALUE : Nat := 0x384000
def SILABS_DEFAULT_BAUD_RATE : Nat := 9600

/-- The four bytes memcpy copies from a uint32_t that usbserial_common_convert_to_le has put
in little-endian order. -/
def le32_bytes (x : Nat) : List Nat :=
  let v := x % 2 ^ 32
  [v % 256, v / 256 % 256, v / 65536 % 256, v / 16777216 % 256]

/-- driver_silabs.c, silabs_set_config; value is a uint16_t parameter. -/
def silabs_set_config (env : usb_env) (w : usb_world) (port : usbserial_port)
    (request_code value : Nat) : Int × usb_world :=
  libusb_control_transfer env w
    { bmRequestType := SILABS_HOST_TO_DEVICE_REQTYPE, bRequest := request_code,
      wValue := value % 2 ^ 16, wIndex := port.port_idx % 2 ^ 16, data := [], wLength := 0 }

/-- driver_silabs.c, silabs_port_init. -/
def silabs_port_init (env : usb_env) (w : usb_world) (port : usbserial_port) :
    Int × usbserial_port × usb_world :=
  let c := libusb_claim_interface env w (to_int32 port.port_idx)
  if c.1 ≠ 0 then (c.1, port, c.2)
  else
    let r1 := silabs_set_config env c.2 port SILABS_IFC_REQUEST_CODE SILABS_IFC_UART_ENABLE_VALUE
    if r1.1 ≠ 0 then (r1.1, port, (libusb_release_interface r1.2 (to_int32 port.port_idx)).2)
    else
      let r2 := silabs_set_config env r1.2 port SILABS_BAUDDIV_REQUEST_CODE
        (SILABS_MHS_MCR_DTR_VALUE ||| SILABS_MHS_MCR_RTS_VALUE ||| SILABS_MHS_CTRL_DTR_VALUE
          ||| SILABS_MHS_CTLR_RTS_VALUE)
      if r2.1 ≠ 0 then (r2.1, port, (libusb_release_interface r2.2 (to_int32 port.port_idx)).2)
      else
        let r3 := silabs_set_config env r2.2 port SILABS_BAUDDIV_REQUEST_CODE
          (SILABS_BAUDDIV_GEN_FREQ_VALUE / SILABS_DEFAULT_BAUD_RATE)
        if r3.1 ≠ 0 then
          (r3.1, port, (libusb_release_interface r3.2 (to_int32 port.port_idx)).2)
        else
          let ok := env.malloc r3.2.trace
          let w2 : usb_world := { r3.2 with trace := r3.2.trace ++ [.malloc_port_data ok] }
          if !ok then
            (USBSERIAL_ERROR_RESOURCE_ALLOC_FAILED, port,
              (libusb_release_interface w2 (to_int32 port.port_idx)).2)
          else
            let port_data : silabs_port_data := { transfer := none }
            (0, { port with driver_specific_data := some (.silabs port_data) }, w2)

/-- The parity switch of silabs_port_set_line_config; none is the default branch. -/
def silabs_parity_byte : usbserial_parity → Option Nat
  | .USBSERIAL_PARITY_NONE => some 0
  | .USBSERIAL_PARITY_ODD => some 1
  | .USBSERIAL_PARITY_EVEN => some 2
  | .USBSERIAL_PARITY_MARK => some 3
  | .USBSERIAL_PARITY_SPACE => some 4
  | .invalid _ => none

/-- The stop-bits switch of silabs_port_set_line_config: the stop-bits byte, or the error
code the branch returns. -/
def silabs_stop_bits_byte (stop_bits : usbserial_stop_bits) (data_bits : Nat) : Except Int Nat :=
  match stop_bits with
  | .USBSERIAL_STOPBITS_1 => .ok 0
  | .USBSERIAL_STOPBITS_1_5 =>
    if USBSERIAL_DATABITS_5 ≠ data_bits then .error USBSERIAL_ERROR_UNSUPPORTED_OPERATION
    else .ok 1
  | .USBSERIAL_STOPBITS_2 =>
    if USBSERIAL_DATABITS_5 = data_bits then .error USBSERIAL_ERROR_UNSUPPORTED_OPERATION
    else .ok 1
  | .invalid _ => .error USBSERIAL_ERROR_INVALID_PARAMETER

/-- driver_silabs.c, silabs_port_set_line_config. -/
def silabs_port_set_line_config (env : usb_env) (w : usb_world) (port : usbserial_port)
    (line_config : usbserial_line_config) : Except stuck Int × usb_world :=
  match silabs_parity_byte line_config.parity with
  | none => (.ok USBSERIAL_ERROR_INVALID_PARAMETER, w)
  | some parity_byte =>
    let flow_control_byte := 0
    let data_bits_byte := line_config.data_bits % 256
    match silabs_stop_bits_byte line_config.stop_bits line_config.data_bits with
    | .error e => (.ok e, w)
    | .ok stop_bits_byte =>
      let data := le32_bytes line_config.baud
        ++ [parity_byte, flow_control_byte, data_bits_byte, stop_bits_byte]
      let r := libusb_control_transfer env w
        { bmRequestType := SILABS_HOST_TO_DEVICE_REQTYPE,
          bRequest := SILABS_BAUDRATE_REQUEST_CODE,
          wValue := 0, wIndex := port.port_idx % 2 ^ 16, data := data, wLength := 8 }
      if r.1 > 0 then
        if r.1 = 8 then (.ok 0, r.2) else (.ok USBSERIAL_ERROR_CTRL_CMD_FAILED, r.2)
      else (.ok r.1, r.2)

/-! ## The CDC/ACM and Prolific driver (driver_cdc.c) -/

def CDC_ACM_REQTYPE : Nat := LIBUSB_RECIPIENT_INTERFACE ||| 0x20
def CDC_SET_LINE_CODING_REQUEST_CODE : Nat := 0x20
def PROLIFIC_VENDOR_OUT_REQTYPE : Nat := 0x40
def PROLIFIC_VENDOR_WRITE_REQUEST_CODE : Nat := 0x01
def PROLIFIC_FLUSH_RX_VALUE : Nat := 0x08
def PROLIFIC_FLUSH_TX_VALUE : Nat := 0x09

/-- The locals of cdc_port_init that the endpoint search fills in. -/
structure cdc_scan_state where
  found_read_ep : Bool
  read_ep : Nat
  read_ep_if : Int
  found_write_ep : Bool
  write_ep : Nat
  write_ep_if : Int
  deriving DecidableEq, Repr

/-- The body of the inner loop of cdc_port_init for endpoint j of interface i. -/
def cdc_scan_endpoint (i : Nat) (st : cdc_scan_state) (endpoint : libusb_endpoint_descriptor) :
    cdc_scan_state :=
  if endpoint.bEndpointAddress &&& LIBUSB_TRANSFER_TYPE_BULK ≠ 0 then
    if endpoint.bEndpointAddress &&& LIBUSB_ENDPOINT_IN ≠ 0 then
      if !st.found_read_ep then
        { st with found_read_ep := true, read_ep := endpoint.bEndpointAddress, read_ep_if := i }
      else st
    else
      if !st.found_write_ep then
        { st with found_write_ep := true, write_ep := endpoint.bEndpointAddress,
                  write_ep_if := i }
      else st
  else st

/-- The body of the outer loop of cdc_port_init for interface i. -/
def cdc_scan_interface (st : cdc_scan_state) (entry : Nat × libusb_interface) : cdc_scan_state :=
  match entry.2.altsetting with
  | none => st
  | some altsetting =>
    if altsetting.endpoint.length > 0 then
      altsetting.endpoint.foldl (cdc_scan_endpoint entry.1) st
    else st

/-- The endpoint search of cdc_port_init over the active configuration. -/
def cdc_scan_config (config : libusb_config_descriptor) : cdc_scan_state :=
  config.interface.enum.foldl cdc_scan_interface
    { found_read_ep := false, read_ep := 0, read_ep_if := -1,
      found_write_ep := false, write_ep := 0, write_ep_if := -1 }

/-- The label relase_if_and_return of cdc_port_init. -/
def cdc_release_if_and_return (w : usb_world) (ret : Int) (port : usbserial_port)
    (claimed_read_ep_if claimed_write_ep_if : Bool) (read_ep_if write_ep_if : Int) :
    Int × usbserial_port × usb_world :=
  let w1 := if claimed_read_ep_if then (libusb_release_interface w read_ep_if).2 else w
  let w2 :=
    if claimed_write_ep_if ∧ read_ep_if ≠ write_ep_if then
      (libusb_release_interface w1 write_ep_if).2
    else w1
  (ret, port, w2)

/-- The part of cdc_port_init after both interfaces are claimed. -/
def cdc_port_init_alloc (env : usb_env) (w : usb_world) (port : usbserial_port)
    (st : cdc_scan_state) : Int × usbserial_port × usb_world :=
  let ok := env.malloc w.trace
  let w2 : usb_world := { w with trace := w.trace ++ [.malloc_port_data ok] }
  if !ok then
    cdc_release_if_and_return w2 USBSERIAL_ERROR_RESOURCE_ALLOC_FAILED port true true
      st.read_ep_if st.write_ep_if
  else
    let port_data : cdc_port_data :=
      { transfer := none, read_ep := st.read_ep, write_ep := st.write_ep,
        read_ep_if := st.read_ep_if, write_ep_if := st.write_ep_if }
    (0, { port with driver_specific_data := some (.cdc port_data) }, w2)

/-- driver_cdc.c, cdc_port_init. -/
def cdc_port_init (env : usb_env) (w : usb_world) (port : usbserial_port) :
    Int × usbserial_port × usb_world :=
  let ret := env.get_active_config_descriptor
  let w0 : usb_world := { w with trace := w.trace ++ [.get_active_config_descriptor ret] }
  if ret ≠ 0 then (ret, port, w0)
  else
    let st := cdc_scan_config env.config
    if !st.found_read_ep || !st.found_write_ep then (USBSERIAL_ERROR_UNSUPPORTED_DEVICE, port, w0)
    else
      let c1 := libusb_claim_interface env w0 st.read_ep_if
      if c1.1 ≠ 0 then
        cdc_release_if_and_return c1.2 c1.1 port false false st.read_ep_if st.write_ep_if
      else if st.read_ep_if ≠ st.write_ep_if then
        let c2 := libusb_claim_interface env c1.2 st.write_ep_if
        if c2.1 ≠ 0 then
          cdc_release_if_and_return c2.2 c2.1 port true false st.read_ep_if st.write_ep_if
        else cdc_port_init_alloc env c2.2 port st
      else cdc_port_init_alloc env c1.2 port st

/-- driver_cdc.c, cdc_port_set_baudrate. -/
def cdc_port_set_baudrate (env : usb_env) (w : usb_world) (_port : usbserial_port) (baud : Nat) :
    Except stuck Int × usb_world :=
  let data := le32_bytes baud ++ [0, 0, 8]
  let r := libusb_control_transfer env w
    { bmRequestType := CDC_ACM_REQTYPE, bRequest := CDC_SET_LINE_CODING_REQUEST_CODE,
      wValue := 0, wIndex := 0, data := data, wLength := 7 }
  if r.1 > 0 then
    if r.1 = 7 then (.ok 0, r.2) else (.ok USBSERIAL_ERROR_CTRL_CMD_FAILED, r.2)
  else (.ok r.1, r.2)

/-! ## Port initialisation (core.c, usbserial_port_init) -/

/-- What a call of usbserial_port_init leaves behind: the returned code, the content of
the caller's variable that out_port points to (none for a NULL out_port; inside, none is a
NULL port pointer), and the world. -/
structure port_init_result where
  ret : Except stuck Int
  out_port : Option (Option usbserial_port)
  world : usb_world
  deriving Repr

/-- Appends one action to the log. -/
def usb_world.log (w : usb_world) (e : usb_event) : usb_world :=
  { w with trace := w.trace ++ [e] }

/-- The label fail of usbserial_port_init; port tells whether the local pointer port is
non-NULL there. -/
def usbserial_port_init_fail (w : usb_world) (ret : Int) (port : Bool)
    (mutex_initialized cancel_cond_initialized : Bool)
    (out_port : Option (Option usbserial_port)) : port_init_result :=
  if ret = 0 then { ret := .error .assertion_failed, out_port := out_port, world := w }
  else if port then
    let w1 := if mutex_initialized then w.log .mutex_destroy else w
    let w2 := if cancel_cond_initialized then w1.log .cond_destroy else w1
    { ret := .ok ret, out_port := out_port, world := w2.log .free_port }
  else { ret := .ok ret, out_port := out_port, world := w }

/-- Modelled from the spec: the line configuration usbserial_port_init applies, the
requested baud with the default 8/N/1 framing.  It bridges the call
driver->port_set_baud_rate(port, baud) of core.c to the member port_set_line_config that
driver.h declares and the FTDI and Silicon Labs drivers register. -/
def default_line_config (baud : Nat) : usbserial_line_config :=
  { baud := baud, data_bits := 8, parity := .USBSERIAL_PARITY_NONE,
    stop_bits := .USBSERIAL_STOPBITS_1 }

/-- The call driver->port_init(port) through the function-pointer table. -/
def driver_port_init (kind : driver_kind) (env : usb_env) (w : usb_world)
    (port : usbserial_port) : Int × usbserial_port × usb_world :=
  match kind with
  | .ftdi => ftdi_port_init env w port
  | .silabs => silabs_port_init env w port
  | .cdc => cdc_port_init env w port

/-- Modelled from the spec: the configuration step of usbserial_port_init.  core.c writes
it as driver->port_set_baud_rate(port, baud), a member that struct usbserial_driver of
driver.h does not declare: driver.h declares port_set_line_config, which the FTDI and the
Silicon Labs driver register, while the CDC driver registers cdc_port_set_baudrate under
the name core.c uses.  As the spec has it (the encoder's configure-line operation with the
default 8/N/1 framing), FTDI and Silicon Labs are handed the default line configuration
for the baud, and CDC the baud. -/
def driver_port_set_baud_rate (kind : driver_kind) (env : usb_env) (w : usb_world)
    (port : usbserial_port) (baud : Nat) : Except stuck Int × usb_world :=
  match kind with
  | .ftdi => ftdi_port_set_line_config env w port (default_line_config baud)
  | .silabs => silabs_port_set_line_config env w port (default_line_config baud)
  | .cdc => cdc_port_set_baudrate env w port baud

/-- The part of usbserial_port_init from the assignment of the port fields on
(core.c lines 199 to 229), the non-WIN32 branch. -/
def usbserial_port_init_driver (env : usb_env) (w : usb_world) (driver : Nat)
    (kind : driver_kind) (port_idx baud : Nat) (read_cb read_error_cb : Bool) :
    port_init_result :=
  let port : usbserial_port :=
    { driver := driver, usb_device_descriptor := env.descriptor, port_idx := port_idx,
      read_cb := read_cb, read_error_cb := read_error_cb, driver_specific_data := none,
      read_error_flag := 0 }
  let w1 := w.log (.mutex_unlock env.pthread_mutex_unlock)
  if env.pthread_mutex_unlock ≠ 0 then
    usbserial_port_init_fail w1 USBSERIAL_ERROR_RESOURCE_ALLOC_FAILED true true true (some none)
  else
    let r := driver_port_init kind env w1 port
    if r.1 ≠ 0 then usbserial_port_init_fail r.2.2 r.1 true true true (some none)
    else
      let out_port := some (some r.2.1)
      let b := driver_port_set_baud_rate kind env r.2.2 r.2.1 baud
      match b.1 with
      | .error e => { ret := .error e, out_port := out_port, world := b.2 }
      | .ok ret =>
        if ret ≠ 0 then usbserial_port_init_fail b.2 ret true true true out_port
        else { ret := .ok 0, out_port := out_port, world := b.2 }

/-- The part of usbserial_port_init from malloc to pthread_cond_init (core.c lines 162 to
197), the non-WIN32 branch. -/
def usbserial_port_init_alloc (env : usb_env) (w : usb_world) (driver : Nat)
    (kind : driver_kind) (port_idx baud : Nat) (read_cb read_error_cb : Bool) :
    port_init_result :=
  let ok := env.malloc w.trace
  let w1 := w.log (.malloc_port ok)
  if !ok then
    usbserial_port_init_fail w1 USBSERIAL_ERROR_RESOURCE_ALLOC_FAILED false false false (some none)
  else
    let w2 := w1.log (.mutex_init env.pthread_mutex_init)
    if env.pthread_mutex_init ≠ 0 then
      usbserial_port_init_fail w2 USBSERIAL_ERROR_RESOURCE_ALLOC_FAILED true false false
        (some none)
    else
      let w3 := w2.log (.mutex_lock env.pthread_mutex_lock)
      if env.pthread_mutex_lock ≠ 0 then
        usbserial_port_init_fail w3 USBSERIAL_ERROR_RESOURCE_ALLOC_FAILED true true false
          (some none)
      else
        let w4 := w3.log (.cond_init env.pthread_cond_init)
        if env.pthread_cond_init ≠ 0 then
          usbserial_port_init_fail w4 USBSERIAL_ERROR_RESOURCE_ALLOC_FAILED true true false
            (some none)
        else
          usbserial_port_init_driver env w4 driver kind port_idx baud read_cb read_error_cb

/-- core.c, usbserial_port_init.  A NULL out_port is none, else out_port holds the content
of the caller's variable before the call; usb_device_handle tells whether the handle is
non-NULL. -/
def usbserial_port_init (env : usb_env) (w : usb_world)
    (out_port : Option (Option usbserial_port)) (usb_device_handle : Bool)
    (port_idx baud : Nat) (read_cb read_error_cb : Bool) : port_init_result :=
  if out_port.isNone || !usb_device_handle then
    { ret := .ok USBSERIAL_ERROR_INVALID_PARAMETER, out_port := out_port, world := w }
  else if !env.get_device then
    { ret := .ok USBSERIAL_ERROR_NO_SUCH_DEVICE, out_port := some none, world := w }
  else if env.get_device_descriptor ≠ 0 then
    usbserial_port_init_fail w env.get_device_descriptor false false false (some none)
  else
    match find_driver_for_usb_device env.descriptor.idVendor env.descriptor.idProduct
        env.descriptor.bDeviceClass env.descriptor.bDeviceSubClass with
    | .error e => { ret := .error e, out_port := some none, world := w }
    | .ok none =>
      usbserial_port_init_fail w USBSERIAL_ERROR_UNSUPPORTED_DEVICE false false false (some none)
    | .ok (some driver) =>
      match drivers.get? driver with
      | none => { ret := .error .out_of_bounds, out_port := some none, world := w }
      | some d =>
        usbserial_port_init_alloc env w driver d.kind port_idx baud read_cb read_error_cb

/-! ## Concrete environments used to evaluate the model -/

/-- An environment in which every collaborator call succeeds: the device and its descriptor
are available, allocation and the thread primitives succeed, every interface can be claimed
and every control transfer moves its whole payload. -/
def cooperative_env (descriptor : libusb_device_descriptor) : usb_env :=
  { get_device := true
    get_device_descriptor := 0
    descriptor := descriptor
    malloc := fun _ => true
    pthread_mutex_init := 0
    pthread_mutex_lock := 0
    pthread_cond_init := 0
    pthread_mutex_unlock := 0
    get_active_config_descriptor := 0
    config := { interface := [] }
    claim_interface := fun _ _ => 0
    control_transfer := fun _ setup => setup.wLength }

/-- A world in which the handle holds no interface and nothing has happened yet. -/
def fresh_world : usb_world := { claimed := [], trace := [] }

/-- The device descriptor of an FTDI FT232R adapter. -/
def ft232r_descriptor : libusb_device_descriptor :=
  { idVendor := 0x0403, idProduct := 0x6001, bDeviceClass := 0, bDeviceSubClass := 0,
    bMaxPacketSize0 := 8 }

/-- The device descriptor of a device no driver knows: vendor 0x1234, product 0x5678,
vendor-specific class. -/
def unknown_descriptor : libusb_device_descriptor :=
  { idVendor := 0x1234, idProduct := 0x5678, bDeviceClass := 0xff, bDeviceSubClass := 0,
    bMaxPacketSize0 := 8 }

/-- The private data ftdi_port_init creates for port 0 of an FT232R. -/
def ft232r_port_data : ftdi_port_data :=
  { transfer := none, device_type := .FTDI_DEVICE_TYPE_OTHER, control_idx := 0 }

/-- Port 0 of an FT232R as a successful ftdi_port_init leaves it. -/
def ft232r_port : usbserial_port :=
  { driver := 0, usb_device_descriptor := ft232r_descriptor, port_idx := 0, read_cb := true,
    read_error_cb := false, driver_specific_data := some (.ftdi ft232r_port_data),
    read_error_flag := 0 }

/-- The device descriptor of a Prolific PL2303 adapter. -/
def pl2303_descriptor : libusb_device_descriptor :=
  { idVendor := 0x067b, idProduct := 0x2303, bDeviceClass := 0, bDeviceSubClass := 0,
    bMaxPacketSize0 := 64 }

/-- The active configuration of a PL2303: one interface with the interrupt endpoint 0x81,
the bulk OUT endpoint 0x02 and the bulk IN endpoint 0x83. -/
def pl2303_config : libusb_config_descriptor :=
  { interface :=
      [{ altsetting := some
          { endpoint := [{ bEndpointAddress := 0x81 }, { bEndpointAddress := 0x02 },
                         { bEndpointAddress := 0x83 }] } }] }

/-- An environment with a PL2303 attached in which every collaborator call succeeds except
the control transfers, which all time out. -/
def pl2303_timeout_env : usb_env :=
  { cooperative_env pl2303_descriptor with
    config := pl2303_config
    control_transfer := fun _ _ => LIBUSB_ERROR_TIMEOUT }

/-! ## FTDI inbound postprocessing (driver_ftdi.c, ftdi_read_data_postprocessor) -/

/-- The for loop of ftdi_read_data_postprocessor, from the loop variable i on.  The first
argument is the recursion budget.  In the first branch the body and the loop header each
increment i.  Besides skip_bytes_count and the buffer, the list of the copies done is
returned, each as (destination index i - skip_bytes_count, source index i). -/
def ftdi_strip_loop (max_packet_size unfiltered_bytes_count : Nat) :
    Nat → Nat → Nat → List Nat → List (Int × Nat) →
      Except stuck (Nat × List Nat × List (Int × Nat))
  | 0, i, skip_bytes_count, data, copies =>
    if i < unfiltered_bytes_count then .error .out_of_fuel
    else .ok (skip_bytes_count, data, copies)
  | fuel + 1, i, skip_bytes_count, data, copies =>
    if i < unfiltered_bytes_count then
      if max_packet_size = 0 then .error .div_by_zero
      else if 0 = i % max_packet_size then
        ftdi_strip_loop max_packet_size unfiltered_bytes_count fuel (i + 2)
          (skip_bytes_count + FTDI_MODEM_STATUS_BYTES_COUNT) data copies
      else
        match data.get? i with
        | none => .error .out_of_bounds
        | some b =>
          ftdi_strip_loop max_packet_size unfiltered_bytes_count fuel (i + 1) skip_bytes_count
            (data.set (i - skip_bytes_count) b)
            (copies ++ [((i : Int) - (skip_bytes_count : Int), i)])
    else .ok (skip_bytes_count, data, copies)

/-- driver_ftdi.c, ftdi_read_data_postprocessor: the buffer and the byte count as the call
leaves them.  The count is an unsigned int, so the final subtraction is modulo 2^32. -/
def ftdi_read_data_postprocessor (port : usbserial_port) (data : List Nat) (bytes_count : Nat) :
    Except stuck (List Nat × Nat) :=
  match ftdi_strip_loop port.usb_device_descriptor.bMaxPacketSize0 bytes_count bytes_count
      FTDI_MODEM_STATUS_BYTES_COUNT FTDI_MODEM_STATUS_BYTES_COUNT data [] with
  | .error e => .error e
  | .ok r => .ok (r.2.1, (bytes_count + 2 ^ 32 - r.1 % 2 ^ 32) % 2 ^ 32)

/-- In the words of the spec: the received bytes are cut into chunks of max_packet_size
bytes, the 2-byte status header at the start of every chunk is removed, and what is left
is concatenated in order.  The first argument bounds the number of chunks. -/
def strip_status_headers (max_packet_size : Nat) : Nat → List Nat → List Nat
  | 0, _ => []
  | fuel + 1, received =>
    if received.isEmpty then []
    else (received.take max_packet_size).drop 2
      ++ strip_status_headers max_packet_size fuel (received.drop max_packet_size)

/-- The bytes of a list kept by position: the byte at offset j of the stream is kept when
its offset within its chunk, j modulo max_packet_size, is at least 2. -/
def payload_from (max_packet_size : Nat) : Nat → List Nat → List Nat
  | _, [] => []
  | j, x :: xs =>
    if 2 ≤ j % max_packet_size then x :: payload_from max_packet_size (j + 1) xs
    else payload_from max_packet_size (j + 1) xs

/-- A port whose device reports the given bMaxPacketSize0. -/
def port_with_packet_size (max_packet_size : Nat) : usbserial_port :=
  { ft232r_port with
    usb_device_descriptor := { ft232r_descriptor with bMaxPacketSize0 := max_packet_size } }

/-! ## The synchronous write path (common.c, usbserial_common_bulk_write) -/

/-- One libusb_bulk_transfer call made by the write path: the endpoint, the bytes at the
data pointer it was handed, the length argument (a C int), and the transport's answer, the
return code and the value stored in actual_length. -/
structure bulk_call where
  endpoint : Nat
  data : List Nat
  length : Int
  ret : Int
  actual_length : Int
  deriving DecidableEq, Repr

/-- The transport's answer to a libusb_bulk_transfer call, given the calls made before, the
endpoint, the bytes at the data pointer and the length argument: the return code and the
value stored in actual_length. -/
abbrev bulk_transport := List bulk_call → Nat → List Nat → Int → Int × Int

/-- common.c, usbserial_common_bulk_write, with the calls made so far threaded through.  The
first argument is the recursion budget; a NULL data pointer is none; the device handle is
taken to be non-NULL.  The remaining count bytes_count - actual_length is computed in
unsigned 32-bit arithmetic. -/
def usbserial_common_bulk_write (transport : bulk_transport) :
    Nat → List bulk_call → Nat → Option (List Nat) → Nat → Except stuck Int × List bulk_call
  | 0, calls, _, data, bytes_count =>
    if ¬ (0 = bytes_count ∨ data.isSome) then (.error .assertion_failed, calls)
    else if 0 = bytes_count then (.ok 0, calls)
    else (.error .out_of_fuel, calls)
  | fuel + 1, calls, endpoint, data, bytes_count =>
    if ¬ (0 = bytes_count ∨ data.isSome) then (.error .assertion_failed, calls)
    else if 0 = bytes_count then (.ok 0, calls)
    else
      let buffer := data.getD []
      let answer := transport calls endpoint buffer (to_int32 bytes_count)
      let bulk_transfer_ret := answer.1
      let actual_length := answer.2
      let calls' := calls ++
        [{ endpoint := endpoint, data := buffer, length := to_int32 bytes_count,
           ret := bulk_transfer_ret, actual_length := actual_length }]
      if 0 = bulk_transfer_ret ∨ bulk_transfer_ret = LIBUSB_ERROR_TIMEOUT then
        if actual_length < 0 ∨ actual_length = to_int32 bytes_count then
          (.ok bulk_transfer_ret, calls')
        else
          usbserial_common_bulk_write transport fuel calls' endpoint
            (some (buffer.drop actual_length.toNat))
            (((bytes_count : Int) - actual_length) % 2 ^ 32).toNat
      else (.ok bulk_transfer_ret, calls')

/-- A transport that reports success on every call and accepts at most K bytes of what it
is offered. -/
def accept_at_most (K : Nat) : bulk_transport :=
  fun _ _ _ length => (0, ((min K length.toNat : Nat) : Int))

/-- The bytes a call got accepted: the first actual_length bytes at its data pointer. -/
def bulk_call.accepted (c : bulk_call) : List Nat := c.data.take c.actual_length.toNat

/-- A transport that accepts 3 bytes on the first call and answers every later call with
the given status, leaving actual_length at 0. -/
def accept_three_then (status : Int) : bulk_transport :=
  fun calls _ _ _ => if calls.length = 0 then (0, 3) else (status, 0)

/-- The device descriptor of a Silicon Labs CP2102 adapter. -/
def cp2102_descriptor : libusb_device_descriptor :=
  { idVendor := 0x10c4, idProduct := 0xea60, bDeviceClass := 0, bDeviceSubClass := 0,
    bMaxPacketSize0 := 64 }

/-- Port 0 of a CP2102 as a successful silabs_port_init leaves it. -/
def cp2102_port : usbserial_port :=
  { driver := 1, usb_device_descriptor := cp2102_descriptor, port_idx := 0, read_cb := true,
    read_error_cb := false, driver_specific_data := some (.silabs { transfer := none }),
    read_error_flag := 0 }

/-- The port of a PL2303 as a successful cdc_port_init leaves it. -/
def pl2303_port : usbserial_port :=
  { driver := 2, usb_device_descriptor := pl2303_descriptor, port_idx := 0, read_cb := true,
    read_error_cb := false,
    driver_specific_data := some (.cdc
      { transfer := none, read_ep := 0x83, write_ep := 0x02, read_ep_if := 0,
        write_ep_if := 0 }),
    read_error_flag := 0 }

/-- An environment in which every control transfer reports that it succeeded and moved 0
bytes; everything else succeeds. -/
def zero_bytes_env (descriptor : libusb_device_descriptor) : usb_env :=
  { cooperative_env descriptor with control_transfer := fun _ _ => 0 }

/-! ## Buffer purge (ftdi_purge, silabs_purge, cdc_purge, usbserial_purge) -/

/-- driver_ftdi.c, ftdi_purge; the flags are C ints. -/
def ftdi_purge (env : usb_env) (w : usb_world) (port : usbserial_port)
    (purge_rx purge_tx : Int) : Except stuck Int × usb_world :=
  match port.driver_specific_data with
  | none => (.ok USBSERIAL_ERROR_ILLEGAL_STATE, w)
  | some (.silabs _) => (.error .invalid_pointer_cast, w)
  | some (.cdc _) => (.error .invalid_pointer_cast, w)
  | some (.ftdi port_data) =>
    let rx : Int × usb_world :=
      if purge_rx ≠ 0 then ftdi_reset_ctrl env w FTDI_SIO_RESET_PURGE_RX port_data.control_idx
      else (0, w)
    let tx : Int × usb_world :=
      if purge_tx ≠ 0 then
        ftdi_reset_ctrl env rx.2 FTDI_SIO_RESET_PURGE_TX port_data.control_idx
      else (0, rx.2)
    (.ok (if 0 = rx.1 then tx.1 else rx.1), tx.2)

/-- driver_silabs.c, silabs_purge. -/
def silabs_purge (env : usb_env) (w : usb_world) (port : usbserial_port)
    (purge_rx purge_tx : Int) : Except stuck Int × usb_world :=
  match port.driver_specific_data with
  | none => (.ok USBSERIAL_ERROR_ILLEGAL_STATE, w)
  | some _ =>
    let value := (if purge_rx ≠ 0 then SILABS_FLUSH_RX_VALUE else 0)
      ||| (if purge_tx ≠ 0 then SILABS_FLUSH_TX_VALUE else 0)
    let r := silabs_set_config env w port SILABS_FLUSH_REQUEST_CODE value
    (.ok r.1, r.2)

/-- driver_cdc.c, prolific_vendor_out; a NULL data pointer is none. -/
def prolific_vendor_out (env : usb_env) (w : usb_world) (value index : Nat)
    (data : Option (List Nat)) (data_length : Nat) : Except stuck Int × usb_world :=
  if ¬ (data.isSome ∨ 0 = data_length) then (.error .assertion_failed, w)
  else
    let r := libusb_control_transfer env w
      { bmRequestType := PROLIFIC_VENDOR_OUT_REQTYPE,
        bRequest := PROLIFIC_VENDOR_WRITE_REQUEST_CODE,
        wValue := value % 2 ^ 16, wIndex := index % 2 ^ 16, data := data.getD [],
        wLength := data_length % 2 ^ 16 }
    if r.1 > 0 then
      if r.1 = (data_length : Int) then (.ok 0, r.2)
      else (.ok USBSERIAL_ERROR_CTRL_CMD_FAILED, r.2)
    else (.ok r.1, r.2)

/-- driver_cdc.c, cdc_purge.  The first prolific_vendor_out call of the source is made
whatever the flags are and its result is dropped. -/
def cdc_purge (env : usb_env) (w : usb_world) (port : usbserial_port)
    (purge_rx purge_tx : Int) : Except stuck Int × usb_world :=
  if PROLIFIC_VENDOR_ID = port.usb_device_descriptor.idVendor then
    match port.driver_specific_data with
    | none => (.ok USBSERIAL_ERROR_ILLEGAL_STATE, w)
    | some _ =>
      let first := prolific_vendor_out env w PROLIFIC_FLUSH_RX_VALUE 0 none 0
      match first.1 with
      | .error e => (.error e, first.2)
      | .ok _ =>
        let rx : Except stuck Int × usb_world :=
          if purge_rx ≠ 0 then prolific_vendor_out env first.2 PROLIFIC_FLUSH_RX_VALUE 0 none 0
          else (.ok 0, first.2)
        match rx.1 with
        | .error e => (.error e, rx.2)
        | .ok purge_rx_ret =>
          let tx : Except stuck Int × usb_world :=
            if purge_tx ≠ 0 then
              prolific_vendor_out env rx.2 PROLIFIC_FLUSH_TX_VALUE 0 none 0
            else (.ok 0, rx.2)
          match tx.1 with
          | .error e => (.error e, tx.2)
          | .ok purge_tx_ret =>
            (.ok (if 0 = purge_rx_ret then purge_tx_ret else purge_rx_ret), tx.2)
  else (.ok USBSERIAL_ERROR_UNSUPPORTED_OPERATION, w)

/-- The driver kind of the registry slot a port points to with its driver field. -/
def port_driver_kind (port : usbserial_port) : Option driver_kind :=
  (drivers.get? port.driver).map usbserial_driver.kind

/-- The call driver->purge(port, purge_rx, purge_tx) through the function-pointer table. -/
def driver_purge (kind : driver_kind) (env : usb_env) (w : usb_world) (port : usbserial_port)
    (purge_rx purge_tx : Int) : Except stuck Int × usb_world :=
  match kind with
  | .ftdi => ftdi_purge env w port purge_rx purge_tx
  | .silabs => silabs_purge env w port purge_rx purge_tx
  | .cdc => cdc_purge env w port purge_rx purge_tx

/-- core.c, usbserial_purge; a NULL port is none. -/
def usbserial_purge (env : usb_env) (w : usb_world) (port : Option usbserial_port)
    (purge_rx purge_tx : Int) : Except stuck Int × usb_world :=
  match port with
  | none => (.ok USBSERIAL_ERROR_INVALID_PARAMETER, w)
  | some p =>
    if purge_rx = 0 ∧ purge_tx = 0 then (.ok USBSERIAL_ERROR_INVALID_PARAMETER, w)
    else
      match port_driver_kind p with
      | none => (.error .out_of_bounds, w)
      | some kind => driver_purge kind env w p purge_rx purge_tx

/-! ## The asynchronous read pipeline (common.c and the start/stop reader of the drivers) -/

/-- The libusb.h enum libusb_transfer_status. -/
inductive libusb_transfer_status where
  | LIBUSB_TRANSFER_COMPLETED
  | LIBUSB_TRANSFER_ERROR
  | LIBUSB_TRANSFER_TIMED_OUT
  | LIBUSB_TRANSFER_CANCELLED
  | LIBUSB_TRANSFER_STALL
  | LIBUSB_TRANSFER_NO_DEVICE
  | LIBUSB_TRANSFER_OVERFLOW
  deriving DecidableEq, Repr

/-- The actions of the read pipeline that are visible outside the port, in the order they
are performed.  Transfer objects are named by numbers. -/
inductive reader_event where
  /-- The call libusb_alloc_transfer and its result, none for NULL. -/
  | alloc_transfer (transfer : Option Nat)
  /-- The call libusb_fill_bulk_transfer with the endpoint handed over. -/
  | fill_bulk_transfer (transfer : Nat) (endpoint : Nat)
  | submit_transfer (transfer : Nat) (ret : Int)
  | cancel_transfer (transfer : Nat) (ret : Int)
  | free_transfer (transfer : Nat)
  /-- The wait on the cancellation condition (pthread_cond_wait). -/
  | cond_wait
  /-- The signal on the cancellation condition (pthread_cond_signal). -/
  | cond_signal
  /-- The call of the driver's read_data_postprocessor with the count handed in. -/
  | read_data_postprocessor (bytes_count : Nat)
  /-- The call of the application's read callback with the buffer and the count. -/
  | read_cb (data : List Nat) (bytes_count : Nat)
  /-- The call of the application's error callback with the status. -/
  | read_error_cb (status : libusb_transfer_status)
  deriving DecidableEq, Repr

/-- The answers of libusb to the asynchronous calls; an answer may depend on everything the
read pipeline has done so far. -/
structure reader_env where
  /-- Whether libusb_alloc_transfer returns a transfer. -/
  alloc_transfer : List reader_event → Bool
  /-- The return code of libusb_submit_transfer. -/
  submit_transfer : List reader_event → Nat → Int
  /-- The return code of libusb_cancel_transfer for a transfer that is in flight. -/
  cancel_transfer : List reader_event → Nat → Int

/-- The transfer objects as libusb sees them: those allocated and not freed, those
submitted whose completion has not been delivered yet, the name the next allocation gets,
and the log of actions. -/
structure transfer_world where
  live : List Nat
  in_flight : List Nat
  next_transfer : Nat
  events : List reader_event
  deriving DecidableEq, Repr

/-- Appends one action to the log. -/
def transfer_world.log (tw : transfer_world) (e : reader_event) : transfer_world :=
  { tw with events := tw.events ++ [e] }

/-- The libusb call libusb_alloc_transfer. -/
def libusb_alloc_transfer (env : reader_env) (tw : transfer_world) :
    Option Nat × transfer_world :=
  if env.alloc_transfer tw.events then
    (some tw.next_transfer,
      { live := tw.next_transfer :: tw.live, in_flight := tw.in_flight,
        next_transfer := tw.next_transfer + 1,
        events := tw.events ++ [.alloc_transfer (some tw.next_transfer)] })
  else (none, tw.log (.alloc_transfer none))

/-- The libusb call libusb_submit_transfer: on return code 0 the transfer is in flight. -/
def libusb_submit_transfer (env : reader_env) (tw : transfer_world) (transfer : Nat) :
    Int × transfer_world :=
  let ret := env.submit_transfer tw.events transfer
  (ret,
    { tw with
      in_flight :=
        if ret = 0 ∧ transfer ∉ tw.in_flight then transfer :: tw.in_flight else tw.in_flight
      events := tw.events ++ [.submit_transfer transfer ret] })

/-- The libusb call libusb_cancel_transfer: a transfer that is not in flight gives
LIBUSB_ERROR_NOT_FOUND. -/
def libusb_cancel_transfer (env : reader_env) (tw : transfer_world) (transfer : Nat) :
    Int × transfer_world :=
  let ret :=
    if transfer ∈ tw.in_flight then env.cancel_transfer tw.events transfer
    else LIBUSB_ERROR_NOT_FOUND
  (ret, tw.log (.cancel_transfer transfer ret))

/-- The libusb call libusb_free_transfer. -/
def libusb_free_transfer (tw : transfer_world) (transfer : Nat) : transfer_world :=
  { tw with live := tw.live.erase transfer,
            events := tw.events ++ [.free_transfer transfer] }

/-- The transfer pointer in the private data of a driver. -/
def driver_data.transfer : driver_data → Option Nat
  | .ftdi d => d.transfer
  | .silabs d => d.transfer
  | .cdc d => d.transfer

/-- The active-transfer reference of a port: the transfer pointer in its private data, none
when the private data or the pointer is NULL. -/
def port_transfer (port : usbserial_port) : Option Nat :=
  port.driver_specific_data.bind driver_data.transfer

/-- The member read_data_postprocessor of the driver of a kind; none is NULL. -/
def driver_read_data_postprocessor (kind : driver_kind) :
    Option (usbserial_port → List Nat → Nat → Except stuck (List Nat × Nat)) :=
  match kind with
  | .ftdi => some ftdi_read_data_postprocessor
  | .silabs => none
  | .cdc => none

/-- The first branch of usbserial_common_default_read_transfer_callback, for the statuses
completed and timed out: the count after the optional postprocessor, the read callback for
a positive count, and the resubmission, whose return code the source drops. -/
def read_transfer_callback_data (env : reader_env) (port : usbserial_port)
    (tw : transfer_world) (transfer : Nat) (actual_length : Int) (buffer : List Nat) :
    Except stuck (usbserial_port × transfer_world) :=
  let count := (actual_length % 2 ^ 32).toNat
  match port_driver_kind port with
  | none => .error .out_of_bounds
  | some kind =>
    let processed : Except stuck (List Nat × Nat × transfer_world) :=
      if count > 0 then
        match driver_read_data_postprocessor kind with
        | none => .ok (buffer, count, tw)
        | some read_data_postprocessor =>
          match read_data_postprocessor port buffer count with
          | .error e => .error e
          | .ok r => .ok (r.1, r.2, tw.log (.read_data_postprocessor count))
      else .ok (buffer, count, tw)
    match processed with
    | .error e => .error e
    | .ok (buffer', count', tw1) =>
      let delivered : Except stuck transfer_world :=
        if count' > 0 then
          if port.read_cb then .ok (tw1.log (.read_cb buffer' count'))
          else .error .null_function_call
        else .ok tw1
      match delivered with
      | .error e => .error e
      | .ok tw2 => .ok (port, (libusb_submit_transfer env tw2 transfer).2)

/-- common.c, usbserial_common_default_read_transfer_callback, the non-Windows branch, for
the transfer with its status, its actual_length and the content of its buffer.  The port
mutex is held throughout. -/
def usbserial_common_default_read_transfer_callback (env : reader_env)
    (port : usbserial_port) (tw : transfer_world) (transfer : Nat)
    (status : libusb_transfer_status) (actual_length : Int) (buffer : List Nat) :
    Except stuck (usbserial_port × transfer_world) :=
  if status = .LIBUSB_TRANSFER_COMPLETED ∨ status = .LIBUSB_TRANSFER_TIMED_OUT then
    read_transfer_callback_data env port tw transfer actual_length buffer
  else if status = .LIBUSB_TRANSFER_CANCELLED then .ok (port, tw.log .cond_signal)
  else
    let port' := { port with read_error_flag := 1 }
    if port.read_error_cb then .ok (port', tw.log (.read_error_cb status))
    else .ok (port', tw)

/-- The do-while loop of usbserial_common_cancel_read_transfer_sync, the non-Windows
branch; cancel_ret is the value of the local of that name when the iteration starts, and
the first argument is the recursion budget.  While the caller waits on the cancellation
condition after an accepted cancellation request, libusb delivers the completion of the
transfer with the status cancelled, which takes the transfer out of flight and runs the
callback. -/
def cancel_read_transfer_loop (env : reader_env) :
    Nat → usbserial_port → transfer_world → Nat → Int →
      Except stuck Int × usbserial_port × transfer_world
  | 0, port, tw, _, _ => (.error .out_of_fuel, port, tw)
  | fuel + 1, port, tw, transfer, cancel_ret =>
    if port.read_error_flag ≠ 0 then (.ok cancel_ret, port, tw)
    else
      let c := libusb_cancel_transfer env tw transfer
      if 0 = c.1 then
        let waiting : transfer_world :=
          { c.2 with in_flight := c.2.in_flight.erase transfer,
                     events := c.2.events ++ [.cond_wait] }
        match usbserial_common_default_read_transfer_callback env port waiting transfer
            .LIBUSB_TRANSFER_CANCELLED 0 [] with
        | .error e => (.error e, port, waiting)
        | .ok r => (.ok c.1, r.1, r.2)
      else if LIBUSB_ERROR_NOT_FOUND = c.1 then
        cancel_read_transfer_loop env fuel port c.2 transfer c.1
      else (.ok c.1, port, c.2)

/-- common.c, usbserial_common_cancel_read_transfer_sync. -/
def usbserial_common_cancel_read_transfer_sync (env : reader_env) (fuel : Nat)
    (port : usbserial_port) (tw : transfer_world) (transfer : Nat) :
    Except stuck Int × usbserial_port × transfer_world :=
  cancel_read_transfer_loop env fuel port tw transfer 0

/-- common.c, usbserial_common_init_bulk_read_transfer; the endpoint is an unsigned char. -/
def usbserial_common_init_bulk_read_transfer (tw : transfer_world) (transfer endpoint : Nat) :
    transfer_world :=
  tw.log (.fill_bulk_transfer transfer (endpoint % 256))

/-- The part the three start_reader functions share, from libusb_alloc_transfer on: the
return code, the transfer to store in the private data (none when the function returns
before the store), and the world. -/
def start_reader_submit (env : reader_env) (tw : transfer_world) (endpoint : Nat) :
    Int × Option Nat × transfer_world :=
  let a := libusb_alloc_transfer env tw
  match a.1 with
  | none => (USBSERIAL_ERROR_RESOURCE_ALLOC_FAILED, none, a.2)
  | some transfer =>
    let filled := usbserial_common_init_bulk_read_transfer a.2 transfer endpoint
    let s := libusb_submit_transfer env filled transfer
    if 0 ≠ s.1 then (s.1, none, libusb_free_transfer s.2 transfer)
    else (0, some transfer, s.2)

/-- driver_ftdi.c, ftdi_start_reader; FTDI_READ_ENDPOINT(i) is 0x81 + 2 * i. -/
def ftdi_start_reader (env : reader_env) (port : usbserial_port) (tw : transfer_world) :
    Except stuck Int × usbserial_port × transfer_world :=
  match port.driver_specific_data with
  | none => (.ok USBSERIAL_ERROR_ILLEGAL_STATE, port, tw)
  | some (.silabs _) => (.error .invalid_pointer_cast, port, tw)
  | some (.cdc _) => (.error .invalid_pointer_cast, port, tw)
  | some (.ftdi port_data) =>
    if port_data.transfer.isSome then (.ok USBSERIAL_ERROR_ILLEGAL_STATE, port, tw)
    else
      let r := start_reader_submit env tw (0x81 + 2 * port.port_idx)
      match r.2.1 with
      | none => (.ok r.1, port, r.2.2)
      | some transfer =>
        let port_data' : ftdi_port_data := { port_data with transfer := some transfer }
        (.ok r.1, { port with driver_specific_data := some (.ftdi port_data') }, r.2.2)

/-- driver_silabs.c, silabs_start_reader; SILABS_READ_ENDPOINT(i) is 0x81 + i. -/
def silabs_start_reader (env : reader_env) (port : usbserial_port) (tw : transfer_world) :
    Except stuck Int × usbserial_port × transfer_world :=
  match port.driver_specific_data with
  | none => (.ok USBSERIAL_ERROR_ILLEGAL_STATE, port, tw)
  | some (.ftdi _) => (.error .invalid_pointer_cast, port, tw)
  | some (.cdc _) => (.error .invalid_pointer_cast, port, tw)
  | some (.silabs port_data) =>
    if port_data.transfer.isSome then (.ok USBSERIAL_ERROR_ILLEGAL_STATE, port, tw)
    else
      let r := start_reader_submit env tw (0x81 + port.port_idx)
      match r.2.1 with
      | none => (.ok r.1, port, r.2.2)
      | some transfer =>
        let port_data' : silabs_port_data := { port_data with transfer := some transfer }
        (.ok r.1, { port with driver_specific_data := some (.silabs port_data') }, r.2.2)

/-- driver_cdc.c, cdc_start_reader. -/
def cdc_start_reader (env : reader_env) (port : usbserial_port) (tw : transfer_world) :
    Except stuck Int × usbserial_port × transfer_world :=
  match port.driver_specific_data with
  | none => (.ok USBSERIAL_ERROR_ILLEGAL_STATE, port, tw)
  | some (.ftdi _) => (.error .invalid_pointer_cast, port, tw)
  | some (.silabs _) => (.error .invalid_pointer_cast, port, tw)
  | some (.cdc port_data) =>
    if port_data.transfer.isSome then (.ok USBSERIAL_ERROR_ILLEGAL_STATE, port, tw)
    else
      let r := start_reader_submit env tw port_data.read_ep
      match r.2.1 with
      | none => (.ok r.1, port, r.2.2)
      | some transfer =>
        let port_data' : cdc_port_data := { port_data with transfer := some transfer }
        (.ok r.1, { port with driver_specific_data := some (.cdc port_data') }, r.2.2)

/-- The part the three stop_reader functions share once the transfer pointer is known to be
non-NULL: the synchronous cancellation, then libusb_free_transfer; the caller stores NULL
in the private data. -/
def stop_reader_cancel_and_free (env : reader_env) (fuel : Nat) (port : usbserial_port)
    (tw : transfer_world) (transfer : Nat) :
    Except stuck Int × usbserial_port × transfer_world :=
  let r := usbserial_common_cancel_read_transfer_sync env fuel port tw transfer
  match r.1 with
  | .error e => (.error e, r.2.1, r.2.2)
  | .ok ret => (.ok ret, r.2.1, libusb_free_transfer r.2.2 transfer)

/-- The store port_data->transfer = NULL of the stop_reader functions. -/
def driver_data.clear_transfer : driver_data → driver_data
  | .ftdi d => .ftdi { d with transfer := none }
  | .silabs d => .silabs { d with transfer := none }
  | .cdc d => .cdc { d with transfer := none }

/-- driver_ftdi.c, ftdi_stop_reader. -/
def ftdi_stop_reader (env : reader_env) (fuel : Nat) (port : usbserial_port)
    (tw : transfer_world) : Except stuck Int × usbserial_port × transfer_world :=
  match port.driver_specific_data with
  | none => (.ok USBSERIAL_ERROR_ILLEGAL_STATE, port, tw)
  | some (.silabs _) => (.error .invalid_pointer_cast, port, tw)
  | some (.cdc _) => (.error .invalid_pointer_cast, port, tw)
  | some (.ftdi port_data) =>
    match port_data.transfer with
    | none => (.ok USBSERIAL_ERROR_ILLEGAL_STATE, port, tw)
    | some transfer =>
      let r := stop_reader_cancel_and_free env fuel port tw transfer
      match r.1 with
      | .error e => (.error e, r.2.1, r.2.2)
      | .ok ret =>
        (.ok ret,
          { r.2.1 with driver_specific_data :=
              r.2.1.driver_specific_data.map driver_data.clear_transfer },
          r.2.2)

/-- driver_silabs.c, silabs_stop_reader. -/
def silabs_stop_reader (env : reader_env) (fuel : Nat) (port : usbserial_port)
    (tw : transfer_world) : Except stuck Int × usbserial_port × transfer_world :=
  match port.driver_specific_data with
  | none => (.ok USBSERIAL_ERROR_ILLEGAL_STATE, port, tw)
  | some (.ftdi _) => (.error .invalid_pointer_cast, port, tw)
  | some (.cdc _) => (.error .invalid_pointer_cast, port, tw)
  | some (.silabs port_data) =>
    match port_data.transfer with
    | none => (.ok USBSERIAL_ERROR_ILLEGAL_STATE, port, tw)
    | some transfer =>
      let r := stop_reader_cancel_and_free env fuel port tw transfer
      match r.1 with
      | .error e => (.error e, r.2.1, r.2.2)
      | .ok ret =>
        (.ok ret,
          { r.2.1 with driver_specific_data :=
              r.2.1.driver_specific_data.map driver_data.clear_transfer },
          r.2.2)

/-- driver_cdc.c, cdc_stop_reader. -/
def cdc_stop_reader (env : reader_env) (fuel : Nat) (port : usbserial_port)
    (tw : transfer_world) : Except stuck Int × usbserial_port × transfer_world :=
  match port.driver_specific_data with
  | none => (.ok USBSERIAL_ERROR_ILLEGAL_STATE, port, tw)
  | some (.ftdi _) => (.error .invalid_pointer_cast, port, tw)
  | some (.silabs _) => (.error .invalid_pointer_cast, port, tw)
  | some (.cdc port_data) =>
    match port_data.transfer with
    | none => (.ok USBSERIAL_ERROR_ILLEGAL_STATE, port, tw)
    | some transfer =>
      let r := stop_reader_cancel_and_free env fuel port tw transfer
      match r.1 with
      | .error e => (.error e, r.2.1, r.2.2)
      | .ok ret =>
        (.ok ret,
          { r.2.1 with driver_specific_data :=
              r.2.1.driver_specific_data.map driver_data.clear_transfer },
          r.2.2)

/-- core.c, usbserial_start_reader, the non-Windows branch, on a non-NULL port (for a NULL
port the function returns USBSERIAL_ERROR_INVALID_PARAMETER). -/
def usbserial_start_reader (env : reader_env) (port : usbserial_port) (tw : transfer_world) :
    Except stuck Int × usbserial_port × transfer_world :=
  if !port.read_cb then (.ok USBSERIAL_ERROR_ILLEGAL_STATE, port, tw)
  else
    match port_driver_kind port with
    | none => (.error .out_of_bounds, port, tw)
    | some .ftdi => ftdi_start_reader env port tw
    | some .silabs => silabs_start_reader env port tw
    | some .cdc => cdc_start_reader env port tw

/-- core.c, usbserial_stop_reader, on a non-NULL port (for a NULL port the function returns
USBSERIAL_ERROR_INVALID_PARAMETER). -/
def usbserial_stop_reader (env : reader_env) (fuel : Nat) (port : usbserial_port)
    (tw : transfer_world) : Except stuck Int × usbserial_port × transfer_world :=
  match port_driver_kind port with
  | none => (.error .out_of_bounds, port, tw)
  | some .ftdi => ftdi_stop_reader env fuel port tw
  | some .silabs => silabs_stop_reader env fuel port tw
  | some .cdc => cdc_stop_reader env fuel port tw

/-- driver_ftdi.c, ftdi_write; FTDI_WRITE_ENDPOINT(i) is 0x02 + 2 * i, an unsigned char. -/
def ftdi_write (transport : bulk_transport) (fuel : Nat) (calls : List bulk_call)
    (port : usbserial_port) (data : Option (List Nat)) (bytes_count : Nat) :
    Except stuck Int × List bulk_call :=
  match port.driver_specific_data with
  | none => (.ok USBSERIAL_ERROR_ILLEGAL_STATE, calls)
  | some _ =>
    usbserial_common_bulk_write transport fuel calls ((0x02 + 2 * port.port_idx) % 256) data
      bytes_count

/-- driver_silabs.c, silabs_write; SILABS_WRITE_ENDPOINT(i) is 0x01 + i, an unsigned
char. -/
def silabs_write (transport : bulk_transport) (fuel : Nat) (calls : List bulk_call)
    (port : usbserial_port) (data : Option (List Nat)) (bytes_count : Nat) :
    Except stuck Int × List bulk_call :=
  match port.driver_specific_data with
  | none => (.ok USBSERIAL_ERROR_ILLEGAL_STATE, calls)
  | some _ =>
    usbserial_common_bulk_write transport fuel calls ((0x01 + port.port_idx) % 256) data
      bytes_count

/-- driver_cdc.c, cdc_write. -/
def cdc_write (transport : bulk_transport) (fuel : Nat) (calls : List bulk_call)
    (port : usbserial_port) (data : Option (List Nat)) (bytes_count : Nat) :
    Except stuck Int × List bulk_call :=
  match port.driver_specific_data with
  | none => (.ok USBSERIAL_ERROR_ILLEGAL_STATE, calls)
  | some (.ftdi _) => (.error .invalid_pointer_cast, calls)
  | some (.silabs _) => (.error .invalid_pointer_cast, calls)
  | some (.cdc port_data) =>
    usbserial_common_bulk_write transport fuel calls port_data.write_ep data bytes_count

/-- core.c, usbserial_write, on a non-NULL port (for a NULL port the function returns
USBSERIAL_ERROR_INVALID_PARAMETER). -/
def usbserial_write (transport : bulk_transport) (fuel : Nat) (calls : List bulk_call)
    (port : usbserial_port) (data : Option (List Nat)) (bytes_count : Nat) :
    Except stuck Int × List bulk_call :=
  match port_driver_kind port with
  | none => (.error .out_of_bounds, calls)
  | some .ftdi => ftdi_write transport fuel calls port data bytes_count
  | some .silabs => silabs_write transport fuel calls port data bytes_count
  | some .cdc => cdc_write transport fuel calls port data bytes_count

/-! ## A port driven by the application and by libusb -/

/-- The answers of all collaborators of a port, and the recursion budget handed to the
loops that need one. -/
structure port_env where
  usb : usb_env
  reader : reader_env
  bulk : bulk_transport
  fuel : Nat

/-- A port together with everything its operations act on. -/
structure port_machine where
  port : usbserial_port
  transfers : transfer_world
  usb : usb_world
  bulk : List bulk_call

/-- What can happen to an existing port: the calls of the application, and the delivery by
libusb of the completion of a read transfer with its status, its actual_length and the
content of its buffer. -/
inductive port_op where
  | start_reader
  | stop_reader
  | write (data : Option (List Nat)) (bytes_count : Nat)
  | purge (purge_rx purge_tx : Int)
  | set_baud_rate (baud : Nat)
  | completion (transfer : Nat) (status : libusb_transfer_status) (actual_length : Int)
      (buffer : List Nat)

/-- The delivery of a completion: libusb delivers only for a transfer in flight, which
thereby stops being in flight, and calls the callback on the transfer object. -/
def deliver_completion (env : reader_env) (port : usbserial_port) (tw : transfer_world)
    (transfer : Nat) (status : libusb_transfer_status) (actual_length : Int)
    (buffer : List Nat) : Except stuck (usbserial_port × transfer_world) :=
  if transfer ∈ tw.in_flight then
    if transfer ∈ tw.live then
      usbserial_common_default_read_transfer_callback env port
        { tw with in_flight := tw.in_flight.erase transfer } transfer status actual_length
        buffer
    else .error .use_after_free
  else .ok (port, tw)

/-- One operation on a port: the code it returns (none for a completion, which returns
nothing to the application) or the reason it has no defined outcome, and the machine as
the operation leaves it. -/
def port_step (env : port_env) (m : port_machine) (op : port_op) :
    Except stuck (Option Int) × port_machine :=
  match op with
  | .start_reader =>
    let r := usbserial_start_reader env.reader m.port m.transfers
    (r.1.map some, { m with port := r.2.1, transfers := r.2.2 })
  | .stop_reader =>
    let r := usbserial_stop_reader env.reader env.fuel m.port m.transfers
    (r.1.map some, { m with port := r.2.1, transfers := r.2.2 })
  | .write data bytes_count =>
    let r := usbserial_write env.bulk env.fuel m.bulk m.port data bytes_count
    (r.1.map some, { m with bulk := r.2 })
  | .purge purge_rx purge_tx =>
    let r := usbserial_purge env.usb m.usb (some m.port) purge_rx purge_tx
    (r.1.map some, { m with usb := r.2 })
  | .set_baud_rate baud =>
    match port_driver_kind m.port with
    | none => (.error .out_of_bounds, m)
    | some kind =>
      let r := driver_port_set_baud_rate kind env.usb m.usb m.port baud
      (r.1.map some, { m with usb := r.2 })
  | .completion transfer status actual_length buffer =>
    match deliver_completion env.reader m.port m.transfers transfer status actual_length
        buffer with
    | .error e => (.error e, m)
    | .ok r => (.ok none, { m with port := r.1, transfers := r.2 })

/-- A sequence of operations, run until one has no defined outcome: the outcomes of the
operations run, and the machine at the end. -/
def port_run (env : port_env) : port_machine → List port_op →
    List (Except stuck (Option Int)) × port_machine
  | m, [] => ([], m)
  | m, op :: ops =>
    match port_step env m op with
    | (.error e, m') => ([.error e], m')
    | (.ok code, m') => ((.ok code) :: (port_run env m' ops).1, (port_run env m' ops).2)

/-- The number of read transfers of a port that are outstanding: transfer objects that
have not been released and whose submission has not completed. -/
def outstanding_transfers (m : port_machine) : Nat :=
  (m.transfers.live.filter (fun transfer => transfer ∈ m.transfers.in_flight)).length

/-- A freshly initialised port: its private data exists, no transfer is referenced, and
libusb holds no transfer object. -/
def freshly_initialised (m : port_machine) : Prop :=
  m.port.driver_specific_data.isSome ∧ port_transfer m.port = none
    ∧ m.transfers.live = [] ∧ m.transfers.in_flight = []

/-- A transfer world in which nothing has been allocated or done yet. -/
def fresh_transfers : transfer_world :=
  { live := [], in_flight := [], next_transfer := 0, events := [] }

/-- An environment in which every asynchronous libusb call, every other collaborator
call and every bulk transfer succeeds. -/
def cooperative_port_env (descriptor : libusb_device_descriptor) : port_env :=
  { usb := cooperative_env descriptor
    reader :=
      { alloc_transfer := fun _ => true, submit_transfer := fun _ _ => 0,
        cancel_transfer := fun _ _ => 0 }
    bulk := fun _ _ _ length => (0, length)
    fuel := 16 }

/-- The machine of port 0 of an FT232R right after a successful initialisation. -/
def ft232r_machine : port_machine :=
  { port := ft232r_port, transfers := fresh_transfers, usb := fresh_world, bulk := [] }

/-- The driver whose private data this is. -/
def driver_data.kind : driver_data → driver_kind
  | .ftdi _ => .ftdi
  | .silabs _ => .silabs
  | .cdc _ => .cdc

/-- The actions of the first branch of the read callback after the log so far: the
postprocessor call if one was made, the read callback if the final count is positive, and
the resubmission with its return code. -/
def read_completion_events (postprocessed : Bool) (bytes_received : Nat) (buffer : List Nat)
    (count : Nat) (transfer : Nat) (submit_ret : Int) : List reader_event :=
  (if postprocessed then [reader_event.read_data_postprocessor bytes_received] else [])
    ++ (if 0 < count then [reader_event.read_cb buffer count] else [])
    ++ [reader_event.submit_transfer transfer submit_ret]

/-- The machine of port 0 of a CP2102 right after a successful initialisation. -/
def cp2102_machine : port_machine :=
  { port := cp2102_port, transfers := fresh_transfers, usb := fresh_world, bulk := [] }

/-- The private data of port 0 of an FT232R with transfer 0 referenced. -/
def ft232r_reading_data : ftdi_port_data :=
  { transfer := some 0, device_type := .FTDI_DEVICE_TYPE_OTHER, control_idx := 0 }

/-- Port 0 of an FT232R whose reader was started and whose transfer 0 then completed with
an error status: the transfer is still referenced and the read-error flag is set. -/
def ft232r_port_after_error : usbserial_port :=
  { ft232r_port with
    driver_specific_data := some (.ftdi ft232r_reading_data), read_error_flag := 1 }

/-- The transfer world after transfer 0 was allocated, submitted and completed with an
error status. -/
def transfers_after_error : transfer_world :=
  { live := [0], in_flight := [], next_transfer := 1,
    events := [.alloc_transfer (some 0), .fill_bulk_transfer 0 0x81, .submit_transfer 0 0] }

/-- The transfer objects libusb holds for a port are exactly the one its private data
references, if any. -/
def transfers_consistent (port : usbserial_port) (tw : transfer_world) : Prop :=
  tw.live = (port_transfer port).toList

/-! ## The divisor search and the write path in the words of the specification -/

/-- The legal divisors of the FTDI baud generator as the specification lists them: 8, 12
and every value from 16 to 0x1FFFF. -/
def legal_divisor (d : Nat) : Prop := d = 8 ∨ d = 12 ∨ (16 ≤ d ∧ d ≤ 0x1FFFF)

/-- In the words of the specification: a candidate divisor clamped into the legal set.  A
candidate below a minimum threshold is raised to it (8, then 12, then 16), a candidate
above the hard maximum is lowered to 0x1FFFF, and a legal candidate is left as it is. -/
def clamp_into_legal_set (d : Nat) : Nat :=
  if d ≤ 8 then 8
  else if d ≤ 12 then 12
  else if d ≤ 16 then 16
  else if d > 0x1FFFF then 0x1FFFF
  else d

/-- The 8/N/1 line configuration with baud 0. -/
def line_config_baud_zero : usbserial_line_config :=
  { baud := 0, data_bits := 8, parity := .USBSERIAL_PARITY_NONE,
    stop_bits := .USBSERIAL_STOPBITS_1 }

/-- A transport whose first call times out after at most 3 bytes and whose later calls
succeed with everything they are offered. -/
def timeout_after_three_then_all : bulk_transport :=
  fun calls _ _ length =>
    if calls.length = 0 then (LIBUSB_ERROR_TIMEOUT, min 3 length) else (0, length)

/-- A transport whose first call succeeds with at most 3 bytes and whose later calls time
out having moved everything they are offered. -/
def three_then_timeout_with_all : bulk_transport :=
  fun calls _ _ length =>
    if calls.length = 0 then (0, min 3 length) else (LIBUSB_ERROR_TIMEOUT, length)

/-- The absolute difference between an estimated baud and the requested baud, as a natural
number. -/
def baud_distance (baud baud_estimate : Nat) : Nat :=
  if baud_estimate < baud then baud - baud_estimate else baud_estimate - baud

/-! ## Theorems -/

theorem find_driver_scan_succ (registry : List usbserial_driver)
    (check : usbserial_driver → Option Int) (remaining i : Nat) :
    find_driver_scan registry check (remaining + 1) i =
      match registry.get? i with
      | none => .error .out_of_bounds
      | some d =>
        match check d with
        | some r =>
          if r ≠ 0 then .ok (some i) else find_driver_scan registry check remaining (i + 1)
        | none => find_driver_scan registry check remaining (i + 1) := rfl

theorem sizeof_drivers_eq : sizeof_drivers = 284 + 1 + 1 + 1 + 1 := by decide

/-- The first pass of find_driver_for_usb_device, by the values of the three predicates. -/
theorem find_driver_first_pass (v p : Nat) :
    find_driver_scan drivers
      (fun d => d.check_supported_by_vid_pid.map (fun f => f v p)) sizeof_drivers 0 =
    if ftdi_check_supported_by_vid_pid v p ≠ 0 then .ok (some 0)
    else if silabs_check_supported_by_vid_pid v p ≠ 0 then .ok (some 1)
    else if cdc_check_supported_by_vid_pid v p ≠ 0 then .ok (some 2)
    else .error .out_of_bounds := by
  rw [sizeof_drivers_eq]
  simp only [find_driver_scan_succ, drivers, List.get?, ftdi_driver_init, silabs_driver_init,
    cdc_driver_init, Option.map]

theorem find_driver_of_first_pass (v p c s i : Nat)
    (h : find_driver_scan drivers
      (fun d => d.check_supported_by_vid_pid.map (fun f => f v p)) sizeof_drivers 0
        = .ok (some i)) :
    find_driver_for_usb_device v p c s = .ok (some i) := by
  unfold find_driver_for_usb_device
  rw [h]

theorem ftdi_silabs_exclusive (v p : Nat) (hf : ftdi_check_supported_by_vid_pid v p ≠ 0)
    (hs : silabs_check_supported_by_vid_pid v p ≠ 0) : False := by
  unfold ftdi_check_supported_by_vid_pid at hf
  unfold silabs_check_supported_by_vid_pid at hs
  by_cases h1 : FTDI_VENDOR_ID = v
  · by_cases h2 : SILABS_VENDOR_ID = v
    · rw [← h1] at h2
      exact absurd h2 (by decide)
    · simp [h2] at hs
  · simp [h1] at hf

theorem drivers_get_cases (i : Nat) (d : usbserial_driver) (h : drivers.get? i = some d) :
    (i = 0 ∧ d = ftdi_driver_init) ∨ (i = 1 ∧ d = silabs_driver_init)
      ∨ (i = 2 ∧ d = cdc_driver_init) := by
  match i, h with
  | 0, h => left; exact ⟨rfl, by simpa [drivers] using h.symm⟩
  | 1, h => right; left; exact ⟨rfl, by simpa [drivers] using h.symm⟩
  | 2, h => right; right; exact ⟨rfl, by simpa [drivers] using h.symm⟩
  | n + 3, h => simp [drivers] at h

/-- C1: when some registered driver's vendor/product predicate matches, the lookup returns
the first such driver in registration order, whatever the class and subclass are; a supported
FTDI pair resolves to slot 0 (FTDI) and a supported Silicon Labs pair to slot 1, also when
the device reports the CDC class and subclass, so never to slot 2 (CDC). -/
theorem find_driver_vid_pid_before_class (v p c s : Nat)
    (h : ∃ i d, drivers.get? i = some d ∧ vid_pid_matches d v p) :
    ∃ i, first_vid_pid_match v p i
      ∧ find_driver_for_usb_device v p c s = .ok (some i)
      ∧ (ftdi_check_supported_by_vid_pid v p ≠ 0 → i = 0)
      ∧ (silabs_check_supported_by_vid_pid v p ≠ 0 → i = 1) := by
  have hpass := find_driver_first_pass v p
  by_cases hf : ftdi_check_supported_by_vid_pid v p ≠ 0
  · rw [if_pos hf] at hpass
    refine ⟨0, ⟨⟨ftdi_driver_init, rfl, ftdi_check_supported_by_vid_pid, rfl, hf⟩, ?_⟩,
      find_driver_of_first_pass v p c s 0 hpass, fun _ => rfl, ?_⟩
    · intro j hj
      exact absurd hj (Nat.not_lt_zero j)
    · intro hs
      exact (ftdi_silabs_exclusive v p hf hs).elim
  · rw [if_neg hf] at hpass
    have hf0 : ftdi_check_supported_by_vid_pid v p = 0 := not_not.mp hf
    by_cases hs : silabs_check_supported_by_vid_pid v p ≠ 0
    · rw [if_pos hs] at hpass
      refine ⟨1, ⟨⟨silabs_driver_init, rfl, silabs_check_supported_by_vid_pid, rfl, hs⟩, ?_⟩,
        find_driver_of_first_pass v p c s 1 hpass, fun h0 => absurd h0 hf, fun _ => rfl⟩
      intro j hj d hd hm
      rcases drivers_get_cases j d hd with ⟨_, rfl⟩ | ⟨rfl, _⟩ | ⟨rfl, _⟩
      · obtain ⟨f, hfe, hfv⟩ := hm
        simp only [ftdi_driver_init, Option.some.injEq] at hfe
        subst hfe
        exact hfv hf0
      · exact absurd hj (by decide)
      · exact absurd hj (by decide)
    · rw [if_neg hs] at hpass
      have hs0 : silabs_check_supported_by_vid_pid v p = 0 := not_not.mp hs
      by_cases hc : cdc_check_supported_by_vid_pid v p ≠ 0
      · rw [if_pos hc] at hpass
        refine ⟨2, ⟨⟨cdc_driver_init, rfl, cdc_check_supported_by_vid_pid, rfl, hc⟩, ?_⟩,
          find_driver_of_first_pass v p c s 2 hpass, fun h0 => absurd h0 hf,
          fun h0 => absurd h0 hs⟩
        intro j hj d hd hm
        rcases drivers_get_cases j d hd with ⟨_, rfl⟩ | ⟨_, rfl⟩ | ⟨rfl, _⟩
        · obtain ⟨f, hfe, hfv⟩ := hm
          simp only [ftdi_driver_init, Option.some.injEq] at hfe
          subst hfe
          exact hfv hf0
        · obtain ⟨f, hfe, hfv⟩ := hm
          simp only [silabs_driver_init, Option.some.injEq] at hfe
          subst hfe
          exact hfv hs0
        · exact absurd hj (by decide)
      · exfalso
        have hc0 : cdc_check_supported_by_vid_pid v p = 0 := not_not.mp hc
        obtain ⟨i, d, hd, f, hfe, hfv⟩ := h
        rcases drivers_get_cases i d hd with ⟨_, rfl⟩ | ⟨_, rfl⟩ | ⟨_, rfl⟩
        · simp only [ftdi_driver_init, Option.some.injEq] at hfe
          subst hfe
          exact hfv hf0
        · simp only [silabs_driver_init, Option.some.injEq] at hfe
          subst hfe
          exact hfv hs0
        · simp only [cdc_driver_init, Option.some.injEq] at hfe
          subst hfe
          exact hfv hc0

/-- C1 at a concrete device: an FT232R (0x0403:0x6001) that reports CDC class 2, subclass 2. -/
theorem find_driver_vid_pid_before_class_witness :
    ∃ i, first_vid_pid_match 0x0403 0x6001 i
      ∧ find_driver_for_usb_device 0x0403 0x6001 2 2 = .ok (some i)
      ∧ (ftdi_check_supported_by_vid_pid 0x0403 0x6001 ≠ 0 → i = 0)
      ∧ (silabs_check_supported_by_vid_pid 0x0403 0x6001 ≠ 0 → i = 1) :=
  find_driver_vid_pid_before_class 0x0403 0x6001 2 2
    ⟨0, ftdi_driver_init, rfl, ftdi_check_supported_by_vid_pid, rfl, by decide⟩

/-- Without a vendor/product match the first loop of find_driver_for_usb_device runs past
the three registered drivers, whatever the class and subclass are. -/
theorem find_driver_stuck_without_vid_pid_match (v p c s : Nat)
    (hf : ftdi_check_supported_by_vid_pid v p = 0)
    (hs : silabs_check_supported_by_vid_pid v p = 0)
    (hc : cdc_check_supported_by_vid_pid v p = 0) :
    find_driver_for_usb_device v p c s = .error stuck.out_of_bounds := by
  have hpass := find_driver_first_pass v p
  rw [if_neg (by rw [hf]; exact fun h => h rfl), if_neg (by rw [hs]; exact fun h => h rfl),
    if_neg (by rw [hc]; exact fun h => h rfl)] at hpass
  unfold find_driver_for_usb_device
  rw [hpass]

/-- C2, evaluated: for a device that no driver matches (vendor 0x1234, product 0x5678,
class 0xff) the first loop reads drivers[3], so the three queries have no defined result;
the same holds for an Arduino (0x2341:0x0043, class 2, subclass 0), which only the class
rule would match; a device matched by vendor and product (an FT232R) is reported as
supported. -/
theorem is_device_supported_unmatched_stuck :
    usbserial_is_device_supported 0x1234 0x5678 0xff 0x00 = .error stuck.out_of_bounds
      ∧ usbserial_get_device_short_name 0x1234 0x5678 0xff 0x00 = .error stuck.out_of_bounds
      ∧ usbserial_get_ports_count 0x1234 0x5678 0xff 0x00 = .error stuck.out_of_bounds
      ∧ usbserial_is_device_supported 0x2341 0x0043 0x02 0x00 = .error stuck.out_of_bounds
      ∧ usbserial_is_device_supported 0x0403 0x6001 0x00 0x00 = .ok 1 := by
  refine ⟨?_, ?_, ?_, ?_, ?_⟩ <;> rfl

/-- C3, evaluated: on an FT232R with every collaborator call succeeding and baud 115200 the
call returns USBSERIAL_ERROR_UNSUPPORTED_BAUD_RATE, the port has been freed, and the
caller's variable still holds the pointer to it; the same happens on a PL2303 whose
SET_LINE_CODING request times out, where the call returns LIBUSB_ERROR_TIMEOUT. -/
theorem port_init_error_with_out_port_set :
    (usbserial_port_init (cooperative_env ft232r_descriptor) fresh_world (some none) true 0
        115200 true false).ret = .ok USBSERIAL_ERROR_UNSUPPORTED_BAUD_RATE
      ∧ USBSERIAL_ERROR_UNSUPPORTED_BAUD_RATE ≠ 0
      ∧ (∃ port, (usbserial_port_init (cooperative_env ft232r_descriptor) fresh_world
          (some none) true 0 115200 true false).out_port = some (some port))
      ∧ (usbserial_port_init (cooperative_env ft232r_descriptor) fresh_world (some none) true 0
          115200 true false).world.trace.getLast? = some usb_event.free_port
      ∧ (usbserial_port_init pl2303_timeout_env fresh_world (some none) true 0 9600 true
          false).ret = .ok LIBUSB_ERROR_TIMEOUT
      ∧ LIBUSB_ERROR_TIMEOUT ≠ 0
      ∧ (∃ port, (usbserial_port_init pl2303_timeout_env fresh_world (some none) true 0 9600
          true false).out_port = some (some port))
      ∧ (usbserial_port_init pl2303_timeout_env fresh_world (some none) true 0 9600 true
          false).world.trace.getLast? = some usb_event.free_port := by
  refine ⟨rfl, by decide, ⟨_, rfl⟩, rfl, rfl, by decide, ⟨_, rfl⟩, rfl⟩

/-- C4, evaluated: on a device no driver matches, usbserial_port_init does not reach its
unsupported-device branch, because the lookup reads drivers[3] first; up to that point the
caller's variable has been set to NULL and nothing has been allocated, claimed or sent. -/
theorem port_init_unmatched_device_stuck :
    find_driver_for_usb_device 0x1234 0x5678 0xff 0x00 = .error stuck.out_of_bounds
      ∧ (usbserial_port_init (cooperative_env unknown_descriptor) fresh_world (some none) true 0
          9600 true false).ret = .error stuck.out_of_bounds
      ∧ (usbserial_port_init (cooperative_env unknown_descriptor) fresh_world (some none) true 0
          9600 true false).out_port = some none
      ∧ (usbserial_port_init (cooperative_env unknown_descriptor) fresh_world (some none) true 0
          9600 true false).world = fresh_world := by
  refine ⟨rfl, rfl, rfl, rfl⟩

/-- C5, evaluated: on an FT232R with every collaborator call succeeding and baud 115200 the
call fails after ftdi_port_init has claimed interface 0, and interface 0 is still claimed
when the error is returned; the same happens on a PL2303 whose SET_LINE_CODING request
times out after cdc_port_init has claimed interface 0. -/
theorem port_init_error_with_interface_claimed :
    fresh_world.claimed = []
      ∧ (usbserial_port_init (cooperative_env ft232r_descriptor) fresh_world (some none) true 0
          115200 true false).ret = .ok USBSERIAL_ERROR_UNSUPPORTED_BAUD_RATE
      ∧ (usbserial_port_init (cooperative_env ft232r_descriptor) fresh_world (some none) true 0
          115200 true false).world.claimed = [0]
      ∧ usb_event.release_interface 0 0 ∉
          (usbserial_port_init (cooperative_env ft232r_descriptor) fresh_world (some none) true 0
            115200 true false).world.trace
      ∧ (usbserial_port_init pl2303_timeout_env fresh_world (some none) true 0 9600 true
          false).ret = .ok LIBUSB_ERROR_TIMEOUT
      ∧ (usbserial_port_init pl2303_timeout_env fresh_world (some none) true 0 9600 true
          false).world.claimed = [0]
      ∧ usb_event.release_interface 0 0 ∉
          (usbserial_port_init pl2303_timeout_env fresh_world (some none) true 0 9600 true
            false).world.trace := by
  refine ⟨rfl, rfl, rfl, by decide, rfl, rfl, by decide⟩

theorem convert_baudrate_of_pos (baud : Nat) (device_type : ftdi_device_type)
    (control_idx : Nat) (h : 1 ≤ baud) :
    convert_baudrate baud device_type control_idx = .ok
      { best_baud := (ftdi_search_loop baud (24000000 / baud)).best_baudrate
        index := (ftdi_split_divisor
          (ftdi_encode_divisor (ftdi_search_loop baud (24000000 / baud)).best_divisor)
          device_type control_idx).1
        value := (ftdi_split_divisor
          (ftdi_encode_divisor (ftdi_search_loop baud (24000000 / baud)).best_divisor)
          device_type control_idx).2 } := by
  unfold convert_baudrate
  rw [if_neg (by omega)]

/-- C6: on an initialised FTDI port and for every baud of at least 1, convert_baudrate
yields a result; if its achieved baud differs from the request, ftdi_port_set_line_config
returns USBSERIAL_ERROR_UNSUPPORTED_BAUD_RATE and leaves the world, hence the log of
control transfers, untouched; conversely, whenever the call logs anything or ends in
anything but that code, the achieved baud equals the request. -/
theorem ftdi_set_line_config_exact_baud (env : usb_env) (w : usb_world) (port : usbserial_port)
    (port_data : ftdi_port_data) (line_config : usbserial_line_config)
    (hinit : port.driver_specific_data = some (.ftdi port_data))
    (hbaud : 1 ≤ line_config.baud) :
    ∃ c, convert_baudrate line_config.baud port_data.device_type port_data.control_idx = .ok c
      ∧ (c.best_baud ≠ line_config.baud →
          ftdi_port_set_line_config env w port line_config
            = (.ok USBSERIAL_ERROR_UNSUPPORTED_BAUD_RATE, w))
      ∧ ((ftdi_port_set_line_config env w port line_config).2 ≠ w →
          c.best_baud = line_config.baud)
      ∧ ((ftdi_port_set_line_config env w port line_config).1
            ≠ .ok USBSERIAL_ERROR_UNSUPPORTED_BAUD_RATE → c.best_baud = line_config.baud) := by
  have hc := convert_baudrate_of_pos line_config.baud port_data.device_type
    port_data.control_idx hbaud
  refine ⟨_, hc, ?_⟩
  have hmis : ∀ c, convert_baudrate line_config.baud port_data.device_type
      port_data.control_idx = .ok c → c.best_baud ≠ line_config.baud →
      ftdi_port_set_line_config env w port line_config
        = (.ok USBSERIAL_ERROR_UNSUPPORTED_BAUD_RATE, w) := by
    intro c hcc hne
    unfold ftdi_port_set_line_config
    simp only [hinit, hcc]
    rw [if_pos (Ne.symm hne)]
  refine ⟨hmis _ hc, ?_, ?_⟩
  · intro hw
    by_contra hne
    rw [hmis _ hc hne] at hw
    exact hw rfl
  · intro hr
    by_contra hne
    rw [hmis _ hc hne] at hr
    exact hr rfl

/-- C6 at a concrete request: 115200 baud on a single-port FTDI device. -/
theorem ftdi_set_line_config_exact_baud_witness :
    ∃ c, convert_baudrate 115200 .FTDI_DEVICE_TYPE_OTHER 0 = .ok c
      ∧ (c.best_baud ≠ 115200 →
          ftdi_port_set_line_config (cooperative_env ft232r_descriptor) fresh_world
            ft232r_port
            (default_line_config 115200)
            = (.ok USBSERIAL_ERROR_UNSUPPORTED_BAUD_RATE, fresh_world))
      ∧ ((ftdi_port_set_line_config (cooperative_env ft232r_descriptor) fresh_world
            ft232r_port
            (default_line_config 115200)).2 ≠ fresh_world → c.best_baud = 115200)
      ∧ ((ftdi_port_set_line_config (cooperative_env ft232r_descriptor) fresh_world
            ft232r_port
            (default_line_config 115200)).1
            ≠ .ok USBSERIAL_ERROR_UNSUPPORTED_BAUD_RATE → c.best_baud = 115200) :=
  ftdi_set_line_config_exact_baud (cooperative_env ft232r_descriptor) fresh_world
    ft232r_port ft232r_port_data
    (default_line_config 115200) rfl (by decide)

/-- C7: for 3000000 baud the search of convert_baudrate stops at divisor 8 with achieved
baud 3000000; for every device type and control index the result has best_baud 3000000 and
value 0; for the single-port device type the index word is 0; and on every initialised FTDI
port ftdi_port_set_line_config with that baud (8/N/1 framing) passes the exactness check and
issues the SET_BAUD_RATE request carrying value 0. -/
theorem convert_baudrate_3000000 (device_type : ftdi_device_type) (control_idx : Nat)
    (env : usb_env) (w : usb_world) (port : usbserial_port) (port_data : ftdi_port_data) :
    ftdi_search_loop 3000000 (24000000 / 3000000)
        = { best_divisor := 8, best_baudrate := 3000000, best_baud_diff := 0 }
      ∧ (∃ index, convert_baudrate 3000000 device_type control_idx
          = .ok { best_baud := 3000000, index := index, value := 0 })
      ∧ convert_baudrate 3000000 .FTDI_DEVICE_TYPE_OTHER control_idx
          = .ok { best_baud := 3000000, index := 0, value := 0 }
      ∧ ∃ index ret rest,
          (ftdi_port_set_line_config env w
              { port with driver_specific_data := some (.ftdi port_data) }
              (default_line_config 3000000)).2.trace
            = w.trace ++ usb_event.control_transfer
                { bmRequestType := FTDI_DEVICE_OUT_REQTYPE,
                  bRequest := FTDI_SIO_REQUEST_SET_BAUD_RATE,
                  wValue := 0, wIndex := index, data := [], wLength := 0 } ret :: rest := by
  have hconv : ∀ dt ci, ∃ index, convert_baudrate 3000000 dt ci
      = .ok { best_baud := 3000000, index := index, value := 0 } := by
    intro dt ci
    exact ⟨_, rfl⟩
  refine ⟨rfl, hconv device_type control_idx, rfl, ?_⟩
  obtain ⟨index, hidx⟩ := hconv port_data.device_type port_data.control_idx
  unfold ftdi_port_set_line_config
  simp only [default_line_config, hidx, ftdi_stop_bits_value, ftdi_parity_value,
    libusb_control_transfer]
  split_ifs with h1 h2 h3
  · exact absurd rfl h1
  · exact ⟨index, _, [], rfl⟩
  · exact ⟨index, _, [_], by simp only [List.append_assoc]; rfl⟩
  · exact ⟨index, _, [_], by simp only [List.append_assoc]; rfl⟩

theorem payload_from_append (m : Nat) (a b : List Nat) :
    ∀ j, payload_from m j (a ++ b) = payload_from m j a ++ payload_from m (j + a.length) b := by
  induction a with
  | nil => intro j; simp [payload_from]
  | cons x xs ih =>
    intro j
    simp only [List.cons_append, payload_from, List.length_cons, List.append_eq]
    rw [ih (j + 1), show j + 1 + xs.length = j + (xs.length + 1) by omega]
    split_ifs <;> simp

theorem payload_from_add_period (m : Nat) (l : List Nat) :
    ∀ j, payload_from m (j + m) l = payload_from m j l := by
  induction l with
  | nil => intro j; simp [payload_from]
  | cons x xs ih =>
    intro j
    simp only [payload_from, Nat.add_mod_right]
    rw [show j + m + 1 = (j + 1) + m by omega, ih (j + 1)]

theorem payload_from_within_chunk (m : Nat) (l : List Nat) :
    ∀ j, j + l.length ≤ m → payload_from m j l = l.drop (2 - j) := by
  induction l with
  | nil => intro j _; simp [payload_from]
  | cons x xs ih =>
    intro j hj
    simp only [List.length_cons] at hj
    have hjm : j % m = j := Nat.mod_eq_of_lt (by omega)
    simp only [payload_from, hjm]
    rw [ih (j + 1) (by omega)]
    by_cases h2 : 2 ≤ j
    · rw [if_pos h2, show 2 - (j + 1) = 0 by omega, show 2 - j = 0 by omega]
      simp
    · rw [if_neg h2, show 2 - j = (2 - (j + 1)) + 1 by omega, List.drop_succ_cons]

theorem strip_status_headers_eq_payload (m : Nat) (hm : 1 ≤ m) :
    ∀ fuel (l : List Nat), l.length ≤ fuel → strip_status_headers m fuel l = payload_from m 0 l := by
  intro fuel
  induction fuel with
  | zero =>
    intro l hl
    have : l = [] := List.length_eq_zero.mp (by omega)
    subst this
    simp [strip_status_headers, payload_from]
  | succ f ih =>
    intro l hl
    unfold strip_status_headers
    by_cases he : l = []
    · subst he
      simp [payload_from]
    · have hne : l.isEmpty = false := by
        cases l with
        | nil => exact absurd rfl he
        | cons _ _ => rfl
      rw [hne]
      simp only [Bool.false_eq_true, if_false]
      have hpos : 0 < l.length := List.length_pos.mpr he
      rw [ih (l.drop m) (by rw [List.length_drop]; omega)]
      conv_rhs => rw [← List.take_append_drop m l, payload_from_append]
      rw [payload_from_within_chunk m (l.take m) 0 (by rw [List.length_take]; omega)]
      congr 1
      by_cases hlm : l.length ≤ m
      · rw [List.drop_of_length_le hlm]
        simp [payload_from]
      · rw [List.length_take, Nat.min_eq_left (by omega), Nat.zero_add]
        have := payload_from_add_period m (l.drop m) 0
        rw [Nat.zero_add] at this
        exact this.symm

theorem ceil_div_step_inside (m i : Nat) (hm : 2 ≤ m) (hi : i % m ≠ 0) :
    (i + 1 + m - 1) / m = (i + m - 1) / m := by
  have hr : i % m < m := Nat.mod_lt _ (by omega)
  have hd := Nat.div_add_mod i m
  have e1 : i + 1 + m - 1 = (i % m + m) + m * (i / m) := by omega
  have e2 : i + m - 1 = (i % m + m - 1) + m * (i / m) := by omega
  rw [e1, e2, Nat.add_mul_div_left _ _ (by omega), Nat.add_mul_div_left _ _ (by omega)]
  have a1 : (i % m + m) / m = 1 := Nat.div_eq_of_lt_le (by omega) (by omega)
  have a2 : (i % m + m - 1) / m = 1 := Nat.div_eq_of_lt_le (by omega) (by omega)
  rw [a1, a2]

theorem ceil_div_step_boundary (m i : Nat) (hm : 2 ≤ m) (hi : i % m = 0) :
    (i + 2 + m - 1) / m = (i + m - 1) / m + 1 := by
  have hd := Nat.div_add_mod i m
  have e1 : i + 2 + m - 1 = (m + 1) + m * (i / m) := by omega
  have e2 : i + m - 1 = (m - 1) + m * (i / m) := by omega
  rw [e1, e2, Nat.add_mul_div_left _ _ (by omega), Nat.add_mul_div_left _ _ (by omega)]
  have a1 : (m + 1) / m = 1 := Nat.div_eq_of_lt_le (by omega) (by omega)
  have a2 : (m - 1) / m = 0 := Nat.div_eq_of_lt (by omega)
  rw [a1, a2]
  omega

theorem succ_mod_ne_one (m i : Nat) (hm : 2 ≤ m) (hi : i % m ≠ 0) : (i + 1) % m ≠ 1 := by
  have hr : i % m < m := Nat.mod_lt _ (by omega)
  rw [Nat.add_mod, Nat.mod_eq_of_lt (show 1 < m by omega)]
  by_cases h : i % m + 1 < m
  · rw [Nat.mod_eq_of_lt h]; omega
  · have : i % m + 1 = m := by omega
    rw [this, Nat.mod_self]; omega

theorem add_two_mod_ne_one (m i : Nat) (hm : 2 ≤ m) (hi : i % m = 0) : (i + 2) % m ≠ 1 := by
  rw [Nat.add_mod, hi, Nat.zero_add, Nat.mod_mod]
  by_cases h : m = 2
  · subst h; decide
  · rw [Nat.mod_eq_of_lt (by omega)]; omega

theorem succ_mod_eq_one (m i : Nat) (hm : 2 ≤ m) (hi : i % m = 0) : (i + 1) % m = 1 := by
  rw [Nat.add_mod, hi, Nat.zero_add, Nat.mod_mod, Nat.mod_eq_of_lt (by omega)]

theorem boundary_has_header (m n i : Nat) (hm : 2 ≤ m) (hlast : n % m = 0 ∨ 2 ≤ n % m)
    (hi : i % m = 0) (hin : i < n) : i + 2 ≤ n := by
  by_contra hcon
  have hn : n = i + 1 := by omega
  have := succ_mod_eq_one m i hm hi
  rw [← hn] at this
  omega

theorem take_succ_set_self (l : List Nat) (k b : Nat) (hk : k < l.length) :
    (l.set k b).take (k + 1) = l.take k ++ [b] := by
  rw [List.take_succ, List.getElem?_set_self hk]
  congr 1
  apply List.ext_getElem?
  intro j
  rw [List.getElem?_take, List.getElem?_take]
  split
  · rw [List.getElem?_set_ne (by omega)]
  · rfl

theorem take_drop_cons (l : List Nat) (i n b : Nat) (hin : i < n) (hb : l.get? i = some b) :
    (l.drop i).take (n - i) = b :: (l.drop (i + 1)).take (n - (i + 1)) := by
  have hlt : i < l.length := by
    rcases Nat.lt_or_ge i l.length with h | h
    · exact h
    · rw [List.get?_eq_none.mpr h] at hb; cases hb
  rw [List.drop_eq_getElem_cons hlt, show n - i = (n - (i + 1)) + 1 by omega, List.take_succ_cons]
  rw [List.get?_eq_get hlt] at hb
  simp only [List.get_eq_getElem, Option.some.injEq] at hb
  rw [hb]

/-- The loop invariant of ftdi_read_data_postprocessor: started at offset i at which no
header is half-way through, with skip_bytes_count twice the number of chunks begun, the loop
ends with skip_bytes_count twice the number of chunks of the whole input, and the front of
the buffer holds what was there followed by the payload bytes of the rest of the input. -/
theorem ftdi_strip_loop_spec (m n : Nat) (hm : 2 ≤ m) (hlast : n % m = 0 ∨ 2 ≤ n % m) :
    ∀ fuel i skip data copies, n - i ≤ fuel → i ≤ n → skip ≤ i → n ≤ data.length →
      i % m ≠ 1 → skip = 2 * ((i + m - 1) / m) →
      ∃ data' copies',
        ftdi_strip_loop m n fuel i skip data copies = .ok (2 * ((n + m - 1) / m), data', copies')
          ∧ 2 * ((n + m - 1) / m) ≤ n
          ∧ data'.take (n - 2 * ((n + m - 1) / m))
              = data.take (i - skip) ++ payload_from m i ((data.drop i).take (n - i)) := by
  intro fuel
  induction fuel with
  | zero =>
    intro i skip data copies hfuel hin hskip hlen hmod hsk
    have hi : i = n := by omega
    subst hi
    refine ⟨data, copies, ?_, by omega, ?_⟩
    · unfold ftdi_strip_loop
      rw [if_neg (by omega), hsk]
    · rw [Nat.sub_self, List.take_zero, hsk]
      simp [payload_from]
  | succ f ih =>
    intro i skip data copies hfuel hin hskip hlen hmod hsk
    by_cases hlt : i < n
    · unfold ftdi_strip_loop
      rw [if_pos hlt, if_neg (by omega)]
      by_cases hb : 0 = i % m
      · rw [if_pos hb]
        have hi2 : i + 2 ≤ n := boundary_has_header m n i hm hlast hb.symm hlt
        obtain ⟨data', copies', hrun, hle, htake⟩ :=
          ih (i + 2) (skip + FTDI_MODEM_STATUS_BYTES_COUNT) data copies (by omega) hi2
            (by unfold FTDI_MODEM_STATUS_BYTES_COUNT; omega) hlen
            (add_two_mod_ne_one m i hm hb.symm)
            (by
              unfold FTDI_MODEM_STATUS_BYTES_COUNT
              rw [ceil_div_step_boundary m i hm hb.symm, hsk]
              omega)
        refine ⟨data', copies', hrun, hle, ?_⟩
        rw [htake]
        have hsub : i + 2 - (skip + FTDI_MODEM_STATUS_BYTES_COUNT) = i - skip := by
          unfold FTDI_MODEM_STATUS_BYTES_COUNT; omega
        rw [hsub]
        congr 1
        have h0 : data.get? i = some (data.get ⟨i, by omega⟩) := List.get?_eq_get _
        have h1 : data.get? (i + 1) = some (data.get ⟨i + 1, by omega⟩) := List.get?_eq_get _
        rw [take_drop_cons data i n _ hlt h0, take_drop_cons data (i + 1) n _ (by omega) h1]
        simp only [payload_from]
        rw [if_neg (by omega), if_neg (by rw [succ_mod_eq_one m i hm hb.symm]; omega)]
      · rw [if_neg hb]
        have h0 : data.get? i = some (data.get ⟨i, by omega⟩) := List.get?_eq_get _
        rw [h0]
        simp only []
        obtain ⟨data', copies', hrun, hle, htake⟩ :=
          ih (i + 1) skip (data.set (i - skip) (data.get ⟨i, by omega⟩))
            (copies ++ [((i : Int) - (skip : Int), i)]) (by omega) (by omega) (by omega)
            (by rw [List.length_set]; exact hlen)
            (succ_mod_ne_one m i hm (fun h => hb h.symm))
            (by rw [ceil_div_step_inside m i hm (fun h => hb h.symm)]; exact hsk)
        refine ⟨data', copies', hrun, hle, ?_⟩
        rw [htake, show i + 1 - skip = (i - skip) + 1 by omega,
          take_succ_set_self data (i - skip) _ (by omega),
          List.drop_set_of_lt _ _ (by omega), take_drop_cons data i n _ hlt h0]
        simp only [payload_from]
        rw [if_pos (by omega), List.append_assoc]
        rfl
    · have hi : i = n := by omega
      subst hi
      refine ⟨data, copies, ?_, by omega, ?_⟩
      · unfold ftdi_strip_loop
        rw [if_neg (by omega), hsk]
      · rw [Nat.sub_self, List.take_zero, hsk]
        simp [payload_from]

theorem payload_from_two_chunks (m : Nat) (hm : 2 ≤ m) (data : List Nat)
    (hlen : 2 * m ≤ data.length) :
    payload_from m 0 (data.take (2 * m))
      = (data.take m).drop 2 ++ ((data.drop m).take m).drop 2 := by
  rw [show 2 * m = m + m by omega, List.take_add, payload_from_append,
    payload_from_within_chunk m (data.take m) 0 (by rw [List.length_take]; omega),
    List.length_take, Nat.min_eq_left (by omega), payload_from_add_period m _ 0,
    payload_from_within_chunk m _ 0 (by rw [List.length_take]; omega)]

/-- C8: for a packet size m of at least 2 and n received bytes, n at least 2, whose last
chunk is full or holds at least its two header bytes, ftdi_read_data_postprocessor returns
normally, sets the count to n - 2 * ceil(n / m), and leaves in the first count bytes of the
buffer the bytes 2.. of every m-byte chunk of the input, concatenated in order; for n = 2 * m
the count is 2 * (m - 2) and the output is the payload of the first chunk followed by the
payload of the second. -/
theorem ftdi_postprocessor_strips_headers (port : usbserial_port) (data : List Nat) (n : Nat)
    (hm : 2 ≤ port.usb_device_descriptor.bMaxPacketSize0) (hn : 2 ≤ n)
    (hlast : n % port.usb_device_descriptor.bMaxPacketSize0 = 0
      ∨ 2 ≤ n % port.usb_device_descriptor.bMaxPacketSize0)
    (hlen : n ≤ data.length) (h32 : n < 2 ^ 32) :
    ∃ data',
      ftdi_read_data_postprocessor port data n
          = .ok (data', n - 2 * ((n + port.usb_device_descriptor.bMaxPacketSize0 - 1)
              / port.usb_device_descriptor.bMaxPacketSize0))
        ∧ data'.take (n - 2 * ((n + port.usb_device_descriptor.bMaxPacketSize0 - 1)
              / port.usb_device_descriptor.bMaxPacketSize0))
            = strip_status_headers port.usb_device_descriptor.bMaxPacketSize0 n (data.take n)
        ∧ (n = 2 * port.usb_device_descriptor.bMaxPacketSize0 →
            n - 2 * ((n + port.usb_device_descriptor.bMaxPacketSize0 - 1)
                / port.usb_device_descriptor.bMaxPacketSize0)
              = 2 * (port.usb_device_descriptor.bMaxPacketSize0 - 2)
            ∧ data'.take (2 * (port.usb_device_descriptor.bMaxPacketSize0 - 2))
              = (data.take port.usb_device_descriptor.bMaxPacketSize0).drop 2
                ++ ((data.drop port.usb_device_descriptor.bMaxPacketSize0).take
                      port.usb_device_descriptor.bMaxPacketSize0).drop 2) := by
  unfold ftdi_read_data_postprocessor FTDI_MODEM_STATUS_BYTES_COUNT
  generalize port.usb_device_descriptor.bMaxPacketSize0 = m at hm hlast ⊢
  have hone : (2 + m - 1) / m = 1 := Nat.div_eq_of_lt_le (by omega) (by omega)
  have hmod : 2 % m ≠ 1 := by
    by_cases h : m = 2
    · subst h; decide
    · rw [Nat.mod_eq_of_lt (by omega)]; omega
  obtain ⟨data', copies', hrun, hle, htake⟩ :=
    ftdi_strip_loop_spec m n hm hlast n 2 2 data [] (by omega) hn (le_refl 2) hlen hmod
      (by rw [hone])
  have hpay : data'.take (n - 2 * ((n + m - 1) / m)) = payload_from m 0 (data.take n) := by
    rw [htake, Nat.sub_self, List.take_zero, List.nil_append]
    have h0 : data.get? 0 = some (data.get ⟨0, by omega⟩) := List.get?_eq_get _
    have h1 : data.get? 1 = some (data.get ⟨1, by omega⟩) := List.get?_eq_get _
    have e0 := take_drop_cons data 0 n _ (by omega) h0
    have e1 := take_drop_cons data 1 n _ (by omega) h1
    rw [List.drop_zero, Nat.sub_zero] at e0
    rw [e0, e1]
    simp only [payload_from]
    rw [if_neg (by rw [Nat.zero_mod]; omega),
      if_neg (by rw [Nat.mod_eq_of_lt (show 0 + 1 < m by omega)]; omega)]
  refine ⟨data', ?_, ?_, ?_⟩
  · rw [hrun]
    simp only []
    congr 2
    have : 2 * ((n + m - 1) / m) % 2 ^ 32 = 2 * ((n + m - 1) / m) :=
      Nat.mod_eq_of_lt (by omega)
    rw [this]
    omega
  · rw [hpay, strip_status_headers_eq_payload m (by omega) n (data.take n)
      (by rw [List.length_take]; omega)]
  · intro hn2
    subst hn2
    have hceil : (2 * m + m - 1) / m = 2 := Nat.div_eq_of_lt_le (by omega) (by omega)
    rw [hceil] at hpay ⊢
    have hcount : 2 * m - 2 * 2 = 2 * (m - 2) := by omega
    refine ⟨hcount, ?_⟩
    rw [← hcount, hpay, payload_from_two_chunks m hm data hlen]

/-- C8 at a concrete input: packet size 4 and two full packets with headers 0x31 0x60. -/
theorem ftdi_postprocessor_strips_headers_witness :
    ∃ data',
      ftdi_read_data_postprocessor (port_with_packet_size 4)
          [0x31, 0x60, 1, 2, 0x31, 0x60, 3, 4] 8 = .ok (data', 4)
        ∧ data'.take 4 = [1, 2, 3, 4]
        ∧ (8 = 2 * 4 → 4 = 2 * (4 - 2) ∧ data'.take (2 * (4 - 2)) = [1, 2] ++ [3, 4]) :=
  ftdi_postprocessor_strips_headers (port_with_packet_size 4)
    [0x31, 0x60, 1, 2, 0x31, 0x60, 3, 4] 8 (by decide) (by decide) (by decide) (by decide)
    (by decide)

theorem to_int32_of_lt (n : Nat) (h : n < 2 ^ 31) : to_int32 n = (n : Int) := by
  unfold to_int32
  have h1 : n % 2 ^ 32 = n := Nat.mod_eq_of_lt (by omega)
  rw [h1, if_pos h]

theorem bulk_write_zero (transport : bulk_transport) (fuel : Nat) (calls : List bulk_call)
    (endpoint : Nat) (data : Option (List Nat)) :
    usbserial_common_bulk_write transport fuel calls endpoint data 0 = (.ok 0, calls) := by
  cases fuel <;> simp [usbserial_common_bulk_write]

/-- The write path against a transport that accepts at most K bytes per call, started on a
buffer d with the calls pre already made. -/
theorem bulk_write_accept_at_most (K endpoint : Nat) (hK : 1 ≤ K) :
    ∀ fuel (d : List Nat) (pre : List bulk_call), d.length ≤ fuel → d.length < 2 ^ 31 →
      ∃ calls,
        usbserial_common_bulk_write (accept_at_most K) fuel pre endpoint (some d) d.length
            = (.ok 0, pre ++ calls)
          ∧ calls.length = (d.length + K - 1) / K
          ∧ (∀ i, i < calls.length → calls.get? i = some
              { endpoint := endpoint, data := d.drop (i * K),
                length := ((d.length - i * K : Nat) : Int), ret := 0,
                actual_length := ((min K (d.length - i * K) : Nat) : Int) })
          ∧ (calls.map bulk_call.accepted).flatten = d := by
  intro fuel
  induction fuel with
  | zero =>
    intro d pre hfuel _
    have hd : d = [] := List.length_eq_zero.mp (by omega)
    subst hd
    refine ⟨[], ?_, ?_, ?_, ?_⟩
    · rw [List.length_nil, bulk_write_zero, List.append_nil]
    · rw [List.length_nil, List.length_nil, Nat.zero_add]
      exact (Nat.div_eq_of_lt (by omega)).symm
    · intro i hi
      exact absurd hi (Nat.not_lt_zero i)
    · rfl
  | succ f ih =>
    intro d pre hfuel h31
    by_cases hd : d = []
    · subst hd
      refine ⟨[], ?_, ?_, ?_, ?_⟩
      · rw [List.length_nil, bulk_write_zero, List.append_nil]
      · rw [List.length_nil, List.length_nil, Nat.zero_add]
        exact (Nat.div_eq_of_lt (by omega)).symm
      · intro i hi
        exact absurd hi (Nat.not_lt_zero i)
      · rfl
    · have hpos : 0 < d.length := List.length_pos.mpr hd
      have hcast : to_int32 d.length = (d.length : Int) := to_int32_of_lt _ h31
      unfold usbserial_common_bulk_write
      simp only [Option.isSome_some, or_true, not_true_eq_false, if_false, Option.getD_some,
        accept_at_most, hcast, Int.toNat_ofNat, true_or, if_true]
      rw [if_neg (by omega)]
      by_cases hKd : d.length ≤ K
      · rw [Nat.min_eq_right hKd]
        simp only [or_true, if_true]
        refine ⟨[{ endpoint := endpoint, data := d, length := (d.length : Int), ret := 0,
                   actual_length := (d.length : Int) }], rfl, ?_, ?_, ?_⟩
        · rw [List.length_singleton]
          exact (Nat.div_eq_of_lt_le (by omega) (by omega)).symm
        · intro i hi
          rw [List.length_singleton] at hi
          have hi0 : i = 0 := by omega
          subst hi0
          simp [Nat.min_eq_right hKd]
        · simp [bulk_call.accepted]
      · have hKlt : K < d.length := by omega
        rw [Nat.min_eq_left (by omega)]
        rw [if_neg (by omega)]
        have hrem : (((d.length : Int) - (K : Int)) % 2 ^ 32).toNat = (d.drop K).length := by
          rw [List.length_drop]
          omega
        rw [hrem]
        obtain ⟨calls', hrun, hcount, hidx, hjoin⟩ :=
          ih (d.drop K)
            (pre ++ [{ endpoint := endpoint, data := d, length := (d.length : Int), ret := 0,
                       actual_length := (K : Int) }])
            (by rw [List.length_drop]; omega) (by rw [List.length_drop]; omega)
        refine ⟨{ endpoint := endpoint, data := d, length := (d.length : Int), ret := 0,
                  actual_length := (K : Int) } :: calls', ?_, ?_, ?_, ?_⟩
        · rw [hrun, List.append_assoc]
          rfl
        · rw [List.length_cons, hcount, List.length_drop]
          have e : d.length + K - 1 = (d.length - K + K - 1) + K := by omega
          rw [e, Nat.add_div_right _ (by omega)]
        · intro i hi
          cases i with
          | zero => simp [Nat.min_eq_left (Nat.le_of_lt hKlt)]
          | succ j =>
            rw [List.length_cons] at hi
            have hj := hidx j (by omega)
            rw [List.get?_cons_succ, hj, List.drop_drop, List.length_drop]
            have e1 : K + j * K = (j + 1) * K := by rw [Nat.succ_mul]; omega
            have e2 : d.length - K - j * K = d.length - (j + 1) * K := by
              rw [Nat.succ_mul]; omega
            rw [e1, e2]
        · rw [List.map_cons, List.flatten_cons, hjoin]
          simp [bulk_call.accepted]

/-- C9: for N at least 1 bytes and a transport that reports success on every call and
accepts min(K, remaining) bytes, K at least 1, usbserial_common_bulk_write returns 0 after
exactly ceil(N / K) calls; call number i (counted from 0) is handed the data from offset
i * K on with length N - i * K; and the accepted chunks, concatenated in call order, are the
N bytes.  The byte count is handed to the transport as a C int, so N is below 2^31; any
recursion budget of at least N is enough. -/
theorem bulk_write_partial_chunks (transport : bulk_transport) (N K endpoint fuel : Nat)
    (data : List Nat) (hN : 1 ≤ N) (hK : 1 ≤ K) (hlen : data.length = N) (h31 : N < 2 ^ 31)
    (hfuel : N ≤ fuel)
    (haccept : ∀ calls ep buffer length,
      transport calls ep buffer length = (0, ((min K length.toNat : Nat) : Int))) :
    ∃ calls,
      usbserial_common_bulk_write transport fuel [] endpoint (some data) N = (.ok 0, calls)
        ∧ calls.length = (N + K - 1) / K
        ∧ (∀ i, i < calls.length → calls.get? i = some
            { endpoint := endpoint, data := data.drop (i * K),
              length := ((N - i * K : Nat) : Int), ret := 0,
              actual_length := ((min K (N - i * K) : Nat) : Int) })
        ∧ (calls.map bulk_call.accepted).flatten = data := by
  have ht : transport = accept_at_most K := by
    funext calls ep buffer length
    rw [haccept]
    rfl
  subst ht
  subst hlen
  obtain ⟨calls, hrun, hcount, hidx, hjoin⟩ :=
    bulk_write_accept_at_most K endpoint hK fuel data [] hfuel h31
  exact ⟨calls, by rw [hrun, List.nil_append], hcount, hidx, hjoin⟩

/-- C9 at a concrete input: 7 bytes against a transport that accepts 3 bytes per call. -/
theorem bulk_write_partial_chunks_witness :
    ∃ calls,
      usbserial_common_bulk_write (accept_at_most 3) 7 [] 0x02 (some [1, 2, 3, 4, 5, 6, 7]) 7
          = (.ok 0, calls)
        ∧ calls.length = (7 + 3 - 1) / 3
        ∧ (∀ i, i < calls.length → calls.get? i = some
            { endpoint := 0x02, data := [1, 2, 3, 4, 5, 6, 7].drop (i * 3),
              length := ((7 - i * 3 : Nat) : Int), ret := 0,
              actual_length := ((min 3 (7 - i * 3) : Nat) : Int) })
        ∧ (calls.map bulk_call.accepted).flatten = [1, 2, 3, 4, 5, 6, 7] :=
  bulk_write_partial_chunks (accept_at_most 3) 7 3 0x02 7 [1, 2, 3, 4, 5, 6, 7] (by decide)
    (by decide) rfl (by decide) (by decide) (fun _ _ _ _ => rfl)

/-- C10: a write of zero bytes returns 0 and makes no libusb_bulk_transfer call, whatever
the transport, the endpoint and the data pointer (NULL included) are, with any recursion
budget: the calls made so far are returned unchanged. -/
theorem bulk_write_zero_length (transport : bulk_transport) (fuel endpoint : Nat)
    (calls : List bulk_call) (data : Option (List Nat)) :
    usbserial_common_bulk_write transport fuel calls endpoint data 0 = (.ok 0, calls)
      ∧ usbserial_common_bulk_write transport fuel [] endpoint none 0 = (.ok 0, []) :=
  ⟨bulk_write_zero transport fuel calls endpoint data,
    bulk_write_zero transport fuel [] endpoint none⟩

/-- The calls of the write path extend the calls made before, and a call answered with a
status other than 0 and LIBUSB_ERROR_TIMEOUT is the last one and gives the result. -/
theorem bulk_write_hard_error_aux (transport : bulk_transport) :
    ∀ fuel (pre : List bulk_call) (endpoint : Nat) (data : Option (List Nat))
      (bytes_count : Nat),
      (∃ suffix, (usbserial_common_bulk_write transport fuel pre endpoint data
          bytes_count).2 = pre ++ suffix)
        ∧ ∀ i c,
          (usbserial_common_bulk_write transport fuel pre endpoint data bytes_count).2.get? i
              = some c →
            pre.length ≤ i → c.ret ≠ 0 → c.ret ≠ LIBUSB_ERROR_TIMEOUT →
            i + 1 = (usbserial_common_bulk_write transport fuel pre endpoint data
                bytes_count).2.length
              ∧ (usbserial_common_bulk_write transport fuel pre endpoint data bytes_count).1
                = .ok c.ret := by
  intro fuel
  induction fuel with
  | zero =>
    intro pre endpoint data bytes_count
    have hlog : (usbserial_common_bulk_write transport 0 pre endpoint data bytes_count).2
        = pre := by
      unfold usbserial_common_bulk_write
      split_ifs <;> rfl
    rw [hlog]
    refine ⟨⟨[], by simp⟩, ?_⟩
    intro i c hget hi
    rw [List.get?_eq_none.mpr hi] at hget
    cases hget
  | succ f ih =>
    intro pre endpoint data bytes_count
    unfold usbserial_common_bulk_write
    by_cases hassert : ¬ (0 = bytes_count ∨ data.isSome = true)
    · rw [if_pos hassert]
      refine ⟨⟨[], by simp⟩, ?_⟩
      intro i c hget hi
      rw [List.get?_eq_none.mpr hi] at hget
      cases hget
    · rw [if_neg hassert]
      by_cases hzero : 0 = bytes_count
      · rw [if_pos hzero]
        refine ⟨⟨[], by simp⟩, ?_⟩
        intro i c hget hi
        rw [List.get?_eq_none.mpr hi] at hget
        cases hget
      · rw [if_neg hzero]
        simp only []
        obtain ⟨c0, hc0⟩ : ∃ c0 : bulk_call, c0 =
            { endpoint := endpoint, data := data.getD [], length := to_int32 bytes_count,
              ret := (transport pre endpoint (data.getD []) (to_int32 bytes_count)).1,
              actual_length :=
                (transport pre endpoint (data.getD []) (to_int32 bytes_count)).2 } :=
          ⟨_, rfl⟩
        rw [← hc0]
        have hret : c0.ret = (transport pre endpoint (data.getD []) (to_int32 bytes_count)).1 := by
          rw [hc0]
        rw [← hret]
        have hlast : ∀ i c, (pre ++ [c0]).get? i = some c → pre.length ≤ i →
            i = pre.length ∧ c = c0 := by
          intro i c hget hi
          have hlt : i < (pre ++ [c0]).length := by
            rcases Nat.lt_or_ge i (pre ++ [c0]).length with h | h
            · exact h
            · rw [List.get?_eq_none.mpr h] at hget; cases hget
          rw [List.length_append, List.length_singleton] at hlt
          have hieq : i = pre.length := by omega
          subst hieq
          refine ⟨rfl, ?_⟩
          rw [List.get?_eq_getElem?, List.getElem?_append_right (le_refl _)] at hget
          simpa using hget.symm
        by_cases hsoft : 0 = c0.ret ∨ c0.ret = LIBUSB_ERROR_TIMEOUT
        · rw [if_pos hsoft]
          by_cases hdone : (transport pre endpoint (data.getD []) (to_int32 bytes_count)).2 < 0
              ∨ (transport pre endpoint (data.getD []) (to_int32 bytes_count)).2
                = to_int32 bytes_count
          · rw [if_pos hdone]
            refine ⟨⟨[c0], rfl⟩, ?_⟩
            intro i c hget hi h0 ht
            obtain ⟨_, hc⟩ := hlast i c hget hi
            subst hc
            rcases hsoft with h | h
            · exact absurd h.symm h0
            · exact absurd h ht
          · rw [if_neg hdone]
            obtain ⟨⟨suffix, hsuf⟩, hrest⟩ := ih (pre ++ [c0]) endpoint
              (some ((data.getD []).drop
                (transport pre endpoint (data.getD []) (to_int32 bytes_count)).2.toNat))
              (((bytes_count : Int)
                - (transport pre endpoint (data.getD []) (to_int32 bytes_count)).2)
                  % 2 ^ 32).toNat
            refine ⟨⟨c0 :: suffix, by rw [hsuf, List.append_assoc]; rfl⟩, ?_⟩
            intro i c hget hi h0 ht
            by_cases hi2 : (pre ++ [c0]).length ≤ i
            · exact hrest i c hget hi2 h0 ht
            · exfalso
              rw [hsuf] at hget
              have hlt : i < (pre ++ [c0]).length := by omega
              rw [List.get?_eq_getElem?, List.getElem?_append_left hlt,
                ← List.get?_eq_getElem?] at hget
              obtain ⟨_, hc⟩ := hlast i c hget hi
              subst hc
              rcases hsoft with h | h
              · exact absurd h.symm h0
              · exact absurd h ht
        · rw [if_neg hsoft]
          refine ⟨⟨[c0], rfl⟩, ?_⟩
          intro i c hget hi _ _
          obtain ⟨hieq, hc⟩ := hlast i c hget hi
          subst hc
          subst hieq
          exact ⟨by rw [List.length_append, List.length_singleton], rfl⟩

/-- C11: whatever the transport answers and whatever the earlier calls accepted, a call
of the write path that the transport answers with a status other than 0 and
LIBUSB_ERROR_TIMEOUT is the last call made, and the write returns exactly that status. -/
theorem bulk_write_hard_error_verbatim (transport : bulk_transport) (fuel endpoint : Nat)
    (data : Option (List Nat)) (bytes_count i : Nat) (c : bulk_call)
    (hcall : (usbserial_common_bulk_write transport fuel [] endpoint data bytes_count).2.get? i
      = some c)
    (hok : c.ret ≠ 0) (htimeout : c.ret ≠ LIBUSB_ERROR_TIMEOUT) :
    i + 1 = (usbserial_common_bulk_write transport fuel [] endpoint data bytes_count).2.length
      ∧ (usbserial_common_bulk_write transport fuel [] endpoint data bytes_count).1
        = .ok c.ret :=
  (bulk_write_hard_error_aux transport fuel [] endpoint data bytes_count).2 i c hcall
    (Nat.zero_le _) hok htimeout

/-- C11 at a concrete input: 7 bytes, the first call accepts 3, the second is answered
with -4 (LIBUSB_ERROR_NO_DEVICE). -/
theorem bulk_write_hard_error_verbatim_witness :
    1 + 1 = (usbserial_common_bulk_write (accept_three_then (-4)) 7 [] 0x02
        (some [1, 2, 3, 4, 5, 6, 7]) 7).2.length
      ∧ (usbserial_common_bulk_write (accept_three_then (-4)) 7 [] 0x02
        (some [1, 2, 3, 4, 5, 6, 7]) 7).1 = .ok (-4) :=
  bulk_write_hard_error_verbatim (accept_three_then (-4)) 7 0x02 (some [1, 2, 3, 4, 5, 6, 7]) 7
    1 { endpoint := 0x02, data := [4, 5, 6, 7], length := 4, ret := -4, actual_length := 0 }
    rfl (by decide) (by decide)

theorem le32_bytes_decode (x : Nat) (hx : x < 2 ^ 32) :
    ∃ b0 b1 b2 b3, le32_bytes x = [b0, b1, b2, b3] ∧ b0 < 256 ∧ b1 < 256 ∧ b2 < 256
      ∧ b3 < 256 ∧ b0 + 2 ^ 8 * b1 + 2 ^ 16 * b2 + 2 ^ 24 * b3 = x := by
  refine ⟨x % 256, x / 256 % 256, x / 65536 % 256, x / 16777216 % 256, ?_, ?_, ?_, ?_, ?_, ?_⟩
  · unfold le32_bytes
    rw [Nat.mod_eq_of_lt hx]
  all_goals omega

/-- What silabs_port_set_line_config returns once the payload is sent, by the value r of
libusb_control_transfer. -/
theorem silabs_set_line_config_result (env : usb_env) (w : usb_world) (port : usbserial_port)
    (line_config : usbserial_line_config) (parity_byte stop_bits_byte : Nat)
    (hp : silabs_parity_byte line_config.parity = some parity_byte)
    (hs : silabs_stop_bits_byte line_config.stop_bits line_config.data_bits
      = .ok stop_bits_byte) :
    ∃ setup,
      (silabs_port_set_line_config env w port line_config).2
          = { w with trace := w.trace ++ [.control_transfer setup
                (env.control_transfer w.trace setup)] }
        ∧ setup.data = le32_bytes line_config.baud
            ++ [parity_byte, 0, line_config.data_bits % 256, stop_bits_byte]
        ∧ setup.wLength = 8
        ∧ setup.bmRequestType = SILABS_HOST_TO_DEVICE_REQTYPE
        ∧ setup.bRequest = SILABS_BAUDRATE_REQUEST_CODE
        ∧ (silabs_port_set_line_config env w port line_config).1
          = .ok (if env.control_transfer w.trace setup > 0 then
                  (if env.control_transfer w.trace setup = 8 then 0
                   else USBSERIAL_ERROR_CTRL_CMD_FAILED)
                 else env.control_transfer w.trace setup) := by
  unfold silabs_port_set_line_config
  simp only [hp, hs, libusb_control_transfer]
  refine ⟨{ bmRequestType := SILABS_HOST_TO_DEVICE_REQTYPE,
            bRequest := SILABS_BAUDRATE_REQUEST_CODE, wValue := 0,
            wIndex := port.port_idx % 2 ^ 16,
            data := le32_bytes line_config.baud
              ++ [parity_byte, 0, line_config.data_bits % 256, stop_bits_byte],
            wLength := 8 }, ?_, rfl, rfl, rfl, rfl, ?_⟩
  · split_ifs <;> rfl
  · split_ifs <;> rfl

/-- What cdc_port_set_baudrate returns, by the value r of libusb_control_transfer. -/
theorem cdc_set_baudrate_result (env : usb_env) (w : usb_world) (port : usbserial_port)
    (baud : Nat) :
    ∃ setup,
      (cdc_port_set_baudrate env w port baud).2
          = { w with trace := w.trace ++ [.control_transfer setup
                (env.control_transfer w.trace setup)] }
        ∧ setup.data = le32_bytes baud ++ [0, 0, 8]
        ∧ setup.wLength = 7
        ∧ setup.bmRequestType = CDC_ACM_REQTYPE
        ∧ setup.bRequest = CDC_SET_LINE_CODING_REQUEST_CODE
        ∧ (cdc_port_set_baudrate env w port baud).1
          = .ok (if env.control_transfer w.trace setup > 0 then
                  (if env.control_transfer w.trace setup = 7 then 0
                   else USBSERIAL_ERROR_CTRL_CMD_FAILED)
                 else env.control_transfer w.trace setup) := by
  unfold cdc_port_set_baudrate
  simp only [libusb_control_transfer]
  refine ⟨{ bmRequestType := CDC_ACM_REQTYPE, bRequest := CDC_SET_LINE_CODING_REQUEST_CODE,
            wValue := 0, wIndex := 0, data := le32_bytes baud ++ [0, 0, 8], wLength := 7 },
    ?_, rfl, rfl, rfl, rfl, ?_⟩
  · split_ifs <;> rfl
  · split_ifs <;> rfl

/-- C19, evaluated: when the transport reports a successful control transfer of 0 bytes,
silabs_port_set_line_config (8-byte payload, on a CP2102) and cdc_port_set_baudrate (7-byte
payload, on a PL2303) return 0, not USBSERIAL_ERROR_CTRL_CMD_FAILED; the transfer was
issued with the full payload length. -/
theorem line_config_zero_bytes_reported_as_success :
    (silabs_port_set_line_config (zero_bytes_env cp2102_descriptor) fresh_world cp2102_port
        (default_line_config 9600)).1 = .ok 0
      ∧ (silabs_port_set_line_config (zero_bytes_env cp2102_descriptor) fresh_world cp2102_port
        (default_line_config 9600)).2.trace
          = [.control_transfer
              { bmRequestType := 0x41, bRequest := 0x1e, wValue := 0, wIndex := 0,
                data := [0x80, 0x25, 0, 0, 0, 0, 8, 0], wLength := 8 } 0]
      ∧ (cdc_port_set_baudrate (zero_bytes_env pl2303_descriptor) fresh_world pl2303_port
        9600).1 = .ok 0
      ∧ (cdc_port_set_baudrate (zero_bytes_env pl2303_descriptor) fresh_world pl2303_port
        9600).2.trace
          = [.control_transfer
              { bmRequestType := 0x21, bRequest := 0x20, wValue := 0, wIndex := 0,
                data := [0x80, 0x25, 0, 0, 0, 0, 8], wLength := 7 } 0] := by
  refine ⟨rfl, rfl, rfl, rfl⟩

/-- C20: for every baud below 2^32 and every line configuration that
silabs_port_set_line_config accepts (valid parity, valid stop bits for the data bits, data
bits below 256), the one control transfer it issues carries 8 bytes: four bytes b0..b3,
each below 256, with b0 + 2^8 b1 + 2^16 b2 + 2^24 b3 equal to the baud, then the parity
code, 0, the data-bits count and the stop-bits code; cdc_port_set_baudrate issues one
control transfer carrying the same four baud bytes followed by 0, 0, 8.  The parity codes
are 0, 1, 2, 3, 4 for none, odd, even, mark, space; the stop-bits code computed by the
source is 0 for 1 stop bit and 1 for 1.5 (5 data bits) and for 2 stop bits. -/
theorem payload_framing_bit_exact (env : usb_env) (w : usb_world) (port : usbserial_port)
    (line_config : usbserial_line_config) (parity_byte stop_bits_byte : Nat)
    (hp : silabs_parity_byte line_config.parity = some parity_byte)
    (hs : silabs_stop_bits_byte line_config.stop_bits line_config.data_bits
      = .ok stop_bits_byte)
    (hbaud : line_config.baud < 2 ^ 32) (hbits : line_config.data_bits < 256) :
    (∃ b0 b1 b2 b3, b0 < 256 ∧ b1 < 256 ∧ b2 < 256 ∧ b3 < 256
      ∧ b0 + 2 ^ 8 * b1 + 2 ^ 16 * b2 + 2 ^ 24 * b3 = line_config.baud
      ∧ (∃ r1, (silabs_port_set_line_config env w port line_config).2.trace
          = w.trace ++ [.control_transfer
              { bmRequestType := SILABS_HOST_TO_DEVICE_REQTYPE,
                bRequest := SILABS_BAUDRATE_REQUEST_CODE, wValue := 0,
                wIndex := port.port_idx % 2 ^ 16,
                data := [b0, b1, b2, b3, parity_byte, 0, line_config.data_bits,
                         stop_bits_byte],
                wLength := 8 } r1])
      ∧ (∃ r2, (cdc_port_set_baudrate env w port line_config.baud).2.trace
          = w.trace ++ [.control_transfer
              { bmRequestType := CDC_ACM_REQTYPE,
                bRequest := CDC_SET_LINE_CODING_REQUEST_CODE, wValue := 0, wIndex := 0,
                data := [b0, b1, b2, b3, 0, 0, 8], wLength := 7 } r2]))
      ∧ silabs_parity_byte .USBSERIAL_PARITY_NONE = some 0
      ∧ silabs_parity_byte .USBSERIAL_PARITY_ODD = some 1
      ∧ silabs_parity_byte .USBSERIAL_PARITY_EVEN = some 2
      ∧ silabs_parity_byte .USBSERIAL_PARITY_MARK = some 3
      ∧ silabs_parity_byte .USBSERIAL_PARITY_SPACE = some 4
      ∧ silabs_stop_bits_byte .USBSERIAL_STOPBITS_1 line_config.data_bits = .ok 0
      ∧ silabs_stop_bits_byte .USBSERIAL_STOPBITS_1_5 USBSERIAL_DATABITS_5 = .ok 1
      ∧ silabs_stop_bits_byte .USBSERIAL_STOPBITS_2 8 = .ok 1 := by
  refine ⟨?_, rfl, rfl, rfl, rfl, rfl, rfl, rfl, rfl⟩
  obtain ⟨b0, b1, b2, b3, hle, h0, h1, h2, h3, hsum⟩ := le32_bytes_decode line_config.baud hbaud
  refine ⟨b0, b1, b2, b3, h0, h1, h2, h3, hsum, ?_, ?_⟩
  · unfold silabs_port_set_line_config
    simp only [hp, hs, libusb_control_transfer, hle, Nat.mod_eq_of_lt hbits]
    split_ifs <;> exact ⟨_, rfl⟩
  · unfold cdc_port_set_baudrate
    simp only [libusb_control_transfer, hle]
    split_ifs <;> exact ⟨_, rfl⟩

/-- C20 at a concrete configuration: 115200 baud, 8 data bits, even parity, 2 stop bits on
a CP2102. -/
theorem payload_framing_bit_exact_witness :
    (∃ b0 b1 b2 b3, b0 < 256 ∧ b1 < 256 ∧ b2 < 256 ∧ b3 < 256
      ∧ b0 + 2 ^ 8 * b1 + 2 ^ 16 * b2 + 2 ^ 24 * b3 = 115200
      ∧ (∃ r1, (silabs_port_set_line_config (cooperative_env cp2102_descriptor) fresh_world
          cp2102_port { baud := 115200, data_bits := 8, parity := .USBSERIAL_PARITY_EVEN,
                        stop_bits := .USBSERIAL_STOPBITS_2 }).2.trace
          = [] ++ [.control_transfer
              { bmRequestType := SILABS_HOST_TO_DEVICE_REQTYPE,
                bRequest := SILABS_BAUDRATE_REQUEST_CODE, wValue := 0,
                wIndex := 0 % 2 ^ 16,
                data := [b0, b1, b2, b3, 2, 0, 8, 1],
                wLength := 8 } r1])
      ∧ (∃ r2, (cdc_port_set_baudrate (cooperative_env cp2102_descriptor) fresh_world cp2102_port
          115200).2.trace
          = [] ++ [.control_transfer
              { bmRequestType := CDC_ACM_REQTYPE,
                bRequest := CDC_SET_LINE_CODING_REQUEST_CODE, wValue := 0, wIndex := 0,
                data := [b0, b1, b2, b3, 0, 0, 8], wLength := 7 } r2]))
      ∧ silabs_parity_byte .USBSERIAL_PARITY_NONE = some 0
      ∧ silabs_parity_byte .USBSERIAL_PARITY_ODD = some 1
      ∧ silabs_parity_byte .USBSERIAL_PARITY_EVEN = some 2
      ∧ silabs_parity_byte .USBSERIAL_PARITY_MARK = some 3
      ∧ silabs_parity_byte .USBSERIAL_PARITY_SPACE = some 4
      ∧ silabs_stop_bits_byte .USBSERIAL_STOPBITS_1 8 = .ok 0
      ∧ silabs_stop_bits_byte .USBSERIAL_STOPBITS_1_5 USBSERIAL_DATABITS_5 = .ok 1
      ∧ silabs_stop_bits_byte .USBSERIAL_STOPBITS_2 8 = .ok 1 :=
  payload_framing_bit_exact (cooperative_env cp2102_descriptor) fresh_world cp2102_port
    { baud := 115200, data_bits := 8, parity := .USBSERIAL_PARITY_EVEN,
      stop_bits := .USBSERIAL_STOPBITS_2 } 2 1 rfl rfl (by decide) (by decide)

/-- On an initialised FTDI port ftdi_purge sends the PURGE_RX reset exactly when purge_rx is
non-zero and the PURGE_TX reset exactly when purge_tx is non-zero, in this order. -/
theorem ftdi_purge_selective (env : usb_env) (w : usb_world) (port : usbserial_port)
    (port_data : ftdi_port_data) (purge_rx purge_tx : Int)
    (hinit : port.driver_specific_data = some (.ftdi port_data)) :
    ∃ r1 r2,
      (ftdi_purge env w port purge_rx purge_tx).2.trace
        = w.trace
          ++ (if purge_rx ≠ 0 then
                [usb_event.control_transfer
                  { bmRequestType := FTDI_DEVICE_OUT_REQTYPE, bRequest := FTDI_SIO_REQUEST_RESET,
                    wValue := FTDI_SIO_RESET_PURGE_RX, wIndex := port_data.control_idx,
                    data := [], wLength := 0 } r1]
              else [])
          ++ (if purge_tx ≠ 0 then
                [usb_event.control_transfer
                  { bmRequestType := FTDI_DEVICE_OUT_REQTYPE, bRequest := FTDI_SIO_REQUEST_RESET,
                    wValue := FTDI_SIO_RESET_PURGE_TX, wIndex := port_data.control_idx,
                    data := [], wLength := 0 } r2]
              else []) := by
  unfold ftdi_purge
  simp only [hinit, ftdi_reset_ctrl, libusb_control_transfer]
  by_cases hrx : purge_rx ≠ 0 <;> by_cases htx : purge_tx ≠ 0
  · simp only [if_pos hrx, if_pos htx]
    exact ⟨_, _, rfl⟩
  · simp only [if_pos hrx, if_neg htx, List.append_nil]
    exact ⟨_, 0, rfl⟩
  · simp only [if_neg hrx, if_pos htx, List.append_nil]
    exact ⟨0, _, rfl⟩
  · simp only [if_neg hrx, if_neg htx, List.append_nil]
    exact ⟨0, 0, trivial⟩

/-- On an initialised port silabs_purge sends one FLUSH request whose value has the
receive bits 0x0a exactly when purge_rx is non-zero and the transmit bits 0x05 exactly when
purge_tx is non-zero. -/
theorem silabs_purge_selective (env : usb_env) (w : usb_world) (port : usbserial_port)
    (d : driver_data) (purge_rx purge_tx : Int) (hinit : port.driver_specific_data = some d) :
    ∃ r,
      (silabs_purge env w port purge_rx purge_tx).2.trace
        = w.trace ++ [usb_event.control_transfer
            { bmRequestType := SILABS_HOST_TO_DEVICE_REQTYPE,
              bRequest := SILABS_FLUSH_REQUEST_CODE,
              wValue := ((if purge_rx ≠ 0 then 0x0a else 0) ||| (if purge_tx ≠ 0 then 0x05 else 0))
                % 2 ^ 16,
              wIndex := port.port_idx % 2 ^ 16, data := [], wLength := 0 } r] := by
  unfold silabs_purge
  simp only [hinit, silabs_set_config, libusb_control_transfer, SILABS_FLUSH_RX_VALUE,
    SILABS_FLUSH_TX_VALUE]
  exact ⟨_, rfl⟩

/-- With both flags zero usbserial_purge returns USBSERIAL_ERROR_INVALID_PARAMETER and
leaves the world as it is. -/
theorem usbserial_purge_no_flags (env : usb_env) (w : usb_world)
    (port : Option usbserial_port) :
    usbserial_purge env w port 0 0 = (.ok USBSERIAL_ERROR_INVALID_PARAMETER, w) := by
  unfold usbserial_purge
  cases port with
  | none => rfl
  | some p => simp

/-- C18, evaluated: on a PL2303 port usbserial_purge(port, 0, 1) returns 0 after sending
two vendor requests, first the receive flush (value 0x08), then the transmit flush (value
0x09): the receive buffer is flushed although purge_rx is 0.  On an FT232R and on a CP2102
the same call sends the transmit purge only, and with both flags zero nothing is sent. -/
theorem prolific_purge_tx_flushes_rx :
    usbserial_purge (cooperative_env pl2303_descriptor) fresh_world (some pl2303_port) 0 1
        = (.ok 0,
            { claimed := [],
              trace :=
                [.control_transfer
                  { bmRequestType := 0x40, bRequest := 0x01, wValue := PROLIFIC_FLUSH_RX_VALUE,
                    wIndex := 0, data := [], wLength := 0 } 0,
                 .control_transfer
                  { bmRequestType := 0x40, bRequest := 0x01, wValue := PROLIFIC_FLUSH_TX_VALUE,
                    wIndex := 0, data := [], wLength := 0 } 0] })
      ∧ (usbserial_purge (cooperative_env ft232r_descriptor) fresh_world (some ft232r_port) 0
          1).2.trace
        = [.control_transfer
            { bmRequestType := 0x40, bRequest := 0, wValue := FTDI_SIO_RESET_PURGE_TX,
              wIndex := 0, data := [], wLength := 0 } 0]
      ∧ (usbserial_purge (cooperative_env cp2102_descriptor) fresh_world (some cp2102_port) 0
          1).2.trace
        = [.control_transfer
            { bmRequestType := 0x41, bRequest := 0x12, wValue := SILABS_FLUSH_TX_VALUE,
              wIndex := 0, data := [], wLength := 0 } 0]
      ∧ usbserial_purge (cooperative_env pl2303_descriptor) fresh_world (some pl2303_port) 0 0
        = (.ok USBSERIAL_ERROR_INVALID_PARAMETER, fresh_world) := by
  refine ⟨rfl, rfl, rfl, rfl⟩

/-- With the read-error flag set the synchronous cancellation returns at once with 0. -/
theorem cancel_sync_flag_set (env : reader_env) (fuel : Nat) (port : usbserial_port)
    (tw : transfer_world) (transfer : Nat) (hflag : port.read_error_flag ≠ 0) :
    usbserial_common_cancel_read_transfer_sync env (fuel + 1) port tw transfer
      = (.ok 0, port, tw) := by
  unfold usbserial_common_cancel_read_transfer_sync cancel_read_transfer_loop
  rw [if_pos hflag]

/-- C12: when the read-error flag of a port is set and its private data references a
transfer, usbserial_common_cancel_read_transfer_sync returns 0 and leaves the transfer
world as it is (no libusb_cancel_transfer, no wait on the condition), and the stop_reader
of the port's driver (FTDI, Silicon Labs or CDC) returns 0 having done exactly one thing,
libusb_free_transfer on that transfer, and having cleared the reference. -/
theorem stop_reader_after_error (env : reader_env) (fuel : Nat) (port : usbserial_port)
    (tw : transfer_world) (d : driver_data) (transfer : Nat)
    (hkind : port_driver_kind port = some d.kind)
    (hdata : port.driver_specific_data = some d)
    (htransfer : d.transfer = some transfer)
    (hflag : port.read_error_flag ≠ 0) :
    usbserial_common_cancel_read_transfer_sync env (fuel + 1) port tw transfer
        = (.ok 0, port, tw)
      ∧ (usbserial_stop_reader env (fuel + 1) port tw).1 = .ok 0
      ∧ (usbserial_stop_reader env (fuel + 1) port tw).2.2.events
          = tw.events ++ [.free_transfer transfer]
      ∧ (usbserial_stop_reader env (fuel + 1) port tw).2.2.live = tw.live.erase transfer
      ∧ (usbserial_stop_reader env (fuel + 1) port tw).2.2.in_flight = tw.in_flight
      ∧ port_transfer (usbserial_stop_reader env (fuel + 1) port tw).2.1 = none
      ∧ (usbserial_stop_reader env (fuel + 1) port tw).2.1.read_error_flag
          = port.read_error_flag := by
  have hc := cancel_sync_flag_set env fuel port tw transfer hflag
  refine ⟨hc, ?_⟩
  unfold usbserial_stop_reader
  rw [hkind]
  cases d with
  | ftdi pd =>
    simp only [driver_data.transfer] at htransfer
    simp only [driver_data.kind, ftdi_stop_reader, hdata, htransfer,
      stop_reader_cancel_and_free, hc, libusb_free_transfer, port_transfer, Option.map_some',
      driver_data.clear_transfer, Option.bind, driver_data.transfer, and_self]
  | silabs pd =>
    simp only [driver_data.transfer] at htransfer
    simp only [driver_data.kind, silabs_stop_reader, hdata, htransfer,
      stop_reader_cancel_and_free, hc, libusb_free_transfer, port_transfer, Option.map_some',
      driver_data.clear_transfer, Option.bind, driver_data.transfer, and_self]
  | cdc pd =>
    simp only [driver_data.transfer] at htransfer
    simp only [driver_data.kind, cdc_stop_reader, hdata, htransfer,
      stop_reader_cancel_and_free, hc, libusb_free_transfer, port_transfer, Option.map_some',
      driver_data.clear_transfer, Option.bind, driver_data.transfer, and_self]

/-- C12 at a concrete port: port 0 of an FT232R whose transfer 0 ended with an error. -/
theorem stop_reader_after_error_witness :
    usbserial_common_cancel_read_transfer_sync (cooperative_port_env ft232r_descriptor).reader
        (0 + 1) ft232r_port_after_error transfers_after_error 0
        = (.ok 0, ft232r_port_after_error, transfers_after_error)
      ∧ (usbserial_stop_reader (cooperative_port_env ft232r_descriptor).reader (0 + 1)
          ft232r_port_after_error transfers_after_error).1 = .ok 0
      ∧ (usbserial_stop_reader (cooperative_port_env ft232r_descriptor).reader (0 + 1)
          ft232r_port_after_error transfers_after_error).2.2.events
          = transfers_after_error.events ++ [.free_transfer 0]
      ∧ (usbserial_stop_reader (cooperative_port_env ft232r_descriptor).reader (0 + 1)
          ft232r_port_after_error transfers_after_error).2.2.live
          = transfers_after_error.live.erase 0
      ∧ (usbserial_stop_reader (cooperative_port_env ft232r_descriptor).reader (0 + 1)
          ft232r_port_after_error transfers_after_error).2.2.in_flight
          = transfers_after_error.in_flight
      ∧ port_transfer (usbserial_stop_reader (cooperative_port_env ft232r_descriptor).reader
          (0 + 1) ft232r_port_after_error transfers_after_error).2.1 = none
      ∧ (usbserial_stop_reader (cooperative_port_env ft232r_descriptor).reader (0 + 1)
          ft232r_port_after_error transfers_after_error).2.1.read_error_flag
          = ft232r_port_after_error.read_error_flag :=
  stop_reader_after_error (cooperative_port_env ft232r_descriptor).reader 0
    ft232r_port_after_error transfers_after_error (.ftdi ft232r_reading_data) 0 rfl rfl rfl
    (by decide)

/-- C17: on a completion whose status is neither completed nor timed out the read callback
is not called and the transfer is not resubmitted.  For the status cancelled the handler
only signals the cancellation condition and leaves the port, the read-error flag included,
as it is; for every other status it sets the read-error flag to 1 and calls the error
callback once with that status if the port has one, and does nothing else if it has
none. -/
theorem read_completion_terminal (env : reader_env) (port : usbserial_port)
    (tw : transfer_world) (transfer : Nat) (status : libusb_transfer_status)
    (actual_length : Int) (buffer : List Nat)
    (hcompleted : status ≠ .LIBUSB_TRANSFER_COMPLETED)
    (htimed_out : status ≠ .LIBUSB_TRANSFER_TIMED_OUT) :
    (status = .LIBUSB_TRANSFER_CANCELLED →
        usbserial_common_default_read_transfer_callback env port tw transfer status
            actual_length buffer
          = .ok (port, { tw with events := tw.events ++ [.cond_signal] }))
      ∧ (status ≠ .LIBUSB_TRANSFER_CANCELLED → port.read_error_cb = true →
        usbserial_common_default_read_transfer_callback env port tw transfer status
            actual_length buffer
          = .ok ({ port with read_error_flag := 1 },
              { tw with events := tw.events ++ [.read_error_cb status] }))
      ∧ (status ≠ .LIBUSB_TRANSFER_CANCELLED → port.read_error_cb = false →
        usbserial_common_default_read_transfer_callback env port tw transfer status
            actual_length buffer
          = .ok ({ port with read_error_flag := 1 }, tw)) := by
  unfold usbserial_common_default_read_transfer_callback
  rw [if_neg (by rintro (h | h) <;> contradiction)]
  refine ⟨?_, ?_, ?_⟩
  · intro hc
    rw [if_pos hc]
    rfl
  · intro hc hcb
    rw [if_neg hc]
    simp only [hcb, if_true]
    rfl
  · intro hc hcb
    rw [if_neg hc]
    simp only [hcb]
    rfl

/-- C17 at a concrete completion: status no-device on port 0 of an FT232R, which has no
error callback, while transfer 0 is referenced. -/
theorem read_completion_terminal_witness :
    (libusb_transfer_status.LIBUSB_TRANSFER_NO_DEVICE = .LIBUSB_TRANSFER_CANCELLED →
        usbserial_common_default_read_transfer_callback
            (cooperative_port_env ft232r_descriptor).reader ft232r_port fresh_transfers 0
            .LIBUSB_TRANSFER_NO_DEVICE 0 []
          = .ok (ft232r_port,
              { fresh_transfers with events := fresh_transfers.events ++ [.cond_signal] }))
      ∧ (libusb_transfer_status.LIBUSB_TRANSFER_NO_DEVICE ≠ .LIBUSB_TRANSFER_CANCELLED →
          ft232r_port.read_error_cb = true →
        usbserial_common_default_read_transfer_callback
            (cooperative_port_env ft232r_descriptor).reader ft232r_port fresh_transfers 0
            .LIBUSB_TRANSFER_NO_DEVICE 0 []
          = .ok ({ ft232r_port with read_error_flag := 1 },
              { fresh_transfers with
                events := fresh_transfers.events
                  ++ [.read_error_cb .LIBUSB_TRANSFER_NO_DEVICE] }))
      ∧ (libusb_transfer_status.LIBUSB_TRANSFER_NO_DEVICE ≠ .LIBUSB_TRANSFER_CANCELLED →
          ft232r_port.read_error_cb = false →
        usbserial_common_default_read_transfer_callback
            (cooperative_port_env ft232r_descriptor).reader ft232r_port fresh_transfers 0
            .LIBUSB_TRANSFER_NO_DEVICE 0 []
          = .ok ({ ft232r_port with read_error_flag := 1 }, fresh_transfers)) :=
  read_completion_terminal (cooperative_port_env ft232r_descriptor).reader ft232r_port
    fresh_transfers 0 .LIBUSB_TRANSFER_NO_DEVICE 0 [] (by decide) (by decide)

theorem ftdi_strip_loop_total (m n : Nat) (hm : 1 ≤ m) :
    ∀ fuel i skip data copies, n - i ≤ fuel → n ≤ data.length →
      ∃ r, ftdi_strip_loop m n fuel i skip data copies = .ok r := by
  intro fuel
  induction fuel with
  | zero =>
    intro i skip data copies hfuel _
    unfold ftdi_strip_loop
    rw [if_neg (by omega)]
    exact ⟨_, rfl⟩
  | succ f ih =>
    intro i skip data copies hfuel hlen
    unfold ftdi_strip_loop
    by_cases hlt : i < n
    · rw [if_pos hlt, if_neg (by omega)]
      by_cases hb : 0 = i % m
      · rw [if_pos hb]
        exact ih _ _ _ _ (by omega) hlen
      · rw [if_neg hb]
        have h0 : data.get? i = some (data.get ⟨i, by omega⟩) := List.get?_eq_get _
        rw [h0]
        exact ih _ _ _ _ (by omega) (by rw [List.length_set]; exact hlen)
    · rw [if_neg hlt]
      exact ⟨_, rfl⟩

/-- The FTDI postprocessor returns normally for a packet size of at least 1 and a count
within the buffer. -/
theorem ftdi_postprocessor_total (port : usbserial_port) (data : List Nat) (n : Nat)
    (hm : 1 ≤ port.usb_device_descriptor.bMaxPacketSize0) (hlen : n ≤ data.length) :
    ∃ r, ftdi_read_data_postprocessor port data n = .ok r := by
  unfold ftdi_read_data_postprocessor
  obtain ⟨r, hr⟩ := ftdi_strip_loop_total port.usb_device_descriptor.bMaxPacketSize0 n hm n
    FTDI_MODEM_STATUS_BYTES_COUNT FTDI_MODEM_STATUS_BYTES_COUNT data [] (by omega) hlen
  rw [hr]
  exact ⟨_, rfl⟩

theorem count_of_actual_length (N : Nat) (hN : N < 2 ^ 32) :
    (((N : Int)) % 2 ^ 32).toNat = N := by
  omega

/-- The postprocessor on a count of 2, the two status bytes alone: the loop body is not
entered and the count becomes 0. -/
theorem ftdi_postprocessor_status_only (port : usbserial_port) (data : List Nat) :
    ftdi_read_data_postprocessor port data 2 = .ok (data, 0) := by
  unfold ftdi_read_data_postprocessor FTDI_MODEM_STATUS_BYTES_COUNT
  unfold ftdi_strip_loop
  rw [if_neg (by decide)]
  simp

/-- The first branch of the read callback once the count after the optional postprocessor
is known. -/
theorem read_transfer_callback_data_eq (env : reader_env) (port : usbserial_port)
    (tw : transfer_world) (transfer N : Nat) (buffer : List Nat) (kind : driver_kind)
    (hkind : port_driver_kind port = some kind) (hcb : port.read_cb = true)
    (hN : N < 2 ^ 32) :
    (driver_read_data_postprocessor kind = none →
        ∃ tw' ret,
          read_transfer_callback_data env port tw transfer (N : Int) buffer = .ok (port, tw')
            ∧ tw'.events
              = tw.events ++ read_completion_events false N buffer N transfer ret)
      ∧ (kind = .ftdi → 0 < N → ∀ buffer' count',
          ftdi_read_data_postprocessor port buffer N = .ok (buffer', count') →
          ∃ tw' ret,
            read_transfer_callback_data env port tw transfer (N : Int) buffer
                = .ok (port, tw')
              ∧ tw'.events
                = tw.events ++ read_completion_events true N buffer' count' transfer ret)
      ∧ (N = 0 →
          ∃ tw' ret,
            read_transfer_callback_data env port tw transfer (N : Int) buffer
                = .ok (port, tw')
              ∧ tw'.events
                = tw.events ++ read_completion_events false 0 buffer 0 transfer ret) := by
  unfold read_transfer_callback_data
  simp only [count_of_actual_length N hN, hkind, hcb]
  refine ⟨?_, ?_, ?_⟩
  · intro hnone
    rw [hnone]
    by_cases hpos : N > 0
    · simp only [hpos, if_true]
      refine ⟨_, env.submit_transfer (tw.events ++ [.read_cb buffer N]) transfer, rfl, ?_⟩
      simp [libusb_submit_transfer, transfer_world.log, read_completion_events, hpos]
    · have h0 : N = 0 := by omega
      subst h0
      simp only [gt_iff_lt, Nat.lt_irrefl, if_false]
      refine ⟨_, env.submit_transfer tw.events transfer, rfl, ?_⟩
      simp [libusb_submit_transfer, read_completion_events]
  · intro hk hpos buffer' count' hpp
    subst hk
    simp only [driver_read_data_postprocessor, hpp, gt_iff_lt, hpos, if_true]
    by_cases hc : count' > 0
    · simp only [hc, if_true]
      refine ⟨_, env.submit_transfer
        (tw.events ++ [.read_data_postprocessor N] ++ [.read_cb buffer' count']) transfer,
        rfl, ?_⟩
      simp [libusb_submit_transfer, transfer_world.log, read_completion_events, hc]
    · have h0 : count' = 0 := by omega
      subst h0
      simp only [gt_iff_lt, Nat.lt_irrefl, if_false]
      refine ⟨_, env.submit_transfer (tw.events ++ [.read_data_postprocessor N]) transfer,
        rfl, ?_⟩
      simp [libusb_submit_transfer, transfer_world.log, read_completion_events]
  · intro h0
    subst h0
    simp only [gt_iff_lt, Nat.lt_irrefl, if_false]
    refine ⟨_, env.submit_transfer tw.events transfer, rfl, ?_⟩
    simp [libusb_submit_transfer, read_completion_events]

/-- C16: on a completion with status completed or timed out and actual_length N, on a port
that has a read callback, the handler returns with the port (hence the read-error flag)
unchanged and adds to the log, in this order: the postprocessor call, only for a driver
that defines one (FTDI) and only for N above 0; the read callback, once, with the buffer and
the count as the postprocessor left them, exactly when that count is above 0; and one
resubmission of the same transfer; the error callback is not called.  For FTDI and N = 2
the log gains the postprocessor call and the resubmission only.  The FTDI postprocessor
returns normally whenever the packet size is at least 1 and N is within the buffer. -/
theorem read_completion_delivers_and_resubmits (env : reader_env) (port : usbserial_port)
    (tw : transfer_world) (transfer N : Nat) (status : libusb_transfer_status)
    (buffer : List Nat) (kind : driver_kind)
    (hstatus : status = .LIBUSB_TRANSFER_COMPLETED ∨ status = .LIBUSB_TRANSFER_TIMED_OUT)
    (hkind : port_driver_kind port = some kind) (hcb : port.read_cb = true)
    (hN : N < 2 ^ 32) :
    (driver_read_data_postprocessor kind = none →
        ∃ tw' ret,
          usbserial_common_default_read_transfer_callback env port tw transfer status
              (N : Int) buffer = .ok (port, tw')
            ∧ tw'.events
              = tw.events ++ read_completion_events false N buffer N transfer ret)
      ∧ (kind = .ftdi → 0 < N → ∀ buffer' count',
          ftdi_read_data_postprocessor port buffer N = .ok (buffer', count') →
          ∃ tw' ret,
            usbserial_common_default_read_transfer_callback env port tw transfer status
                (N : Int) buffer = .ok (port, tw')
              ∧ tw'.events
                = tw.events ++ read_completion_events true N buffer' count' transfer ret)
      ∧ (N = 0 →
          ∃ tw' ret,
            usbserial_common_default_read_transfer_callback env port tw transfer status
                (N : Int) buffer = .ok (port, tw')
              ∧ tw'.events = tw.events ++ [.submit_transfer transfer ret])
      ∧ (kind = .ftdi → N = 2 →
          ∃ tw' ret,
            usbserial_common_default_read_transfer_callback env port tw transfer status
                (N : Int) buffer = .ok (port, tw')
              ∧ tw'.events
                = tw.events ++ [.read_data_postprocessor 2, .submit_transfer transfer ret])
      ∧ (kind = .ftdi → 1 ≤ port.usb_device_descriptor.bMaxPacketSize0 → N ≤ buffer.length →
          ∃ r, ftdi_read_data_postprocessor port buffer N = .ok r)
      ∧ (driver_read_data_postprocessor .ftdi = some ftdi_read_data_postprocessor
          ∧ driver_read_data_postprocessor .silabs = none
          ∧ driver_read_data_postprocessor .cdc = none) := by
  have hbranch : usbserial_common_default_read_transfer_callback env port tw transfer status
      (N : Int) buffer = read_transfer_callback_data env port tw transfer (N : Int) buffer := by
    unfold usbserial_common_default_read_transfer_callback
    rw [if_pos hstatus]
  rw [hbranch]
  obtain ⟨hnone, hftdi, hzero⟩ :=
    read_transfer_callback_data_eq env port tw transfer N buffer kind hkind hcb hN
  refine ⟨hnone, hftdi, ?_, ?_, ?_, ⟨rfl, rfl, rfl⟩⟩
  · intro h0
    obtain ⟨tw', ret, hrun, hev⟩ := hzero h0
    exact ⟨tw', ret, hrun, by rw [hev]; rfl⟩
  · intro hk h2
    subst h2
    obtain ⟨tw', ret, hrun, hev⟩ :=
      hftdi hk (by decide) buffer 0 (ftdi_postprocessor_status_only port buffer)
    exact ⟨tw', ret, hrun, by rw [hev]; rfl⟩
  · intro _ hm hlen
    exact ftdi_postprocessor_total port buffer N hm hlen

/-- C16 at a concrete completion: 4 bytes, a status header and 2 data bytes, completed on
port 0 of an FT232R. -/
theorem read_completion_delivers_and_resubmits_witness :
    ∃ tw' ret,
      usbserial_common_default_read_transfer_callback
          (cooperative_port_env ft232r_descriptor).reader ft232r_port fresh_transfers 0
          .LIBUSB_TRANSFER_COMPLETED ((4 : Nat) : Int) [0x31, 0x60, 7, 9]
          = .ok (ft232r_port, tw')
        ∧ tw'.events
          = fresh_transfers.events ++ read_completion_events true 4 [7, 9, 7, 9] 2 0 ret :=
  (read_completion_delivers_and_resubmits (cooperative_port_env ft232r_descriptor).reader
    ft232r_port fresh_transfers 0 4 .LIBUSB_TRANSFER_COMPLETED [0x31, 0x60, 7, 9] .ftdi
    (Or.inl rfl) rfl rfl (by decide)).2.1 rfl (by decide) [7, 9, 7, 9] 2 rfl

theorem start_reader_submit_live (env : reader_env) (tw : transfer_world) (endpoint : Nat) :
    ((start_reader_submit env tw endpoint).2.1 = none
        ∧ (start_reader_submit env tw endpoint).2.2.live = tw.live)
      ∨ (∃ t, (start_reader_submit env tw endpoint).2.1 = some t
        ∧ (start_reader_submit env tw endpoint).2.2.live = t :: tw.live) := by
  unfold start_reader_submit libusb_alloc_transfer
  by_cases ha : env.alloc_transfer tw.events = true
  · simp only [ha, if_true]
    split_ifs with hs
    · left
      refine ⟨rfl, ?_⟩
      simp [libusb_free_transfer, libusb_submit_transfer,
        usbserial_common_init_bulk_read_transfer, transfer_world.log]
    · right
      exact ⟨_, rfl, by
        simp [libusb_submit_transfer, usbserial_common_init_bulk_read_transfer,
          transfer_world.log]⟩
  · simp only [ha]
    left
    exact ⟨rfl, rfl⟩

theorem cancel_loop_preserves (env : reader_env) :
    ∀ fuel port tw transfer cancel_ret,
      (cancel_read_transfer_loop env fuel port tw transfer cancel_ret).2.1 = port
        ∧ (cancel_read_transfer_loop env fuel port tw transfer cancel_ret).2.2.live
          = tw.live := by
  intro fuel
  induction fuel with
  | zero =>
    intro port tw transfer cancel_ret
    exact ⟨rfl, rfl⟩
  | succ f ih =>
    intro port tw transfer cancel_ret
    unfold cancel_read_transfer_loop
    by_cases hflag : port.read_error_flag ≠ 0
    · rw [if_pos hflag]
      exact ⟨rfl, rfl⟩
    · rw [if_neg hflag]
      simp only []
      by_cases h0 : 0 = (libusb_cancel_transfer env tw transfer).1
      · rw [if_pos h0]
        simp only [usbserial_common_default_read_transfer_callback]
        exact ⟨rfl, rfl⟩
      · rw [if_neg h0]
        by_cases hnf : LIBUSB_ERROR_NOT_FOUND = (libusb_cancel_transfer env tw transfer).1
        · rw [if_pos hnf]
          obtain ⟨hp, hl⟩ := ih port (libusb_cancel_transfer env tw transfer).2 transfer
            (libusb_cancel_transfer env tw transfer).1
          exact ⟨hp, by rw [hl]; rfl⟩
        · rw [if_neg hnf]
          exact ⟨rfl, rfl⟩

theorem ftdi_start_reader_preserves (env : reader_env) (port : usbserial_port)
    (tw : transfer_world) :
    (ftdi_start_reader env port tw).2.1.read_error_flag = port.read_error_flag
      ∧ (transfers_consistent port tw →
        transfers_consistent (ftdi_start_reader env port tw).2.1
          (ftdi_start_reader env port tw).2.2) := by
  unfold ftdi_start_reader
  cases hd : port.driver_specific_data with
  | none => exact ⟨rfl, id⟩
  | some d =>
    cases d with
    | silabs pd => exact ⟨rfl, id⟩
    | cdc pd => exact ⟨rfl, id⟩
    | ftdi pd =>
      simp only []
      by_cases ht : pd.transfer.isSome = true
      · rw [if_pos ht]
        exact ⟨rfl, id⟩
      · rw [if_neg ht]
        have hnone : pd.transfer = none := by
          cases h : pd.transfer with
          | none => rfl
          | some t => rw [h] at ht; exact absurd rfl ht
        have hpt : port_transfer port = none := by
          simp [port_transfer, hd, driver_data.transfer, hnone]
        rcases start_reader_submit_live env tw (0x81 + 2 * port.port_idx) with
          ⟨h1, h2⟩ | ⟨t, h1, h2⟩
        · rw [h1]
          refine ⟨rfl, ?_⟩
          intro hc
          unfold transfers_consistent at hc ⊢
          simp only []
          rw [h2, hc]
        · rw [h1]
          refine ⟨rfl, ?_⟩
          intro hc
          unfold transfers_consistent at hc ⊢
          simp only []
          rw [h2, hc, hpt]
          simp [port_transfer, driver_data.transfer]

theorem silabs_start_reader_preserves (env : reader_env) (port : usbserial_port)
    (tw : transfer_world) :
    (silabs_start_reader env port tw).2.1.read_error_flag = port.read_error_flag
      ∧ (transfers_consistent port tw →
        transfers_consistent (silabs_start_reader env port tw).2.1
          (silabs_start_reader env port tw).2.2) := by
  unfold silabs_start_reader
  cases hd : port.driver_specific_data with
  | none => exact ⟨rfl, id⟩
  | some d =>
    cases d with
    | ftdi pd => exact ⟨rfl, id⟩
    | cdc pd => exact ⟨rfl, id⟩
    | silabs pd =>
      simp only []
      by_cases ht : pd.transfer.isSome = true
      · rw [if_pos ht]
        exact ⟨rfl, id⟩
      · rw [if_neg ht]
        have hnone : pd.transfer = none := by
          cases h : pd.transfer with
          | none => rfl
          | some t => rw [h] at ht; exact absurd rfl ht
        have hpt : port_transfer port = none := by
          simp [port_transfer, hd, driver_data.transfer, hnone]
        rcases start_reader_submit_live env tw (0x81 + port.port_idx) with
          ⟨h1, h2⟩ | ⟨t, h1, h2⟩
        · rw [h1]
          refine ⟨rfl, ?_⟩
          intro hc
          unfold transfers_consistent at hc ⊢
          simp only []
          rw [h2, hc]
        · rw [h1]
          refine ⟨rfl, ?_⟩
          intro hc
          unfold transfers_consistent at hc ⊢
          simp only []
          rw [h2, hc, hpt]
          simp [port_transfer, driver_data.transfer]

theorem cdc_start_reader_preserves (env : reader_env) (port : usbserial_port)
    (tw : transfer_world) :
    (cdc_start_reader env port tw).2.1.read_error_flag = port.read_error_flag
      ∧ (transfers_consistent port tw →
        transfers_consistent (cdc_start_reader env port tw).2.1
          (cdc_start_reader env port tw).2.2) := by
  unfold cdc_start_reader
  cases hd : port.driver_specific_data with
  | none => exact ⟨rfl, id⟩
  | some d =>
    cases d with
    | ftdi pd => exact ⟨rfl, id⟩
    | silabs pd => exact ⟨rfl, id⟩
    | cdc pd =>
      simp only []
      by_cases ht : pd.transfer.isSome = true
      · rw [if_pos ht]
        exact ⟨rfl, id⟩
      · rw [if_neg ht]
        have hnone : pd.transfer = none := by
          cases h : pd.transfer with
          | none => rfl
          | some t => rw [h] at ht; exact absurd rfl ht
        have hpt : port_transfer port = none := by
          simp [port_transfer, hd, driver_data.transfer, hnone]
        rcases start_reader_submit_live env tw pd.read_ep with
          ⟨h1, h2⟩ | ⟨t, h1, h2⟩
        · rw [h1]
          refine ⟨rfl, ?_⟩
          intro hc
          unfold transfers_consistent at hc ⊢
          simp only []
          rw [h2, hc]
        · rw [h1]
          refine ⟨rfl, ?_⟩
          intro hc
          unfold transfers_consistent at hc ⊢
          simp only []
          rw [h2, hc, hpt]
          simp [port_transfer, driver_data.transfer]


theorem stop_reader_cancel_and_free_spec (env : reader_env) (fuel : Nat)
    (port : usbserial_port) (tw : transfer_world) (t : Nat) :
    (∃ e tw', stop_reader_cancel_and_free env fuel port tw t = (.error e, port, tw')
        ∧ tw'.live = tw.live)
      ∨ (∃ ret tw', stop_reader_cancel_and_free env fuel port tw t = (.ok ret, port, tw')
        ∧ tw'.live = tw.live.erase t) := by
  obtain ⟨hp, hl⟩ := cancel_loop_preserves env fuel port tw t 0
  unfold stop_reader_cancel_and_free usbserial_common_cancel_read_transfer_sync
  simp only []
  obtain ⟨r1, r2, r3, hr⟩ : ∃ r1 r2 r3, cancel_read_transfer_loop env fuel port tw t 0
      = (r1, r2, r3) := ⟨_, _, _, rfl⟩
  rw [hr] at hp hl ⊢
  simp only [] at hp hl ⊢
  cases r1 with
  | error e => exact Or.inl ⟨e, _, by rw [hp], hl⟩
  | ok ret =>
    refine Or.inr ⟨ret, _, by rw [hp], ?_⟩
    simp only [libusb_free_transfer, hl]

theorem ftdi_stop_reader_preserves (env : reader_env) (fuel : Nat) (port : usbserial_port)
    (tw : transfer_world) :
    (ftdi_stop_reader env fuel port tw).2.1.read_error_flag = port.read_error_flag
      ∧ (transfers_consistent port tw →
        transfers_consistent (ftdi_stop_reader env fuel port tw).2.1
          (ftdi_stop_reader env fuel port tw).2.2) := by
  unfold ftdi_stop_reader
  cases hd : port.driver_specific_data with
  | none => exact ⟨rfl, id⟩
  | some d =>
    cases d with
    | silabs pd => exact ⟨rfl, id⟩
    | cdc pd => exact ⟨rfl, id⟩
    | ftdi pd =>
      simp only []
      cases ht : pd.transfer with
      | none => exact ⟨rfl, id⟩
      | some t =>
        simp only []
        have hpt : port_transfer port = some t := by
          simp [port_transfer, hd, driver_data.transfer, ht]
        rcases stop_reader_cancel_and_free_spec env fuel port tw t with
          ⟨e, tw', h1, h2⟩ | ⟨ret, tw', h1, h2⟩
        · rw [h1]
          refine ⟨rfl, ?_⟩
          intro hc
          unfold transfers_consistent at hc ⊢
          simp only []
          rw [h2, hc]
        · rw [h1]
          refine ⟨rfl, ?_⟩
          intro hc
          unfold transfers_consistent at hc ⊢
          simp only []
          rw [h2, hc, hpt]
          simp [port_transfer, hd, driver_data.clear_transfer, driver_data.transfer]

theorem silabs_stop_reader_preserves (env : reader_env) (fuel : Nat) (port : usbserial_port)
    (tw : transfer_world) :
    (silabs_stop_reader env fuel port tw).2.1.read_error_flag = port.read_error_flag
      ∧ (transfers_consistent port tw →
        transfers_consistent (silabs_stop_reader env fuel port tw).2.1
          (silabs_stop_reader env fuel port tw).2.2) := by
  unfold silabs_stop_reader
  cases hd : port.driver_specific_data with
  | none => exact ⟨rfl, id⟩
  | some d =>
    cases d with
    | ftdi pd => exact ⟨rfl, id⟩
    | cdc pd => exact ⟨rfl, id⟩
    | silabs pd =>
      simp only []
      cases ht : pd.transfer with
      | none => exact ⟨rfl, id⟩
      | some t =>
        simp only []
        have hpt : port_transfer port = some t := by
          simp [port_transfer, hd, driver_data.transfer, ht]
        rcases stop_reader_cancel_and_free_spec env fuel port tw t with
          ⟨e, tw', h1, h2⟩ | ⟨ret, tw', h1, h2⟩
        · rw [h1]
          refine ⟨rfl, ?_⟩
          intro hc
          unfold transfers_consistent at hc ⊢
          simp only []
          rw [h2, hc]
        · rw [h1]
          refine ⟨rfl, ?_⟩
          intro hc
          unfold transfers_consistent at hc ⊢
          simp only []
          rw [h2, hc, hpt]
          simp [port_transfer, hd, driver_data.clear_transfer, driver_data.transfer]

theorem cdc_stop_reader_preserves (env : reader_env) (fuel : Nat) (port : usbserial_port)
    (tw : transfer_world) :
    (cdc_stop_reader env fuel port tw).2.1.read_error_flag = port.read_error_flag
      ∧ (transfers_consistent port tw →
        transfers_consistent (cdc_stop_reader env fuel port tw).2.1
          (cdc_stop_reader env fuel port tw).2.2) := by
  unfold cdc_stop_reader
  cases hd : port.driver_specific_data with
  | none => exact ⟨rfl, id⟩
  | some d =>
    cases d with
    | ftdi pd => exact ⟨rfl, id⟩
    | silabs pd => exact ⟨rfl, id⟩
    | cdc pd =>
      simp only []
      cases ht : pd.transfer with
      | none => exact ⟨rfl, id⟩
      | some t =>
        simp only []
        have hpt : port_transfer port = some t := by
          simp [port_transfer, hd, driver_data.transfer, ht]
        rcases stop_reader_cancel_and_free_spec env fuel port tw t with
          ⟨e, tw', h1, h2⟩ | ⟨ret, tw', h1, h2⟩
        · rw [h1]
          refine ⟨rfl, ?_⟩
          intro hc
          unfold transfers_consistent at hc ⊢
          simp only []
          rw [h2, hc]
        · rw [h1]
          refine ⟨rfl, ?_⟩
          intro hc
          unfold transfers_consistent at hc ⊢
          simp only []
          rw [h2, hc, hpt]
          simp [port_transfer, hd, driver_data.clear_transfer, driver_data.transfer]

theorem start_reader_preserves (env : reader_env) (port : usbserial_port)
    (tw : transfer_world) :
    (usbserial_start_reader env port tw).2.1.read_error_flag = port.read_error_flag
      ∧ (transfers_consistent port tw →
        transfers_consistent (usbserial_start_reader env port tw).2.1
          (usbserial_start_reader env port tw).2.2) := by
  unfold usbserial_start_reader
  by_cases hcb : (!port.read_cb) = true
  · rw [if_pos hcb]
    exact ⟨rfl, id⟩
  · rw [if_neg hcb]
    cases hk : port_driver_kind port with
    | none => exact ⟨rfl, id⟩
    | some kind =>
      cases kind with
      | ftdi => exact ftdi_start_reader_preserves env port tw
      | silabs => exact silabs_start_reader_preserves env port tw
      | cdc => exact cdc_start_reader_preserves env port tw

theorem stop_reader_preserves (env : reader_env) (fuel : Nat) (port : usbserial_port)
    (tw : transfer_world) :
    (usbserial_stop_reader env fuel port tw).2.1.read_error_flag = port.read_error_flag
      ∧ (transfers_consistent port tw →
        transfers_consistent (usbserial_stop_reader env fuel port tw).2.1
          (usbserial_stop_reader env fuel port tw).2.2) := by
  unfold usbserial_stop_reader
  cases hk : port_driver_kind port with
  | none => exact ⟨rfl, id⟩
  | some kind =>
    cases kind with
    | ftdi => exact ftdi_stop_reader_preserves env fuel port tw
    | silabs => exact silabs_stop_reader_preserves env fuel port tw
    | cdc => exact cdc_stop_reader_preserves env fuel port tw

theorem read_transfer_callback_data_preserves (env : reader_env) (port : usbserial_port)
    (tw : transfer_world) (transfer : Nat) (actual_length : Int) (buffer : List Nat)
    (r : usbserial_port × transfer_world)
    (h : read_transfer_callback_data env port tw transfer actual_length buffer = .ok r) :
    r.1 = port ∧ r.2.live = tw.live := by
  unfold read_transfer_callback_data at h
  simp only [] at h
  split at h
  · cases h
  · split at h
    · cases h
    · rename_i b c tw1 hproc
      have htw1 : tw1.live = tw.live := by
        split_ifs at hproc
        · split at hproc
          · cases hproc; rfl
          · split at hproc
            · cases hproc
            · cases hproc; rfl
        · cases hproc; rfl
      split at h
      · cases h
      · rename_i tw2 hdel
        have htw2 : tw2.live = tw1.live := by
          split_ifs at hdel
          · cases hdel; rfl
          · cases hdel; rfl
        cases h
        exact ⟨rfl, by simp only [libusb_submit_transfer]; rw [htw2, htw1]⟩

theorem read_callback_preserves (env : reader_env) (port : usbserial_port)
    (tw : transfer_world) (transfer : Nat) (status : libusb_transfer_status)
    (actual_length : Int) (buffer : List Nat) (r : usbserial_port × transfer_world)
    (h : usbserial_common_default_read_transfer_callback env port tw transfer status
      actual_length buffer = .ok r) :
    (port.read_error_flag = 1 → r.1.read_error_flag = 1)
      ∧ port_transfer r.1 = port_transfer port ∧ r.2.live = tw.live := by
  unfold usbserial_common_default_read_transfer_callback at h
  split_ifs at h with h1 h2 h3
  · obtain ⟨hp, hl⟩ :=
      read_transfer_callback_data_preserves env port tw transfer actual_length buffer r h
    rw [hp]; exact ⟨id, rfl, hl⟩
  · cases h; exact ⟨id, rfl, rfl⟩
  · cases h; exact ⟨fun _ => rfl, rfl, rfl⟩
  · cases h; exact ⟨fun _ => rfl, rfl, rfl⟩

theorem deliver_completion_preserves (env : reader_env) (port : usbserial_port)
    (tw : transfer_world) (transfer : Nat) (status : libusb_transfer_status)
    (actual_length : Int) (buffer : List Nat) (r : usbserial_port × transfer_world)
    (h : deliver_completion env port tw transfer status actual_length buffer = .ok r) :
    (port.read_error_flag = 1 → r.1.read_error_flag = 1)
      ∧ port_transfer r.1 = port_transfer port ∧ r.2.live = tw.live := by
  unfold deliver_completion at h
  split_ifs at h
  · exact read_callback_preserves env port
      { tw with in_flight := tw.in_flight.erase transfer } transfer status actual_length
      buffer r h
  · cases h; exact ⟨id, rfl, rfl⟩

theorem port_step_preserves (env : port_env) (m : port_machine) (op : port_op) :
    (m.port.read_error_flag = 1 → (port_step env m op).2.port.read_error_flag = 1)
      ∧ (transfers_consistent m.port m.transfers →
        transfers_consistent (port_step env m op).2.port (port_step env m op).2.transfers) := by
  cases op with
  | start_reader =>
    obtain ⟨h1, h2⟩ := start_reader_preserves env.reader m.port m.transfers
    exact ⟨fun h => by simp only [port_step]; rw [h1]; exact h, h2⟩
  | stop_reader =>
    obtain ⟨h1, h2⟩ := stop_reader_preserves env.reader env.fuel m.port m.transfers
    exact ⟨fun h => by simp only [port_step]; rw [h1]; exact h, h2⟩
  | write data bytes_count => exact ⟨id, id⟩
  | purge purge_rx purge_tx => exact ⟨id, id⟩
  | set_baud_rate baud =>
    simp only [port_step]
    cases port_driver_kind m.port with
    | none => exact ⟨id, id⟩
    | some kind => exact ⟨id, id⟩
  | completion transfer status actual_length buffer =>
    simp only [port_step]
    cases hd : deliver_completion env.reader m.port m.transfers transfer status actual_length
        buffer with
    | error e => exact ⟨id, id⟩
    | ok r =>
      obtain ⟨h1, h2, h3⟩ := deliver_completion_preserves env.reader m.port m.transfers
        transfer status actual_length buffer r hd
      refine ⟨h1, ?_⟩
      intro hc
      unfold transfers_consistent at hc ⊢
      simp only []
      rw [h2, h3, hc]

theorem port_run_preserves (env : port_env) (ops : List port_op) :
    ∀ m : port_machine,
      (m.port.read_error_flag = 1 → (port_run env m ops).2.port.read_error_flag = 1)
        ∧ (transfers_consistent m.port m.transfers →
          transfers_consistent (port_run env m ops).2.port
            (port_run env m ops).2.transfers) := by
  induction ops with
  | nil => intro m; exact ⟨id, id⟩
  | cons op ops ih =>
    intro m
    obtain ⟨h1, h2⟩ := port_step_preserves env m op
    have hrun : (port_run env m (op :: ops)).2 = (port_step env m op).2
        ∨ (port_run env m (op :: ops)).2 = (port_run env (port_step env m op).2 ops).2 := by
      rw [port_run]
      rcases hps : port_step env m op with ⟨r, m'⟩
      cases r with
      | error e => exact Or.inl rfl
      | ok code => exact Or.inr rfl
    rcases hrun with hrun | hrun
    · rw [hrun]; exact ⟨h1, h2⟩
    · rw [hrun]
      obtain ⟨i1, i2⟩ := ih (port_step env m op).2
      exact ⟨fun h => i1 (h1 h), fun h => i2 (h2 h)⟩

theorem outstanding_of_consistent (m : port_machine)
    (h : transfers_consistent m.port m.transfers) : outstanding_transfers m ≤ 1 := by
  unfold transfers_consistent at h
  unfold outstanding_transfers
  refine le_trans (List.length_filter_le _ _) ?_
  rw [h]
  cases port_transfer m.port <;> simp

theorem driver_port_init_flag (kind : driver_kind) (env : usb_env) (w : usb_world)
    (port : usbserial_port) :
    (driver_port_init kind env w port).2.1.read_error_flag = port.read_error_flag := by
  cases kind with
  | ftdi =>
    simp only [driver_port_init, ftdi_port_init]
    split
    · rfl
    · split_ifs <;> rfl
  | silabs =>
    simp only [driver_port_init, silabs_port_init]
    split_ifs <;> rfl
  | cdc =>
    simp only [driver_port_init, cdc_port_init, cdc_port_init_alloc,
      cdc_release_if_and_return]
    split_ifs <;> rfl

theorem port_init_fail_ret (w : usb_world) (ret : Int) (a b c : Bool)
    (out_port : Option (Option usbserial_port)) :
    (usbserial_port_init_fail w ret a b c out_port).ret ≠ .ok 0
      ∧ (usbserial_port_init_fail w ret a b c out_port).ret ≠ .error .no_return_value := by
  unfold usbserial_port_init_fail
  split_ifs with h1 <;> simp [h1]

theorem port_init_driver_flag (env : usb_env) (w : usb_world) (driver : Nat)
    (kind : driver_kind) (port_idx baud : Nat) (read_cb read_error_cb : Bool)
    (h : (usbserial_port_init_driver env w driver kind port_idx baud read_cb
        read_error_cb).ret = .ok 0
      ∨ (usbserial_port_init_driver env w driver kind port_idx baud read_cb
        read_error_cb).ret = .error .no_return_value) :
    ∃ p, (usbserial_port_init_driver env w driver kind port_idx baud read_cb
        read_error_cb).out_port = some (some p) ∧ p.read_error_flag = 0 := by
  unfold usbserial_port_init_driver at h ⊢
  simp only [] at h ⊢
  split_ifs at h ⊢ with h1 h2
  · rcases h with h | h
    · exact absurd h (port_init_fail_ret _ _ _ _ _ _).1
    · exact absurd h (port_init_fail_ret _ _ _ _ _ _).2
  · rcases h with h | h
    · exact absurd h (port_init_fail_ret _ _ _ _ _ _).1
    · exact absurd h (port_init_fail_ret _ _ _ _ _ _).2
  · split
    · exact ⟨_, rfl, by rw [driver_port_init_flag]⟩
    · rename_i ret hb
      rw [hb] at h
      simp only [] at h
      split_ifs at h ⊢
      · rcases h with h | h
        · exact absurd h (port_init_fail_ret _ _ _ _ _ _).1
        · exact absurd h (port_init_fail_ret _ _ _ _ _ _).2
      · exact ⟨_, rfl, by rw [driver_port_init_flag]⟩

theorem find_driver_scan_error (registry : List usbserial_driver)
    (check : usbserial_driver → Option Int) (e : stuck) :
    ∀ remaining i, find_driver_scan registry check remaining i = .error e →
      e = .out_of_bounds := by
  intro remaining
  induction remaining with
  | zero => intro i h; simp [find_driver_scan] at h
  | succ n ih =>
    intro i h
    rw [find_driver_scan] at h
    split at h
    · cases h; rfl
    · split at h
      · split_ifs at h
        exact ih _ h
      · exact ih _ h

theorem find_driver_error (vendor_id product_id device_class device_subclass : Nat)
    (e : stuck)
    (h : find_driver_for_usb_device vendor_id product_id device_class device_subclass
      = .error e) : e = .out_of_bounds := by
  unfold find_driver_for_usb_device at h
  split at h
  · rename_i e' he
    cases h
    exact find_driver_scan_error _ _ _ _ _ he
  · cases h
  · exact find_driver_scan_error _ _ _ _ _ h

theorem port_init_flag (env : usb_env) (w : usb_world)
    (out_port : Option (Option usbserial_port)) (usb_device_handle : Bool)
    (port_idx baud : Nat) (read_cb read_error_cb : Bool)
    (h : (usbserial_port_init env w out_port usb_device_handle port_idx baud read_cb
        read_error_cb).ret = .ok 0
      ∨ (usbserial_port_init env w out_port usb_device_handle port_idx baud read_cb
        read_error_cb).ret = .error .no_return_value) :
    ∃ p, (usbserial_port_init env w out_port usb_device_handle port_idx baud read_cb
        read_error_cb).out_port = some (some p) ∧ p.read_error_flag = 0 := by
  unfold usbserial_port_init at h ⊢
  split_ifs at h ⊢ with h1 h2 h3
  · rcases h with h | h
    · simp [USBSERIAL_ERROR_INVALID_PARAMETER, DEFINE_USBSERIAL_ERROR] at h
    · simp at h
  · rcases h with h | h
    · simp [USBSERIAL_ERROR_NO_SUCH_DEVICE, DEFINE_USBSERIAL_ERROR] at h
    · simp at h
  · rcases h with h | h
    · exact absurd h (port_init_fail_ret _ _ _ _ _ _).1
    · exact absurd h (port_init_fail_ret _ _ _ _ _ _).2
  · split
    · rename_i e he
      rw [he] at h
      simp only [] at h
      have he' : e = .out_of_bounds := find_driver_error _ _ _ _ e he
      subst he'
      rcases h with h | h <;> simp at h
    · rename_i he
      rw [he] at h
      simp only [] at h
      rcases h with h | h
      · exact absurd h (port_init_fail_ret _ _ _ _ _ _).1
      · exact absurd h (port_init_fail_ret _ _ _ _ _ _).2
    · rename_i driver he
      rw [he] at h
      simp only [] at h
      split
      · rename_i hd
        rw [hd] at h
        rcases h with h | h <;> simp at h
      · rename_i d hd
        rw [hd] at h
        simp only [] at h
        unfold usbserial_port_init_alloc at h ⊢
        simp only [] at h ⊢
        split_ifs at h ⊢
        · rcases h with h | h
          · exact absurd h (port_init_fail_ret _ _ _ _ _ _).1
          · exact absurd h (port_init_fail_ret _ _ _ _ _ _).2
        · rcases h with h | h
          · exact absurd h (port_init_fail_ret _ _ _ _ _ _).1
          · exact absurd h (port_init_fail_ret _ _ _ _ _ _).2
        · rcases h with h | h
          · exact absurd h (port_init_fail_ret _ _ _ _ _ _).1
          · exact absurd h (port_init_fail_ret _ _ _ _ _ _).2
        · rcases h with h | h
          · exact absurd h (port_init_fail_ret _ _ _ _ _ _).1
          · exact absurd h (port_init_fail_ret _ _ _ _ _ _).2
        · exact port_init_driver_flag env _ _ _ port_idx baud read_cb read_error_cb h

theorem start_reader_illegal_state (env : reader_env) (port : usbserial_port)
    (tw : transfer_world) (d : driver_data) (t : Nat)
    (hkind : port_driver_kind port = some d.kind)
    (hdata : port.driver_specific_data = some d) (ht : d.transfer = some t) :
    usbserial_start_reader env port tw = (.ok USBSERIAL_ERROR_ILLEGAL_STATE, port, tw) := by
  unfold usbserial_start_reader
  split_ifs
  · rfl
  · rw [hkind]
    cases d with
    | ftdi pd =>
      simp only [driver_data.transfer] at ht
      simp [driver_data.kind, ftdi_start_reader, hdata, ht]
    | silabs pd =>
      simp only [driver_data.transfer] at ht
      simp [driver_data.kind, silabs_start_reader, hdata, ht]
    | cdc pd =>
      simp only [driver_data.transfer] at ht
      simp [driver_data.kind, cdc_start_reader, hdata, ht]

/-- C14: the read-error flag is sticky.  When usbserial_port_init succeeds (it returns 0,
or, for an FTDI device, runs off the end of ftdi_port_set_line_config after both control
transfers succeeded), the port it stores in out_port has the flag 0.  And on an existing
port whose flag is 1, every single operation (start_reader, stop_reader, write, purge, line
configuration, a read completion of any transfer with any status) and every sequence of
operations leaves the flag 1. -/
theorem read_error_flag_sticky (uenv : usb_env) (w : usb_world)
    (out_port : Option (Option usbserial_port)) (usb_device_handle : Bool)
    (port_idx baud : Nat) (read_cb read_error_cb : Bool) (env : port_env)
    (m : port_machine) :
    (((usbserial_port_init uenv w out_port usb_device_handle port_idx baud read_cb
          read_error_cb).ret = .ok 0
        ∨ (usbserial_port_init uenv w out_port usb_device_handle port_idx baud read_cb
          read_error_cb).ret = .error .no_return_value) →
      ∃ p, (usbserial_port_init uenv w out_port usb_device_handle port_idx baud read_cb
          read_error_cb).out_port = some (some p) ∧ p.read_error_flag = 0)
      ∧ (m.port.read_error_flag = 1 →
        (∀ op, (port_step env m op).2.port.read_error_flag = 1)
          ∧ ∀ ops, (port_run env m ops).2.port.read_error_flag = 1) :=
  ⟨port_init_flag uenv w out_port usb_device_handle port_idx baud read_cb read_error_cb,
    fun h => ⟨fun op => (port_step_preserves env m op).1 h,
      fun ops => (port_run_preserves env ops m).1 h⟩⟩

/-- C14 at concrete inputs: the initialisation of a CP2102 with cooperative collaborators,
and port 0 of an FT232R with the flag set, stopped, restarted, completed, written to, purged
and stopped again. -/
theorem read_error_flag_sticky_witness :
    (∃ p, (usbserial_port_init (cooperative_env cp2102_descriptor) fresh_world (some none)
        true 0 9600 true true).out_port = some (some p) ∧ p.read_error_flag = 0)
      ∧ (port_run (cooperative_port_env ft232r_descriptor)
          { port := ft232r_port_after_error, transfers := transfers_after_error,
            usb := fresh_world, bulk := [] }
          [.stop_reader, .start_reader, .completion 1 .LIBUSB_TRANSFER_COMPLETED 2 [1, 96],
            .write (some [65]) 1, .purge 1 1, .stop_reader]).2.port.read_error_flag = 1 :=
  ⟨(read_error_flag_sticky (cooperative_env cp2102_descriptor) fresh_world (some none) true
      0 9600 true true (cooperative_port_env ft232r_descriptor)
      { port := ft232r_port_after_error, transfers := transfers_after_error,
        usb := fresh_world, bulk := [] }).1 (Or.inl rfl),
    ((read_error_flag_sticky (cooperative_env cp2102_descriptor) fresh_world (some none) true
      0 9600 true true (cooperative_port_env ft232r_descriptor)
      { port := ft232r_port_after_error, transfers := transfers_after_error,
        usb := fresh_world, bulk := [] }).2 rfl).2 _⟩

/-- C15: at most one outstanding read transfer per port.  In every state that any sequence
of operations (start_reader, stop_reader, read completions, and the others) reaches from a
freshly initialised port, the transfer objects libusb holds for the port are exactly the
one the port references, if any, so the read transfers that were submitted and are neither
terminally completed nor released number at most 1.  And start_reader on a port whose
active-transfer reference is set returns USBSERIAL_ERROR_ILLEGAL_STATE with the port and
the transfer world, its log of allocations and submissions included, unchanged. -/
theorem at_most_one_outstanding_read_transfer (env : port_env) (m : port_machine)
    (ops : List port_op) (port : usbserial_port) (tw : transfer_world) (d : driver_data)
    (t : Nat) (hfresh : freshly_initialised m)
    (hkind : port_driver_kind port = some d.kind)
    (hdata : port.driver_specific_data = some d) (ht : d.transfer = some t) :
    transfers_consistent (port_run env m ops).2.port (port_run env m ops).2.transfers
      ∧ outstanding_transfers (port_run env m ops).2 ≤ 1
      ∧ usbserial_start_reader env.reader port tw
        = (.ok USBSERIAL_ERROR_ILLEGAL_STATE, port, tw) := by
  have hc : transfers_consistent m.port m.transfers := by
    obtain ⟨_, h2, h3, _⟩ := hfresh
    unfold transfers_consistent
    rw [h2, h3]
    rfl
  have hrun := (port_run_preserves env ops m).2 hc
  exact ⟨hrun, outstanding_of_consistent _ hrun,
    start_reader_illegal_state env.reader port tw d t hkind hdata ht⟩

/-- C15 at concrete inputs: port 0 of an FT232R started twice, completed, stopped and
started again; and start_reader on the port that still references transfer 0. -/
theorem at_most_one_outstanding_read_transfer_witness :
    freshly_initialised ft232r_machine
      ∧ outstanding_transfers (port_run (cooperative_port_env ft232r_descriptor)
          ft232r_machine
          [.start_reader, .start_reader, .completion 0 .LIBUSB_TRANSFER_COMPLETED 2 [1, 96],
            .stop_reader, .start_reader]).2 ≤ 1
      ∧ usbserial_start_reader (cooperative_port_env ft232r_descriptor).reader
          ft232r_port_after_error transfers_after_error
        = (.ok USBSERIAL_ERROR_ILLEGAL_STATE, ft232r_port_after_error,
          transfers_after_error) :=
  ⟨⟨rfl, rfl, rfl, rfl⟩,
    (at_most_one_outstanding_read_transfer (cooperative_port_env ft232r_descriptor)
      ft232r_machine
      [.start_reader, .start_reader, .completion 0 .LIBUSB_TRANSFER_COMPLETED 2 [1, 96],
        .stop_reader, .start_reader]
      ft232r_port_after_error transfers_after_error (.ftdi ft232r_reading_data) 0
      ⟨rfl, rfl, rfl, rfl⟩ rfl rfl rfl).2⟩

/-- C21, evaluated: with baud 0 the first statement of convert_baudrate divides 24000000 by
0, for every device type and control index, so convert_baudrate, ftdi_port_set_line_config
on an initialised FT232R port and usbserial_port_init on an FT232R with cooperative
collaborators have no defined result; for every baud of at least 1 convert_baudrate does
return a result, but usbserial_port_init with the accepted baud 3000000 then runs off the
end of ftdi_port_set_line_config, which has no return statement on its success path. -/
theorem convert_baudrate_zero_divides_by_zero (device_type : ftdi_device_type)
    (control_idx baud : Nat) :
    convert_baudrate 0 device_type control_idx = .error .div_by_zero
      ∧ ftdi_port_set_line_config (cooperative_env ft232r_descriptor) fresh_world ft232r_port
          line_config_baud_zero = (.error .div_by_zero, fresh_world)
      ∧ (usbserial_port_init (cooperative_env ft232r_descriptor) fresh_world (some none) true 0
          0 true true).ret = .error .div_by_zero
      ∧ (∃ r, convert_baudrate (baud + 1) device_type control_idx = .ok r)
      ∧ (usbserial_port_init (cooperative_env ft232r_descriptor) fresh_world (some none) true 0
          3000000 true true).ret = .error .no_return_value :=
  ⟨rfl, rfl, rfl, ⟨_, convert_baudrate_of_pos (baud + 1) device_type control_idx (by omega)⟩,
    rfl⟩

/-- C22, evaluated at baud 2000000: the quotient 24000000 / baud is 12, a legal divisor,
which clamping into the legal set leaves at 12 and whose estimate is exactly 2000000; the
clamping of convert_baudrate, whose third test reads divisor where the first two read
try_divisor, turns both candidates 12 and 13 into 16, so the search returns divisor 16 with
best_baud 1500000, which is not the estimate of the closer candidate. -/
theorem convert_baudrate_replaces_legal_candidate_12 :
    24000000 / 2000000 = 12 ∧ legal_divisor 12 ∧ clamp_into_legal_set 12 = 12
      ∧ clamp_into_legal_set 13 = 16
      ∧ ftdi_baud_estimate 12 = 2000000 ∧ ftdi_baud_estimate 16 = 1500000
      ∧ ftdi_clamp_divisor 12 12 = 16 ∧ ftdi_clamp_divisor 12 13 = 16
      ∧ ftdi_search_loop 2000000 (24000000 / 2000000)
        = { best_divisor := 16, best_baudrate := 1500000, best_baud_diff := 500000 }
      ∧ convert_baudrate 2000000 .FTDI_DEVICE_TYPE_OTHER 0
        = .ok { best_baud := 1500000, index := 0, value := 2 } :=
  ⟨rfl, Or.inr (Or.inl rfl), rfl, rfl, rfl, rfl, rfl, rfl, rfl, rfl⟩

/-- C23, evaluated at n = 1: on a completion of 1 byte ftdi_read_data_postprocessor, for a
device with bMaxPacketSize0 8 and for one with 64, subtracts the 2 status bytes from the
unsigned count 1 and writes back 4294967295; the same happens for 3 bytes and
bMaxPacketSize0 2, where 4 is subtracted from 3.  The read-completion handler then hands
the read callback that count. -/
theorem ftdi_postprocessor_count_wraps_at_one :
    ftdi_read_data_postprocessor ft232r_port [7] 1 = .ok ([7], 4294967295)
      ∧ ftdi_read_data_postprocessor (port_with_packet_size 64) [7] 1 = .ok ([7], 4294967295)
      ∧ ftdi_read_data_postprocessor (port_with_packet_size 2) [1, 2, 3] 3
        = .ok ([1, 2, 3], 4294967295)
      ∧ (1 : Nat) < 4294967295
      ∧ (usbserial_common_default_read_transfer_callback
          (cooperative_port_env ft232r_descriptor).reader ft232r_port fresh_transfers 0
          .LIBUSB_TRANSFER_COMPLETED 1 [7]).map (fun r => r.2.events)
        = .ok [.read_data_postprocessor 1, .read_cb [7] 4294967295, .submit_transfer 0 0] :=
  ⟨rfl, rfl, rfl, by decide, rfl⟩

/-- C24, evaluated: the encoding does remap divisor 12 (raw encoding 0x4001) to 1, but for
baud 2000000 convert_baudrate never selects divisor 12: it returns best_baud 1500000 with
value 2 (divisor 16), and ftdi_port_set_line_config on an initialised FT232R port, like
usbserial_port_init on an FT232R, returns USBSERIAL_ERROR_UNSUPPORTED_BAUD_RATE without a
control transfer for the baud. -/
theorem convert_baudrate_2000000_rejected :
    ftdi_encode_divisor 12 = 1
      ∧ (12 >>> 3) ||| (frac_code.getD (12 &&& 7) 0 <<< 14) = 0x4001
      ∧ ftdi_baud_estimate 12 = 2000000
      ∧ (ftdi_search_loop 2000000 (24000000 / 2000000)).best_divisor = 16
      ∧ convert_baudrate 2000000 .FTDI_DEVICE_TYPE_OTHER 0
        = .ok { best_baud := 1500000, index := 0, value := 2 }
      ∧ ftdi_port_set_line_config (cooperative_env ft232r_descriptor) fresh_world ft232r_port
          (default_line_config 2000000) = (.ok USBSERIAL_ERROR_UNSUPPORTED_BAUD_RATE, fresh_world)
      ∧ (usbserial_port_init (cooperative_env ft232r_descriptor) fresh_world (some none) true 0
          2000000 true true).ret = .ok USBSERIAL_ERROR_UNSUPPORTED_BAUD_RATE :=
  ⟨rfl, rfl, rfl, rfl, rfl, rfl, rfl⟩

theorem ftdi_clamp_divisor_legal (divisor try_divisor : Nat) (h : divisor ≤ try_divisor) :
    legal_divisor (ftdi_clamp_divisor divisor try_divisor) := by
  unfold ftdi_clamp_divisor legal_divisor
  split_ifs <;> omega

theorem frac_code_lt : ∀ r, r < 8 → frac_code.getD r 0 < 8 := by decide

theorem frac_code_injective :
    ∀ r, r < 8 → ∀ s, s < 8 → frac_code.getD r 0 = frac_code.getD s 0 → r = s := by decide

theorem frac_code_zero : ∀ r, r < 8 → (frac_code.getD r 0 = 0 ↔ r = 0) := by decide

theorem frac_code_one : ∀ r, r < 8 → (frac_code.getD r 0 = 1 ↔ r = 4) := by decide

/-- The raw encoding of a divisor below 2^17 in arithmetic terms: the divisor without its
three low bits, plus 2^14 times the fractional code of those bits. -/
theorem ftdi_raw_encoding (d : Nat) (hd : d ≤ 0x1FFFF) :
    (d >>> 3) ||| (frac_code.getD (d &&& 7) 0 <<< 14)
      = 16384 * frac_code.getD (d % 8) 0 + d / 8 := by
  have hand : d &&& 7 = d % 8 := Nat.and_pow_two_sub_one_eq_mod d 3
  have hshift : d >>> 3 = d / 8 := Nat.shiftRight_eq_div_pow d 3
  rw [hand, hshift, Nat.shiftLeft_eq, Nat.or_comm, Nat.mul_comm]
  have hlt : d / 8 < 2 ^ 14 := by omega
  exact (Nat.mul_add_lt_is_or hlt _).symm

theorem ftdi_encode_divisor_lt (d : Nat) (hd : d ≤ 0x1FFFF) :
    ftdi_encode_divisor d < 2 ^ 17 := by
  unfold ftdi_encode_divisor
  simp only []
  rw [ftdi_raw_encoding d hd]
  have := frac_code_lt (d % 8) (Nat.mod_lt _ (by decide))
  split_ifs <;> omega

theorem ftdi_split_single_port (enc c : Nat) (henc : enc < 2 ^ 17) :
    (ftdi_split_divisor enc .FTDI_DEVICE_TYPE_OTHER c).1 = enc / 65536
      ∧ (ftdi_split_divisor enc .FTDI_DEVICE_TYPE_OTHER c).2 = enc % 65536 := by
  unfold ftdi_split_divisor
  have ht : ¬ (ftdi_device_type.FTDI_DEVICE_TYPE_OTHER = .FTDI_DEVICE_TYPE_2232
      ∨ ftdi_device_type.FTDI_DEVICE_TYPE_OTHER = .FTDI_DEVICE_TYPE_4232H) := by decide
  simp only [if_neg ht]
  have h1 : enc >>> 16 = enc / 65536 := Nat.shiftRight_eq_div_pow enc 16
  have h2 : ∀ x : Nat, x &&& 0xffff = x % 65536 := fun x =>
    Nat.and_pow_two_sub_one_eq_mod x 16
  have h2' : ∀ x : Nat, x &&& 0xFFFF = x % 65536 := h2
  rw [h1, h2, h2']
  constructor <;> omega

theorem ftdi_encode_divisor_cases (d : Nat) (hd : legal_divisor d) :
    (d = 8 ∧ ftdi_encode_divisor d = 0) ∨ (d = 12 ∧ ftdi_encode_divisor d = 1)
      ∨ (16 ≤ d ∧ d ≤ 0x1FFFF
        ∧ ftdi_encode_divisor d = 16384 * frac_code.getD (d % 8) 0 + d / 8
        ∧ ftdi_encode_divisor d
          = (d >>> 3) ||| (frac_code.getD (d &&& 7) 0 <<< 14)) := by
  unfold legal_divisor at hd
  rcases hd with h | h | h
  · subst h; exact Or.inl ⟨rfl, rfl⟩
  · subst h; exact Or.inr (Or.inl ⟨rfl, rfl⟩)
  · refine Or.inr (Or.inr ⟨h.1, h.2, ?_⟩)
    have hraw := ftdi_raw_encoding d h.2
    unfold ftdi_encode_divisor
    simp only []
    rw [hraw]
    have hne1 : ¬ (16384 * frac_code.getD (d % 8) 0 + d / 8 = 1) := by omega
    have hne2 : ¬ (16384 * frac_code.getD (d % 8) 0 + d / 8 = 0x4001) := by omega
    rw [if_neg hne1, if_neg hne2]
    exact ⟨rfl, rfl⟩

theorem ftdi_encode_divisor_injective (d1 d2 : Nat) (h1 : legal_divisor d1)
    (h2 : legal_divisor d2) (h : ftdi_encode_divisor d1 = ftdi_encode_divisor d2) :
    d1 = d2 := by
  have f1 := frac_code_lt (d1 % 8) (Nat.mod_lt _ (by decide))
  have f2 := frac_code_lt (d2 % 8) (Nat.mod_lt _ (by decide))
  have hinj := frac_code_injective (d1 % 8) (Nat.mod_lt _ (by decide)) (d2 % 8)
    (Nat.mod_lt _ (by decide))
  rcases ftdi_encode_divisor_cases d1 h1 with ⟨a, b⟩ | ⟨a, b⟩ | ⟨a1, a2, b, _⟩ <;>
    rcases ftdi_encode_divisor_cases d2 h2 with ⟨c, e⟩ | ⟨c, e⟩ | ⟨c1, c2, e, _⟩ <;>
    rw [b, e] at h
  · omega
  · omega
  · omega
  · omega
  · omega
  · omega
  · omega
  · omega
  · have hf : frac_code.getD (d1 % 8) 0 = frac_code.getD (d2 % 8) 0 := by omega
    have hr := hinj hf
    omega

/-- C29: on the legal divisors 8, 12 and 16..0x1FFFF the value and index words that
convert_baudrate derives for a single-port device determine the divisor: two legal divisors
with the same (index, value) pair are equal, whatever the control indices.  The table
frac_code is a permutation of 0..7, divisors 8 and 12 encode to 0 and 1 through the two
special cases, and every other legal divisor keeps its raw encoding, which is neither 0 nor
1. -/
theorem ftdi_divisor_encoding_injective (d1 d2 c1 c2 : Nat) (h1 : legal_divisor d1)
    (h2 : legal_divisor d2) :
    (ftdi_split_divisor (ftdi_encode_divisor d1) .FTDI_DEVICE_TYPE_OTHER c1
          = ftdi_split_divisor (ftdi_encode_divisor d2) .FTDI_DEVICE_TYPE_OTHER c2 →
        d1 = d2)
      ∧ frac_code.Perm [0, 1, 2, 3, 4, 5, 6, 7]
      ∧ ftdi_encode_divisor 8 = 0 ∧ ftdi_encode_divisor 12 = 1
      ∧ (d1 ≠ 8 → d1 ≠ 12 →
        ftdi_encode_divisor d1 = (d1 >>> 3) ||| (frac_code.getD (d1 &&& 7) 0 <<< 14)
          ∧ ftdi_encode_divisor d1 ≠ 0 ∧ ftdi_encode_divisor d1 ≠ 1) := by
  refine ⟨?_, by decide, rfl, rfl, ?_⟩
  · intro h
    have e1 : ftdi_encode_divisor d1 < 2 ^ 17 :=
      ftdi_encode_divisor_lt d1 (by unfold legal_divisor at h1; omega)
    have e2 : ftdi_encode_divisor d2 < 2 ^ 17 :=
      ftdi_encode_divisor_lt d2 (by unfold legal_divisor at h2; omega)
    obtain ⟨i1, v1⟩ := ftdi_split_single_port (ftdi_encode_divisor d1) c1 e1
    obtain ⟨i2, v2⟩ := ftdi_split_single_port (ftdi_encode_divisor d2) c2 e2
    have hi : (ftdi_split_divisor (ftdi_encode_divisor d1) .FTDI_DEVICE_TYPE_OTHER c1).1
        = (ftdi_split_divisor (ftdi_encode_divisor d2) .FTDI_DEVICE_TYPE_OTHER c2).1 := by
      rw [h]
    have hv : (ftdi_split_divisor (ftdi_encode_divisor d1) .FTDI_DEVICE_TYPE_OTHER c1).2
        = (ftdi_split_divisor (ftdi_encode_divisor d2) .FTDI_DEVICE_TYPE_OTHER c2).2 := by
      rw [h]
    rw [i1, i2] at hi
    rw [v1, v2] at hv
    exact ftdi_encode_divisor_injective d1 d2 h1 h2 (by omega)
  · intro h8 h12
    have f1 := frac_code_lt (d1 % 8) (Nat.mod_lt _ (by decide))
    rcases ftdi_encode_divisor_cases d1 h1 with ⟨a, _⟩ | ⟨a, _⟩ | ⟨a1, a2, b, braw⟩
    · exact absurd a h8
    · exact absurd a h12
    · refine ⟨braw, ?_, ?_⟩ <;> omega

/-- C29 at the divisor 24 with two control indices: raw encoding 3, value 3, index 0. -/
theorem ftdi_divisor_encoding_injective_witness :
    (ftdi_split_divisor (ftdi_encode_divisor 24) .FTDI_DEVICE_TYPE_OTHER 0
          = ftdi_split_divisor (ftdi_encode_divisor 24) .FTDI_DEVICE_TYPE_OTHER 1 →
        24 = 24)
      ∧ frac_code.Perm [0, 1, 2, 3, 4, 5, 6, 7]
      ∧ ftdi_encode_divisor 8 = 0 ∧ ftdi_encode_divisor 12 = 1
      ∧ (24 ≠ 8 → 24 ≠ 12 →
        ftdi_encode_divisor 24 = (24 >>> 3) ||| (frac_code.getD (24 &&& 7) 0 <<< 14)
          ∧ ftdi_encode_divisor 24 ≠ 0 ∧ ftdi_encode_divisor 24 ≠ 1) :=
  ftdi_divisor_encoding_injective 24 24 0 1 (Or.inr (Or.inr (by decide)))
    (Or.inr (Or.inr (by decide)))

set_option maxRecDepth 100000 in
theorem ftdi_line_config_parity_bits_clear :
    ∀ data_bits, data_bits < 256 → ∀ stop_code, stop_code < 3 →
      ((data_bits % 2 ^ 16 ||| stop_code <<< 11) >>> 8) &&& 7 = 0 := by decide

/-- C26, as stated, fails: for baud 115200, which the exactness check rejects, on an
initialised FT232R port, an out-of-range parity and an out-of-range stop-bits value both
return USBSERIAL_ERROR_UNSUPPORTED_BAUD_RATE, not USBSERIAL_ERROR_INVALID_PARAMETER: the
baud check precedes both switches. -/
theorem invalid_parity_after_baud_check :
    ftdi_port_set_line_config (cooperative_env ft232r_descriptor) fresh_world ft232r_port
        { baud := 115200, data_bits := 8, parity := .invalid 5,
          stop_bits := .USBSERIAL_STOPBITS_1 }
        = (.ok USBSERIAL_ERROR_UNSUPPORTED_BAUD_RATE, fresh_world)
      ∧ ftdi_port_set_line_config (cooperative_env ft232r_descriptor) fresh_world ft232r_port
          { baud := 115200, data_bits := 8, parity := .USBSERIAL_PARITY_NONE,
            stop_bits := .invalid 3 }
        = (.ok USBSERIAL_ERROR_UNSUPPORTED_BAUD_RATE, fresh_world)
      ∧ USBSERIAL_ERROR_UNSUPPORTED_BAUD_RATE ≠ USBSERIAL_ERROR_INVALID_PARAMETER :=
  ⟨rfl, rfl, by decide⟩

/-- C26, amended: on an initialised FTDI port and for a baud that passes the exactness
check, all five parity settings contribute the value 0 to the line-config word; with valid stop bits
(code 0, 1 or 2) and any of the five parities the call is the same as with parity none, and
once the SET_BAUD_RATE request has succeeded the SET_LINE_CONFIG request carries the value
data_bits | (stop_code << 11), whose bits 8 to 10 are 0 for a data-bits count below 256;
stop bits or a parity outside the enum give USBSERIAL_ERROR_INVALID_PARAMETER with nothing
sent. -/
theorem ftdi_line_config_ignores_parity (env : usb_env) (w : usb_world)
    (port : usbserial_port) (port_data : ftdi_port_data) (line_config : usbserial_line_config)
    (c : ftdi_baud_data) (hinit : port.driver_specific_data = some (.ftdi port_data))
    (hconv : convert_baudrate line_config.baud port_data.device_type port_data.control_idx
      = .ok c)
    (hexact : c.best_baud = line_config.baud) :
    (ftdi_parity_value .USBSERIAL_PARITY_NONE = some 0
        ∧ ftdi_parity_value .USBSERIAL_PARITY_ODD = some 0
        ∧ ftdi_parity_value .USBSERIAL_PARITY_EVEN = some 0
        ∧ ftdi_parity_value .USBSERIAL_PARITY_MARK = some 0
        ∧ ftdi_parity_value .USBSERIAL_PARITY_SPACE = some 0)
      ∧ (ftdi_stop_bits_value .USBSERIAL_STOPBITS_1 = some (0 <<< 11)
        ∧ ftdi_stop_bits_value .USBSERIAL_STOPBITS_1_5 = some (1 <<< 11)
        ∧ ftdi_stop_bits_value .USBSERIAL_STOPBITS_2 = some (2 <<< 11))
      ∧ (∀ stop_code, ftdi_stop_bits_value line_config.stop_bits = some (stop_code <<< 11) →
          (∀ raw, line_config.parity ≠ .invalid raw) →
          ftdi_port_set_line_config env w port line_config
              = ftdi_port_set_line_config env w port
                  { line_config with parity := .USBSERIAL_PARITY_NONE }
            ∧ (env.control_transfer w.trace
                  { bmRequestType := FTDI_DEVICE_OUT_REQTYPE,
                    bRequest := FTDI_SIO_REQUEST_SET_BAUD_RATE, wValue := c.value,
                    wIndex := c.index, data := [], wLength := 0 } = 0 →
                ∃ ret, (ftdi_port_set_line_config env w port line_config).2.trace
                  = w.trace ++
                    [.control_transfer
                      { bmRequestType := FTDI_DEVICE_OUT_REQTYPE,
                        bRequest := FTDI_SIO_REQUEST_SET_BAUD_RATE, wValue := c.value,
                        wIndex := c.index, data := [], wLength := 0 } 0,
                     .control_transfer
                      { bmRequestType := FTDI_DEVICE_OUT_REQTYPE,
                        bRequest := FTDI_SIO_REQUEST_SET_LINE_CONFIG,
                        wValue := line_config.data_bits % 2 ^ 16 ||| stop_code <<< 11,
                        wIndex := port_data.control_idx, data := [], wLength := 0 } ret])
            ∧ (line_config.data_bits < 256 → stop_code < 3 →
                ((line_config.data_bits % 2 ^ 16 ||| stop_code <<< 11) >>> 8) &&& 7 = 0))
      ∧ ((∃ raw, line_config.stop_bits = .invalid raw)
          ∨ (∃ raw, line_config.parity = .invalid raw) →
        ftdi_port_set_line_config env w port line_config
          = (.ok USBSERIAL_ERROR_INVALID_PARAMETER, w)) := by
  have hne : ¬ (line_config.baud ≠ c.best_baud) := fun h => h hexact.symm
  refine ⟨⟨rfl, rfl, rfl, rfl, rfl⟩, ⟨rfl, rfl, rfl⟩, ?_, ?_⟩
  · intro stop_code hstop hpar
    have hpv : ftdi_parity_value line_config.parity = some 0 := by
      cases hp : line_config.parity with
      | invalid raw => exact absurd hp (hpar raw)
      | _ => rfl
    refine ⟨?_, ?_, fun h1 h2 => ftdi_line_config_parity_bits_clear _ h1 _ h2⟩
    · unfold ftdi_port_set_line_config
      simp only [hinit, hconv, hstop, hpv, if_neg hne]
      rfl
    · intro hret
      unfold ftdi_port_set_line_config
      simp only [hinit, hconv, hstop, hpv, if_neg hne, libusb_control_transfer, hret,
        Nat.or_zero]
      simp only [ne_eq, not_true_eq_false, if_false]
      split_ifs
      · exact ⟨_, by rw [List.append_assoc]; rfl⟩
      · exact ⟨_, by rw [List.append_assoc]; rfl⟩
  · intro hinv
    unfold ftdi_port_set_line_config
    simp only [hinit, hconv, if_neg hne]
    rcases hinv with ⟨raw, h⟩ | ⟨raw, h⟩
    · rw [h]; rfl
    · rw [h]
      cases line_config.stop_bits <;> rfl

/-- C26 at a concrete request: 3000000 baud, 8 data bits, odd parity, 2 stop bits on port 0
of an FT232R; the line-config word is 8 | (2 << 11) = 0x1008. -/
theorem ftdi_line_config_ignores_parity_witness :
    ftdi_port_set_line_config (cooperative_env ft232r_descriptor) fresh_world ft232r_port
        { baud := 3000000, data_bits := 8, parity := .USBSERIAL_PARITY_ODD,
          stop_bits := .USBSERIAL_STOPBITS_2 }
      = ftdi_port_set_line_config (cooperative_env ft232r_descriptor) fresh_world ft232r_port
        { baud := 3000000, data_bits := 8, parity := .USBSERIAL_PARITY_NONE,
          stop_bits := .USBSERIAL_STOPBITS_2 }
      ∧ (∃ ret, (ftdi_port_set_line_config (cooperative_env ft232r_descriptor) fresh_world
          ft232r_port
          { baud := 3000000, data_bits := 8, parity := .USBSERIAL_PARITY_ODD,
            stop_bits := .USBSERIAL_STOPBITS_2 }).2.trace
        = [] ++
          [.control_transfer
            { bmRequestType := FTDI_DEVICE_OUT_REQTYPE,
              bRequest := FTDI_SIO_REQUEST_SET_BAUD_RATE, wValue := 0, wIndex := 0,
              data := [], wLength := 0 } 0,
           .control_transfer
            { bmRequestType := FTDI_DEVICE_OUT_REQTYPE,
              bRequest := FTDI_SIO_REQUEST_SET_LINE_CONFIG,
              wValue := 8 % 2 ^ 16 ||| 2 <<< 11, wIndex := 0, data := [], wLength := 0 } ret])
      ∧ ((8 % 2 ^ 16 ||| 2 <<< 11) >>> 8) &&& 7 = 0 :=
  ⟨((ftdi_line_config_ignores_parity (cooperative_env ft232r_descriptor) fresh_world
      ft232r_port ft232r_port_data
      { baud := 3000000, data_bits := 8, parity := .USBSERIAL_PARITY_ODD,
        stop_bits := .USBSERIAL_STOPBITS_2 }
      { best_baud := 3000000, index := 0, value := 0 } rfl rfl rfl).2.2.1 2 rfl
      (fun raw h => by cases h)).1,
    ((ftdi_line_config_ignores_parity (cooperative_env ft232r_descriptor) fresh_world
      ft232r_port ft232r_port_data
      { baud := 3000000, data_bits := 8, parity := .USBSERIAL_PARITY_ODD,
        stop_bits := .USBSERIAL_STOPBITS_2 }
      { best_baud := 3000000, index := 0, value := 0 } rfl rfl rfl).2.2.1 2 rfl
      (fun raw h => by cases h)).2.1 rfl,
    ((ftdi_line_config_ignores_parity (cooperative_env ft232r_descriptor) fresh_world
      ft232r_port ft232r_port_data
      { baud := 3000000, data_bits := 8, parity := .USBSERIAL_PARITY_ODD,
        stop_bits := .USBSERIAL_STOPBITS_2 }
      { best_baud := 3000000, index := 0, value := 0 } rfl rfl rfl).2.2.1 2 rfl
      (fun raw h => by cases h)).2.2 (by decide) (by decide)⟩

theorem ftdi_baud_estimate_le (d : Nat) (hd : 8 ≤ d) : ftdi_baud_estimate d ≤ 3000000 := by
  unfold ftdi_baud_estimate
  have h : (24000000 + d / 2) / d < 3000001 := Nat.div_lt_of_lt_mul (by omega)
  omega

theorem ftdi_baud_diff_eq_zero (baud e : Nat) (hb : baud < 2 ^ 32) (he : e ≤ 3000000) :
    ftdi_baud_diff baud e = 0 ↔ e = baud := by
  unfold ftdi_baud_diff to_int32
  split_ifs <;> omega

theorem ftdi_baud_diff_pos (baud e : Nat) (hb : baud ≤ 3000000) (he : e ≤ 3000000)
    (hne : e ≠ baud) : 0 < ftdi_baud_diff baud e := by
  unfold ftdi_baud_diff to_int32
  split_ifs <;> omega

/-- The search returns the requested baud exactly when the estimate of one of the two
candidates, as convert_baudrate clamps them, is the requested baud. -/
theorem ftdi_search_loop_exact_iff (baud divisor : Nat) (hb : baud < 2 ^ 32) :
    (ftdi_search_loop baud divisor).best_baudrate = baud
      ↔ ftdi_baud_estimate (ftdi_clamp_divisor divisor divisor) = baud
        ∨ ftdi_baud_estimate (ftdi_clamp_divisor divisor (divisor + 1)) = baud := by
  have l0 := ftdi_clamp_divisor_legal divisor divisor (Nat.le_refl _)
  have l1 := ftdi_clamp_divisor_legal divisor (divisor + 1) (Nat.le_succ _)
  have e0 := ftdi_baud_estimate_le (ftdi_clamp_divisor divisor divisor)
    (by unfold legal_divisor at l0; omega)
  have e1 := ftdi_baud_estimate_le (ftdi_clamp_divisor divisor (divisor + 1))
    (by unfold legal_divisor at l1; omega)
  have k0 := ftdi_baud_diff_eq_zero baud _ hb e0
  have k1 := ftdi_baud_diff_eq_zero baud _ hb e1
  unfold ftdi_search_loop ftdi_search_body
  simp only [Nat.add_zero, true_or, if_true, decide_eq_true_eq]
  split_ifs with h0 h1
  · have := k0.mp h0
    simp only [this, true_or]
  · have hne : ftdi_baud_estimate (ftdi_clamp_divisor divisor divisor) ≠ baud :=
      fun h => h0 (k0.mpr h)
    simp only [hne, false_or]
  · have hne : ftdi_baud_estimate (ftdi_clamp_divisor divisor divisor) ≠ baud :=
      fun h => h0 (k0.mpr h)
    have hne1 : ftdi_baud_estimate (ftdi_clamp_divisor divisor (divisor + 1)) ≠ baud := by
      intro h
      apply h1
      right
      rw [k1.mpr h]
      exact ftdi_baud_diff_pos baud _ (by omega) e0 hne
    simp only [hne, hne1, or_self]

theorem ftdi_clamp_divisor_eq_clamp (divisor i : Nat) (hi : i ≤ 1) (h : divisor + i ≠ 12) :
    ftdi_clamp_divisor divisor (divisor + i) = clamp_into_legal_set (divisor + i) := by
  unfold ftdi_clamp_divisor clamp_into_legal_set
  split_ifs <;> omega

/-- The acceptance test of a baud in terms of the candidates clamped into the legal set, for
every quotient other than 12. -/
theorem ftdi_search_loop_exact_iff_clamped (baud : Nat) (h1 : 1 ≤ baud) (hb : baud < 2 ^ 32)
    (h12 : 24000000 / baud ≠ 12) :
    (ftdi_search_loop baud (24000000 / baud)).best_baudrate = baud
      ↔ ftdi_baud_estimate (clamp_into_legal_set (24000000 / baud)) = baud
        ∨ ftdi_baud_estimate (clamp_into_legal_set (24000000 / baud + 1)) = baud := by
  rw [ftdi_search_loop_exact_iff baud _ hb]
  have c0 := ftdi_clamp_divisor_eq_clamp (24000000 / baud) 0 (by omega) (by omega)
  rw [Nat.add_zero] at c0
  rw [c0]
  by_cases h11 : 24000000 / baud = 11
  · have hdm := Nat.div_add_mod 24000000 baud
    have hlt := Nat.mod_lt 24000000 (show baud > 0 by omega)
    rw [h11] at hdm ⊢
    have hbaud : 2000000 < baud := by omega
    have e12 : ftdi_baud_estimate 12 = 2000000 := rfl
    have e16 : ftdi_baud_estimate 16 = 1500000 := rfl
    have k1 : ftdi_clamp_divisor 11 (11 + 1) = 16 := rfl
    have k2 : clamp_into_legal_set (11 + 1) = 12 := rfl
    have k3 : clamp_into_legal_set 11 = 12 := rfl
    rw [k1, k2, k3, e12, e16]
    omega
  · rw [ftdi_clamp_divisor_eq_clamp (24000000 / baud) 1 (by omega) (by omega)]

/-- C27, as stated, fails: the second candidate for 115200 baud is divisor 209, and its
estimate (24000000 + 209 / 2) / 209 is 114833, not 114832. -/
theorem baud_115200_second_estimate_is_114833 :
    24000000 / 115200 = 208 ∧ ftdi_clamp_divisor 208 (208 + 1) = 209
      ∧ ftdi_baud_estimate 209 = 114833 ∧ ftdi_baud_estimate 209 ≠ 114832 :=
  ⟨rfl, rfl, rfl, by decide⟩

/-- C27, amended: convert_baudrate(115200) evaluates divisors 208 and 209 with estimates
115385 and 114833 and returns best_baud 115385, so ftdi_port_set_line_config and
usbserial_port_init on an FT232R return USBSERIAL_ERROR_UNSUPPORTED_BAUD_RATE; more
generally, for a baud of at least 1 whose quotient 24000000 / baud is not 12,
convert_baudrate returns the requested baud as best_baud if and only if one of the two
candidates, clamped into the legal set, has the estimate (24000000 + d/2)/d equal to the
baud, and whenever best_baud differs from the request ftdi_port_set_line_config on an
initialised FTDI port returns USBSERIAL_ERROR_UNSUPPORTED_BAUD_RATE with nothing sent. -/
theorem baud_accepted_iff_candidate_exact (env : usb_env) (w : usb_world)
    (port : usbserial_port) (port_data : ftdi_port_data) (line_config : usbserial_line_config)
    (hinit : port.driver_specific_data = some (.ftdi port_data))
    (h1 : 1 ≤ line_config.baud) (h32 : line_config.baud < 2 ^ 32)
    (h12 : 24000000 / line_config.baud ≠ 12) :
    (clamp_into_legal_set (24000000 / 115200) = 208
        ∧ clamp_into_legal_set (24000000 / 115200 + 1) = 209
        ∧ ftdi_clamp_divisor 208 208 = 208 ∧ ftdi_clamp_divisor 208 (208 + 1) = 209
        ∧ ftdi_baud_estimate 208 = 115385 ∧ ftdi_baud_estimate 209 = 114833
        ∧ convert_baudrate 115200 .FTDI_DEVICE_TYPE_OTHER 0
          = .ok { best_baud := 115385, index := 0, value := 26 }
        ∧ ftdi_port_set_line_config (cooperative_env ft232r_descriptor) fresh_world
            ft232r_port (default_line_config 115200)
          = (.ok USBSERIAL_ERROR_UNSUPPORTED_BAUD_RATE, fresh_world)
        ∧ (usbserial_port_init (cooperative_env ft232r_descriptor) fresh_world (some none)
            true 0 115200 true true).ret = .ok USBSERIAL_ERROR_UNSUPPORTED_BAUD_RATE)
      ∧ ∃ c, convert_baudrate line_config.baud port_data.device_type port_data.control_idx
          = .ok c
        ∧ (c.best_baud = line_config.baud
          ↔ ftdi_baud_estimate (clamp_into_legal_set (24000000 / line_config.baud))
              = line_config.baud
            ∨ ftdi_baud_estimate (clamp_into_legal_set (24000000 / line_config.baud + 1))
              = line_config.baud)
        ∧ (c.best_baud ≠ line_config.baud →
          ftdi_port_set_line_config env w port line_config
            = (.ok USBSERIAL_ERROR_UNSUPPORTED_BAUD_RATE, w)) := by
  refine ⟨⟨rfl, rfl, rfl, rfl, rfl, rfl, rfl, rfl, rfl⟩, ?_⟩
  have hconv := convert_baudrate_of_pos line_config.baud port_data.device_type
    port_data.control_idx h1
  refine ⟨_, hconv, ftdi_search_loop_exact_iff_clamped line_config.baud h1 h32 h12, ?_⟩
  intro hne
  unfold ftdi_port_set_line_config
  simp only [hinit, hconv]
  rw [if_pos (fun h => hne h.symm)]

/-- C27, amended, at 9600 baud on port 0 of an FT232R: the quotient is 2500, whose estimate
is exactly 9600. -/
theorem baud_accepted_iff_candidate_exact_witness :
    ∃ c, convert_baudrate 9600 .FTDI_DEVICE_TYPE_OTHER 0 = .ok c
      ∧ (c.best_baud = 9600
        ↔ ftdi_baud_estimate (clamp_into_legal_set (24000000 / 9600)) = 9600
          ∨ ftdi_baud_estimate (clamp_into_legal_set (24000000 / 9600 + 1)) = 9600)
      ∧ (c.best_baud ≠ 9600 →
        ftdi_port_set_line_config (cooperative_env ft232r_descriptor) fresh_world ft232r_port
            (default_line_config 9600)
          = (.ok USBSERIAL_ERROR_UNSUPPORTED_BAUD_RATE, fresh_world)) :=
  (baud_accepted_iff_candidate_exact (cooperative_env ft232r_descriptor) fresh_world
    ft232r_port ft232r_port_data (default_line_config 9600) rfl (by decide) (by decide)
    (by decide)).2

/-- Invariant of the loop of ftdi_read_data_postprocessor: skip_bytes_count stays between 2
and i, so every copy has its destination at or after the start of the buffer and before its
source, its source below the byte count, and sources are visited in increasing order. -/
theorem ftdi_strip_loop_copies (m n : Nat) (hm : 1 ≤ m) :
    ∀ fuel i skip data copies, n - i ≤ fuel → n ≤ data.length → 2 ≤ skip → skip ≤ i →
      (∀ c ∈ copies, (0 : Int) ≤ c.1 ∧ c.1 < (c.2 : Int) ∧ c.2 < n ∧ c.2 < i) →
      (copies.map Prod.snd).Pairwise (fun a b => a < b) →
      ∃ skip' data' copies',
        ftdi_strip_loop m n fuel i skip data copies = .ok (skip', data', copies')
          ∧ (∀ c ∈ copies', (0 : Int) ≤ c.1 ∧ c.1 < (c.2 : Int) ∧ c.2 < n)
          ∧ (copies'.map Prod.snd).Pairwise (fun a b => a < b)
          ∧ data'.length = data.length := by
  intro fuel
  induction fuel with
  | zero =>
    intro i skip data copies hfuel _ _ _ hcop hpw
    unfold ftdi_strip_loop
    rw [if_neg (by omega)]
    exact ⟨_, _, _, rfl, fun c hc => ⟨(hcop c hc).1, (hcop c hc).2.1, (hcop c hc).2.2.1⟩,
      hpw, rfl⟩
  | succ f ih =>
    intro i skip data copies hfuel hlen hskip hle hcop hpw
    unfold ftdi_strip_loop
    by_cases hlt : i < n
    · rw [if_pos hlt, if_neg (by omega)]
      by_cases hb : 0 = i % m
      · rw [if_pos hb]
        have hc2 : FTDI_MODEM_STATUS_BYTES_COUNT = 2 := rfl
        rw [hc2]
        exact ih (i + 2) (skip + 2) data copies (by omega) hlen (by omega) (by omega)
          (fun c hc => ⟨(hcop c hc).1, (hcop c hc).2.1, (hcop c hc).2.2.1,
            by have := (hcop c hc).2.2.2; omega⟩) hpw
      · rw [if_neg hb]
        have h0 : data.get? i = some (data.get ⟨i, by omega⟩) := List.get?_eq_get _
        rw [h0]
        simp only []
        obtain ⟨s', d', c', hrun, hall, hpw', hlen'⟩ :=
          ih (i + 1) skip (data.set (i - skip) (data.get ⟨i, by omega⟩))
            (copies ++ [((i : Int) - (skip : Int), i)]) (by omega)
            (by rw [List.length_set]; exact hlen) hskip (by omega)
            (by
              intro c hc
              rcases List.mem_append.mp hc with hc | hc
              · exact ⟨(hcop c hc).1, (hcop c hc).2.1, (hcop c hc).2.2.1,
                  by have := (hcop c hc).2.2.2; omega⟩
              · rw [List.mem_singleton] at hc
                subst hc
                simp only []
                refine ⟨by omega, by omega, hlt, by omega⟩)
            (by
              rw [List.map_append, List.pairwise_append]
              refine ⟨hpw, by simp, ?_⟩
              intro a ha b hb'
              rw [List.map_singleton, List.mem_singleton] at hb'
              subst hb'
              obtain ⟨c, hc, rfl⟩ := List.mem_map.mp ha
              exact (hcop c hc).2.2.2)
        refine ⟨s', d', c', hrun, hall, hpw', ?_⟩
        rw [hlen', List.length_set]
    · rw [if_neg hlt]
      exact ⟨_, _, _, rfl, fun c hc => ⟨(hcop c hc).1, (hcop c hc).2.1, (hcop c hc).2.2.1⟩,
        hpw, rfl⟩

/-- C28: for a device with bMaxPacketSize0 of at least 1, a byte count n below 2^31 (the
loop variable i is a C int) and a buffer holding at least n bytes, the loop of
ftdi_read_data_postprocessor ends, the postprocessor returns, and every copy
data[i - skip] = data[i] it performed has 0 <= i - skip < i < n; the sources are visited in
strictly increasing order, so a copy writes only below the bytes still to be read, and the
buffer keeps its length. -/
theorem ftdi_postprocessor_copies_index_safe (port : usbserial_port) (data : List Nat)
    (n : Nat) (hm : 1 ≤ port.usb_device_descriptor.bMaxPacketSize0) (_hint : n < 2 ^ 31)
    (hlen : n ≤ data.length) :
    ∃ skip data' copies,
      ftdi_strip_loop port.usb_device_descriptor.bMaxPacketSize0 n n
          FTDI_MODEM_STATUS_BYTES_COUNT FTDI_MODEM_STATUS_BYTES_COUNT data []
        = .ok (skip, data', copies)
      ∧ (∃ count, ftdi_read_data_postprocessor port data n = .ok (data', count))
      ∧ (∀ c ∈ copies, (0 : Int) ≤ c.1 ∧ c.1 < (c.2 : Int) ∧ c.2 < n)
      ∧ (copies.map Prod.snd).Pairwise (fun a b => a < b)
      ∧ data'.length = data.length := by
  obtain ⟨skip, data', copies, hrun, hall, hpw, hl⟩ :=
    ftdi_strip_loop_copies port.usb_device_descriptor.bMaxPacketSize0 n hm n 2 2 data []
      (by omega) hlen (by omega) (by omega) (by simp) (by simp)
  have hc2 : FTDI_MODEM_STATUS_BYTES_COUNT = 2 := rfl
  refine ⟨skip, data', copies, by rw [hc2]; exact hrun, ?_, hall, hpw, hl⟩
  unfold ftdi_read_data_postprocessor
  rw [hc2, hrun]
  exact ⟨_, rfl⟩

/-- C28 at a concrete buffer: 8 bytes from a device with bMaxPacketSize0 4; the copies are
2 to 0, 3 to 1, 6 to 2 and 7 to 3. -/
theorem ftdi_postprocessor_copies_index_safe_witness :
    ∃ skip data' copies,
      ftdi_strip_loop (port_with_packet_size 4).usb_device_descriptor.bMaxPacketSize0 8 8
          FTDI_MODEM_STATUS_BYTES_COUNT FTDI_MODEM_STATUS_BYTES_COUNT
          [0x31, 0x60, 1, 2, 0x31, 0x60, 3, 4] []
        = .ok (skip, data', copies)
      ∧ (∃ count, ftdi_read_data_postprocessor (port_with_packet_size 4)
          [0x31, 0x60, 1, 2, 0x31, 0x60, 3, 4] 8 = .ok (data', count))
      ∧ (∀ c ∈ copies, (0 : Int) ≤ c.1 ∧ c.1 < (c.2 : Int) ∧ c.2 < 8)
      ∧ (copies.map Prod.snd).Pairwise (fun a b => a < b)
      ∧ data'.length = [0x31, 0x60, 1, 2, 0x31, 0x60, 3, 4].length :=
  ftdi_postprocessor_copies_index_safe (port_with_packet_size 4)
    [0x31, 0x60, 1, 2, 0x31, 0x60, 3, 4] 8 (by decide) (by decide) (by decide)

/-- The write path against a transport that makes progress, started on a count n of at least
1 with the calls pre already made: the calls it adds, the first of which is offered n
bytes. -/
theorem bulk_write_progress (transport : bulk_transport)
    (hprog : ∀ calls endpoint buffer length, 1 ≤ length →
      ((transport calls endpoint buffer length).1 = 0
          ∨ (transport calls endpoint buffer length).1 = LIBUSB_ERROR_TIMEOUT) →
        1 ≤ (transport calls endpoint buffer length).2
          ∧ (transport calls endpoint buffer length).2 ≤ length) :
    ∀ fuel (pre : List bulk_call) (endpoint : Nat) (d : List Nat) (n : Nat),
      1 ≤ n → n ≤ fuel → n < 2 ^ 31 →
      ∃ first rest last,
        usbserial_common_bulk_write transport fuel pre endpoint (some d) n
            = (.ok last.ret, pre ++ first :: rest)
          ∧ (first :: rest).getLast? = some last
          ∧ first.length = (n : Int)
          ∧ (first :: rest).length ≤ n
          ∧ List.Chain' (fun a b : bulk_call => 1 ≤ b.length ∧ b.length < a.length)
              (first :: rest) := by
  intro fuel
  induction fuel with
  | zero =>
    intro pre endpoint d n h1 hfuel _
    omega
  | succ f ih =>
    intro pre endpoint d n h1 hfuel h31
    have hcast : to_int32 n = (n : Int) := to_int32_of_lt _ h31
    unfold usbserial_common_bulk_write
    simp only [Option.isSome_some, or_true, not_true_eq_false, if_false, Option.getD_some,
      hcast]
    rw [if_neg (by omega)]
    obtain ⟨c, hc⟩ : ∃ c : bulk_call, c =
        { endpoint := endpoint, data := d, length := (n : Int),
          ret := (transport pre endpoint d (n : Int)).1,
          actual_length := (transport pre endpoint d (n : Int)).2 } := ⟨_, rfl⟩
    rw [← hc]
    have hclen : c.length = (n : Int) := by rw [hc]
    have hcret : c.ret = (transport pre endpoint d (n : Int)).1 := by rw [hc]
    by_cases hsoft : 0 = (transport pre endpoint d (n : Int)).1
        ∨ (transport pre endpoint d (n : Int)).1 = LIBUSB_ERROR_TIMEOUT
    · rw [if_pos hsoft]
      obtain ⟨ha1, ha2⟩ := hprog pre endpoint d (n : Int) (by omega)
        (hsoft.elim (fun h => Or.inl h.symm) Or.inr)
      by_cases hall : (transport pre endpoint d (n : Int)).2 < 0
          ∨ (transport pre endpoint d (n : Int)).2 = (n : Int)
      · rw [if_pos hall, ← hcret]
        exact ⟨c, [], c, rfl, rfl, hclen, by simp; omega, List.chain'_singleton _⟩
      · rw [if_neg hall]
        have hlt : (transport pre endpoint d (n : Int)).2 < (n : Int) := by omega
        obtain ⟨n', hn'⟩ : ∃ n' : Nat,
            n' = (((n : Int) - (transport pre endpoint d (n : Int)).2) % 2 ^ 32).toNat :=
          ⟨_, rfl⟩
        rw [← hn']
        have hn1 : 1 ≤ n' := by omega
        have hn2 : n' < n := by omega
        obtain ⟨first, rest, last, hrun, hlast, hfirst, hlen, hchain⟩ :=
          ih (pre ++ [c]) endpoint (d.drop (transport pre endpoint d (n : Int)).2.toNat) n'
            hn1 (by omega) (by omega)
        refine ⟨c, first :: rest, last, ?_, ?_, hclen, ?_, ?_⟩
        · rw [hrun, List.append_assoc]
          rfl
        · rw [List.getLast?_cons_cons]
          exact hlast
        · rw [List.length_cons]
          omega
        · rw [List.chain'_cons]
          refine ⟨⟨?_, ?_⟩, hchain⟩
          · rw [hfirst]; omega
          · rw [hfirst, hclen]; omega
    · rw [if_neg hsoft, ← hcret]
      exact ⟨c, [], c, rfl, rfl, hclen, by simp; omega, List.chain'_singleton _⟩

theorem timeout_after_three_then_all_progress :
    ∀ calls endpoint buffer length, 1 ≤ length →
      ((timeout_after_three_then_all calls endpoint buffer length).1 = 0
          ∨ (timeout_after_three_then_all calls endpoint buffer length).1
            = LIBUSB_ERROR_TIMEOUT) →
        1 ≤ (timeout_after_three_then_all calls endpoint buffer length).2
          ∧ (timeout_after_three_then_all calls endpoint buffer length).2 ≤ length := by
  intro calls endpoint buffer length h1 _
  unfold timeout_after_three_then_all
  split_ifs
  · simp only []
    omega
  · simp only []
    omega

/-- C30: for a count N of at least 1 (below 2^31, the count is handed to
libusb_bulk_transfer as a C int) and a transport that makes progress, in that every call it
answers with 0 or LIBUSB_ERROR_TIMEOUT reports an actual_length between 1 and the length it
was offered, usbserial_common_bulk_write returns within N levels of recursion: it makes at
least 1 and at most N calls, the first is offered N bytes, every later call is offered at
least 1 byte and strictly fewer than the call before it, and the value returned is the
status of the last call. -/
theorem bulk_write_terminates_with_progress (transport : bulk_transport)
    (fuel endpoint N : Nat) (data : List Nat) (hN : 1 ≤ N) (h31 : N < 2 ^ 31)
    (hfuel : N ≤ fuel)
    (hprog : ∀ calls endpoint buffer length, 1 ≤ length →
      ((transport calls endpoint buffer length).1 = 0
          ∨ (transport calls endpoint buffer length).1 = LIBUSB_ERROR_TIMEOUT) →
        1 ≤ (transport calls endpoint buffer length).2
          ∧ (transport calls endpoint buffer length).2 ≤ length) :
    ∃ calls first last,
      usbserial_common_bulk_write transport fuel [] endpoint (some data) N
          = (.ok last.ret, calls)
        ∧ calls.head? = some first ∧ first.length = (N : Int)
        ∧ calls.getLast? = some last
        ∧ 1 ≤ calls.length ∧ calls.length ≤ N
        ∧ List.Chain' (fun a b : bulk_call => 1 ≤ b.length ∧ b.length < a.length) calls := by
  obtain ⟨first, rest, last, hrun, hlast, hfirst, hlen, hchain⟩ :=
    bulk_write_progress transport hprog fuel [] endpoint data N hN hfuel h31
  rw [List.nil_append] at hrun
  exact ⟨first :: rest, first, last, hrun, rfl, hfirst, hlast, by simp, hlen, hchain⟩

/-- C30 at two concrete transports on 7 bytes: a timeout on the first, partial, transfer is
not reported when the second transfer succeeds (the write returns 0), and a timeout on the
final transfer is reported. -/
theorem bulk_write_terminates_with_progress_witness :
    (∃ calls first last,
      usbserial_common_bulk_write timeout_after_three_then_all 7 [] 0x02
          (some [1, 2, 3, 4, 5, 6, 7]) 7 = (.ok last.ret, calls)
        ∧ calls.head? = some first ∧ first.length = ((7 : Nat) : Int)
        ∧ calls.getLast? = some last
        ∧ 1 ≤ calls.length ∧ calls.length ≤ 7
        ∧ List.Chain' (fun a b : bulk_call => 1 ≤ b.length ∧ b.length < a.length) calls)
      ∧ usbserial_common_bulk_write timeout_after_three_then_all 7 [] 0x02
          (some [1, 2, 3, 4, 5, 6, 7]) 7
        = (.ok 0,
            [{ endpoint := 0x02, data := [1, 2, 3, 4, 5, 6, 7], length := 7,
               ret := LIBUSB_ERROR_TIMEOUT, actual_length := 3 },
             { endpoint := 0x02, data := [4, 5, 6, 7], length := 4, ret := 0,
               actual_length := 4 }])
      ∧ (usbserial_common_bulk_write three_then_timeout_with_all 7 [] 0x02
          (some [1, 2, 3, 4, 5, 6, 7]) 7).1 = .ok LIBUSB_ERROR_TIMEOUT :=
  ⟨bulk_write_terminates_with_progress timeout_after_three_then_all 7 0x02 7
      [1, 2, 3, 4, 5, 6, 7] (by decide) (by decide) (by decide)
      timeout_after_three_then_all_progress,
    rfl, rfl⟩

theorem ftdi_baud_diff_eq_distance (baud e : Nat) (hb : baud ≤ 24000000) (he : e ≤ 3000000) :
    ftdi_baud_diff baud e = (baud_distance baud e : Int) := by
  unfold ftdi_baud_diff baud_distance to_int32
  split_ifs <;> omega

/-- The search of convert_baudrate keeps the first candidate unless the estimate of the
second is strictly closer to the requested baud; the candidates are the quotient and its
successor as convert_baudrate clamps them. -/
theorem ftdi_search_loop_closest (baud : Nat) (_hbaud : 1 ≤ baud) :
    (baud_distance baud
          (ftdi_baud_estimate (ftdi_clamp_divisor (24000000 / baud) (24000000 / baud + 1)))
        < baud_distance baud
          (ftdi_baud_estimate (ftdi_clamp_divisor (24000000 / baud) (24000000 / baud))) →
      (ftdi_search_loop baud (24000000 / baud)).best_divisor
          = ftdi_clamp_divisor (24000000 / baud) (24000000 / baud + 1)
        ∧ (ftdi_search_loop baud (24000000 / baud)).best_baudrate
          = ftdi_baud_estimate
              (ftdi_clamp_divisor (24000000 / baud) (24000000 / baud + 1)))
      ∧ (baud_distance baud
          (ftdi_baud_estimate (ftdi_clamp_divisor (24000000 / baud) (24000000 / baud)))
        ≤ baud_distance baud
          (ftdi_baud_estimate
            (ftdi_clamp_divisor (24000000 / baud) (24000000 / baud + 1))) →
      (ftdi_search_loop baud (24000000 / baud)).best_divisor
          = ftdi_clamp_divisor (24000000 / baud) (24000000 / baud)
        ∧ (ftdi_search_loop baud (24000000 / baud)).best_baudrate
          = ftdi_baud_estimate (ftdi_clamp_divisor (24000000 / baud) (24000000 / baud))) := by
  by_cases hbig : baud ≤ 24000000
  · generalize 24000000 / baud = divisor
    have l0 := ftdi_clamp_divisor_legal divisor divisor (Nat.le_refl _)
    have l1 := ftdi_clamp_divisor_legal divisor (divisor + 1) (Nat.le_succ _)
    have e0 := ftdi_baud_estimate_le (ftdi_clamp_divisor divisor divisor)
      (by unfold legal_divisor at l0; omega)
    have e1 := ftdi_baud_estimate_le (ftdi_clamp_divisor divisor (divisor + 1))
      (by unfold legal_divisor at l1; omega)
    have d0 := ftdi_baud_diff_eq_distance baud _ hbig e0
    have d1 := ftdi_baud_diff_eq_distance baud _ hbig e1
    unfold ftdi_search_loop ftdi_search_body
    simp only [Nat.add_zero, true_or, if_true, decide_eq_true_eq, d0, d1, false_or]
    split_ifs with h0 h1'
    · constructor
      · intro h; exfalso; omega
      · intro _; exact ⟨rfl, rfl⟩
    · have h2 := h1'.resolve_left id
      constructor
      · intro _; exact ⟨rfl, rfl⟩
      · intro h; exfalso; omega
    · have h2 := fun hl => h1' (Or.inr hl)
      constructor
      · intro h; exfalso; omega
      · intro _; exact ⟨rfl, rfl⟩
  · have hq : 24000000 / baud = 0 := Nat.div_eq_of_lt (by omega)
    rw [hq]
    have k0 : ftdi_clamp_divisor 0 0 = 8 := rfl
    have k1 : ftdi_clamp_divisor 0 (0 + 1) = 8 := rfl
    unfold ftdi_search_loop ftdi_search_body
    simp only [Nat.add_zero, true_or, if_true, decide_eq_true_eq, k0, k1, false_or,
      lt_self_iff_false, if_false]
    split_ifs <;> exact ⟨fun _ => ⟨rfl, rfl⟩, fun _ => ⟨rfl, rfl⟩⟩

theorem ftdi_strip_loop_skip_le (m n : Nat) (hm : 3 ≤ m) :
    ∀ fuel i skip data copies, n - i ≤ fuel → n ≤ data.length → skip + 1 ≤ i → skip ≤ n →
      ∃ skip' data' copies',
        ftdi_strip_loop m n fuel i skip data copies = .ok (skip', data', copies')
          ∧ skip' ≤ n := by
  intro fuel
  induction fuel with
  | zero =>
    intro i skip data copies hfuel _ _ hsn
    unfold ftdi_strip_loop
    rw [if_neg (by omega)]
    exact ⟨_, _, _, rfl, hsn⟩
  | succ f ih =>
    intro i skip data copies hfuel hlen hsi hsn
    unfold ftdi_strip_loop
    by_cases hlt : i < n
    · rw [if_pos hlt, if_neg (by omega)]
      by_cases hb : 0 = i % m
      · rw [if_pos hb]
        have hc2 : FTDI_MODEM_STATUS_BYTES_COUNT = 2 := rfl
        rw [hc2]
        exact ih (i + 2) (skip + 2) data copies (by omega) hlen (by omega) (by omega)
      · rw [if_neg hb]
        have h0 : data.get? i = some (data.get ⟨i, by omega⟩) := List.get?_eq_get _
        rw [h0]
        exact ih (i + 1) skip _ _ (by omega) (by rw [List.length_set]; exact hlen)
          (by omega) hsn
    · rw [if_neg hlt]
      exact ⟨_, _, _, rfl, hsn⟩

/-- For a count of at least 2 and a packet size of at least 3 the postprocessor does shrink
the count: it subtracts a skip count that is at most the count. -/
theorem ftdi_postprocessor_count_le (port : usbserial_port) (data : List Nat) (n : Nat)
    (hm : 3 ≤ port.usb_device_descriptor.bMaxPacketSize0) (hn : 2 ≤ n) (h32 : n < 2 ^ 32)
    (hlen : n ≤ data.length) :
    ∃ data' count, ftdi_read_data_postprocessor port data n = .ok (data', count)
      ∧ count ≤ n := by
  have hc2 : FTDI_MODEM_STATUS_BYTES_COUNT = 2 := rfl
  have hloop : ∃ skip' data' copies',
      ftdi_strip_loop port.usb_device_descriptor.bMaxPacketSize0 n n 2 2 data []
          = .ok (skip', data', copies')
        ∧ skip' ≤ n := by
    generalize port.usb_device_descriptor.bMaxPacketSize0 = m at hm
    obtain ⟨f, hf⟩ : ∃ f, n = f + 1 := ⟨n - 1, by omega⟩
    rw [hf]
    rw [← hf]
    conv => enter [1, skip', 1, data', 1, copies', 1, 1, 3]; rw [hf]
    unfold ftdi_strip_loop
    by_cases hlt : 2 < n
    · rw [if_pos hlt, if_neg (by omega)]
      have hmod : 2 % m = 2 := Nat.mod_eq_of_lt (by omega)
      rw [if_neg (by omega)]
      have h0 : data.get? 2 = some (data.get ⟨2, by omega⟩) := List.get?_eq_get _
      rw [h0]
      exact ftdi_strip_loop_skip_le m n hm f 3 2 _ _ (by omega)
        (by rw [List.length_set]; exact hlen) (by omega) (by omega)
    · rw [if_neg hlt]
      exact ⟨_, _, _, rfl, by omega⟩
  obtain ⟨skip', data', copies', hrun, hle⟩ := hloop
  unfold ftdi_read_data_postprocessor
  rw [hc2, hrun]
  refine ⟨data', _, rfl, ?_⟩
  simp only []
  omega

end Usbserial
